import Mathlib

/-!
# IronRod recovery engine — shallow embedding and verification

This file embeds the core algorithms of the IronRod deleted-file recovery
engine (the Python sources under `src/recovery/`) as Lean definitions and
proves or refutes the specification claims about them.

Modelling conventions:
* Python `bytes` values are `List Nat` with elements in `[0, 256)`.
* Python slices, `find`/`rfind`, and `struct` decoding are modelled by the
  helper functions in the first section, with Python's clamping semantics.
* `hashlib.md5(...).hexdigest()` comparisons are modelled by comparing the
  16 digest bytes of a full MD5 implementation (hex strings are equal
  exactly when the digest bytes are equal).
* Shannon entropy (computed in floating point by the source) is modelled by
  the exact real value; every concrete evaluation below is placed away from
  the comparison thresholds, where the float and the real agree.
* Human-readable issue strings are modelled by an inductive tag type that
  preserves exactly the membership and substring tests the source performs
  on them; repair-action strings are kept as string literals.
-/

set_option maxHeartbeats 4000000
set_option maxRecDepth 100000
set_option linter.unreachableTactic false
set_option linter.unusedTactic false

namespace IronRod

/-- A byte: the source manipulates Python `bytes`, whose elements are
integers in `[0, 256)`. -/
abbrev Byte := Nat

/-- `byteAt d i` is Python `d[i]` at a guarded (in-range) position; out of
range it defaults to `0`, which no guarded use site can observe. -/
def byteAt (d : List Byte) (i : Nat) : Byte := d.getD i 0

/-- Python slice `d[a:b]` for nonnegative bounds (clamped at the length). -/
def slice (d : List Byte) (a b : Nat) : List Byte := (d.drop a).take (b - a)

/-- Python slice `d[:n]`. -/
def takeN (d : List Byte) (n : Nat) : List Byte := d.take n

/-- Python slice `d[-k:]`: the last `k` bytes (all of `d` when `k ≥ len`). -/
def takeLast (d : List Byte) (k : Nat) : List Byte := d.drop (d.length - k)

/-- The scan of `findSeq`, carrying the index of the head of the remaining
suffix. -/
def findSeqAux (pat : List Byte) : List Byte → Nat → Option Nat
  | [], i => if pat = [] then some i else none
  | b :: rest, i =>
    if pat.isPrefixOf (b :: rest) then some i else findSeqAux pat rest (i + 1)

/-- First index at which `pat` occurs in `d` (Python `d.find(pat)`, with
`none` for Python's `-1`). -/
def findSeq (pat d : List Byte) : Option Nat := findSeqAux pat d 0

/-- Python `d.find(pat, start)`. -/
def findSeqFrom (pat : List Byte) (d : List Byte) (start : Nat) : Option Nat :=
  (findSeq pat (d.drop start)).map (· + start)

/-- The scan of `rfindSeq`, keeping the latest match in the accumulator. -/
def rfindSeqAux (pat : List Byte) : List Byte → Nat → Option Nat → Option Nat
  | [], i, acc => if pat = [] then some i else acc
  | b :: rest, i, acc =>
    rfindSeqAux pat rest (i + 1)
      (if pat.isPrefixOf (b :: rest) then some i else acc)

/-- Last index at which `pat` occurs in `d` (Python `d.rfind(pat)`). -/
def rfindSeq (pat d : List Byte) : Option Nat := rfindSeqAux pat d 0 none

/-- Python `pat in d` (contiguous subsequence test). -/
def containsSeq (pat d : List Byte) : Bool := (findSeq pat d).isSome

/-- Big-endian 16-bit read at `pos` (`struct.unpack(">H", d[pos:pos+2])`). -/
def u16be (d : List Byte) (pos : Nat) : Nat :=
  byteAt d pos * 256 + byteAt d (pos + 1)

/-- Little-endian 16-bit read at `pos`. -/
def u16le (d : List Byte) (pos : Nat) : Nat :=
  byteAt d pos + byteAt d (pos + 1) * 256

/-- Big-endian 32-bit read at `pos` (`struct.unpack(">I", d[pos:pos+4])`). -/
def u32be (d : List Byte) (pos : Nat) : Nat :=
  byteAt d pos * 16777216 + byteAt d (pos + 1) * 65536 +
    byteAt d (pos + 2) * 256 + byteAt d (pos + 3)

/-- Little-endian 32-bit read at `pos`. -/
def u32le (d : List Byte) (pos : Nat) : Nat :=
  byteAt d pos + byteAt d (pos + 1) * 256 +
    byteAt d (pos + 2) * 65536 + byteAt d (pos + 3) * 16777216

/-- Big-endian 64-bit read at `pos` (`struct.unpack(">Q", ...)`). -/
def u64be (d : List Byte) (pos : Nat) : Nat :=
  u32be d pos * 4294967296 + u32be d (pos + 4)

/-- `struct.pack_into("<I", d, pos, v)`: overwrite 4 little-endian bytes. -/
def packU32leInto (d : List Byte) (pos : Nat) (v : Nat) : List Byte :=
  ((((d.set pos (v % 256)).set (pos + 1) (v / 256 % 256)).set
      (pos + 2) (v / 65536 % 256)).set (pos + 3) (v / 16777216 % 256))

/-- `struct.pack_into(">I", d, pos, v)`: overwrite 4 big-endian bytes. -/
def packU32beInto (d : List Byte) (pos : Nat) (v : Nat) : List Byte :=
  ((((d.set pos (v / 16777216 % 256)).set (pos + 1) (v / 65536 % 256)).set
      (pos + 2) (v / 256 % 256)).set (pos + 3) (v % 256))

/-- `abs(a - b)` for Python integers restricted to naturals. -/
def natDist (a b : Nat) : Nat := max a b - min a b

/-- Python `str.lower()` for the ASCII extension strings used here
(structural, so that the kernel can evaluate it). -/
def lowerExt (s : String) : String :=
  ⟨s.data.map (fun c => if 65 ≤ c.toNat ∧ c.toNat ≤ 90 then Char.ofNat (c.toNat + 32) else c)⟩

/-! ## CRC-32 (`zlib.crc32`) -/

/-- One bit step of the reflected CRC-32 update (polynomial `0xEDB88320`). -/
def crc32BitStep (c : Nat) : Nat :=
  if c % 2 = 1 then Nat.xor (c / 2) 0xEDB88320 else c / 2

/-- Update the CRC-32 state with one byte. -/
def crc32Byte (c : Nat) (b : Byte) : Nat :=
  crc32BitStep (crc32BitStep (crc32BitStep (crc32BitStep
    (crc32BitStep (crc32BitStep (crc32BitStep (crc32BitStep
      (Nat.xor c (b % 256)))))))))

/-- `zlib.crc32(data) & 0xFFFFFFFF`. -/
def crc32 (data : List Byte) : Nat :=
  Nat.xor (data.foldl crc32Byte 0xFFFFFFFF) 0xFFFFFFFF

/-! ## MD5 (`hashlib.md5`) -/

/-- Addition modulo `2^32`. -/
def add32 (a b : Nat) : Nat := (a + b) % 4294967296

/-- Left rotation of a 32-bit value by `s` bits. -/
def rotl32 (x s : Nat) : Nat := x * 2 ^ s % 4294967296 + x / 2 ^ (32 - s)

/-- Bitwise complement of a 32-bit value. -/
def not32 (x : Nat) : Nat := 4294967295 - x

/-- The 64 MD5 sine-derived constants. -/
def md5K : List Nat :=
  [0xd76aa478, 0xe8c7b756, 0x242070db, 0xc1bdceee,
   0xf57c0faf, 0x4787c62a, 0xa8304613, 0xfd469501,
   0x698098d8, 0x8b44f7af, 0xffff5bb1, 0x895cd7be,
   0x6b901122, 0xfd987193, 0xa679438e, 0x49b40821,
   0xf61e2562, 0xc040b340, 0x265e5a51, 0xe9b6c7aa,
   0xd62f105d, 0x02441453, 0xd8a1e681, 0xe7d3fbc8,
   0x21e1cde6, 0xc33707d6, 0xf4d50d87, 0x455a14ed,
   0xa9e3e905, 0xfcefa3f8, 0x676f02d9, 0x8d2a4c8a,
   0xfffa3942, 0x8771f681, 0x6d9d6122, 0xfde5380c,
   0xa4beea44, 0x4bdecfa9, 0xf6bb4b60, 0xbebfbc70,
   0x289b7ec6, 0xeaa127fa, 0xd4ef3085, 0x04881d05,
   0xd9d4d039, 0xe6db99e5, 0x1fa27cf8, 0xc4ac5665,
   0xf4292244, 0x432aff97, 0xab9423a7, 0xfc93a039,
   0x655b59c3, 0x8f0ccc92, 0xffeff47d, 0x85845dd1,
   0x6fa87e4f, 0xfe2ce6e0, 0xa3014314, 0x4e0811a1,
   0xf7537e82, 0xbd3af235, 0x2ad7d2bb, 0xeb86d391]

/-- The 64 MD5 per-round left-rotation amounts. -/
def md5S : List Nat :=
  [7, 12, 17, 22, 7, 12, 17, 22, 7, 12, 17, 22, 7, 12, 17, 22,
   5, 9, 14, 20, 5, 9, 14, 20, 5, 9, 14, 20, 5, 9, 14, 20,
   4, 11, 16, 23, 4, 11, 16, 23, 4, 11, 16, 23, 4, 11, 16, 23,
   6, 10, 15, 21, 6, 10, 15, 21, 6, 10, 15, 21, 6, 10, 15, 21]

/-- The MD5 round function for round `i`. -/
def md5F (i b c d : Nat) : Nat :=
  if i < 16 then Nat.lor (Nat.land b c) (Nat.land (not32 b) d)
  else if i < 32 then Nat.lor (Nat.land d b) (Nat.land (not32 d) c)
  else if i < 48 then Nat.xor b (Nat.xor c d)
  else Nat.xor c (Nat.lor b (not32 d))

/-- The message-word index consumed by round `i`. -/
def md5G (i : Nat) : Nat :=
  if i < 16 then i
  else if i < 32 then (5 * i + 1) % 16
  else if i < 48 then (3 * i + 5) % 16
  else 7 * i % 16

/-- Little-endian 32-bit word `j` of a 64-byte block. -/
def md5Word (block : List Byte) (j : Nat) : Nat :=
  byteAt block (4 * j) + byteAt block (4 * j + 1) * 256 +
    byteAt block (4 * j + 2) * 65536 + byteAt block (4 * j + 3) * 16777216

/-- One MD5 round applied to the state `(a, b, c, d)`. -/
def md5Round (block : List Byte) (st : Nat × Nat × Nat × Nat) (i : Nat) :
    Nat × Nat × Nat × Nat :=
  let a := st.1
  let b := st.2.1
  let c := st.2.2.1
  let d := st.2.2.2
  let tmp := add32 (add32 a (md5F i b c d)) (add32 (md5K.getD i 0) (md5Word block (md5G i)))
  (d, add32 b (rotl32 tmp (md5S.getD i 0)), b, c)

/-- Process one 64-byte block. -/
def md5Block (st : Nat × Nat × Nat × Nat) (block : List Byte) :
    Nat × Nat × Nat × Nat :=
  let r := (List.range 64).foldl (md5Round block) st
  (add32 st.1 r.1, add32 st.2.1 r.2.1, add32 st.2.2.1 r.2.2.1, add32 st.2.2.2 r.2.2.2)

/-- 64-bit little-endian encoding (for the MD5 length trailer). -/
def u64leBytes (v : Nat) : List Byte :=
  [v % 256, v / 256 % 256, v / 65536 % 256, v / 16777216 % 256,
   v / 4294967296 % 256, v / 1099511627776 % 256,
   v / 281474976710656 % 256, v / 72057594037927936 % 256]

/-- 32-bit little-endian encoding. -/
def u32leBytes (v : Nat) : List Byte :=
  [v % 256, v / 256 % 256, v / 65536 % 256, v / 16777216 % 256]

/-- MD5 message padding. -/
def md5Pad (msg : List Byte) : List Byte :=
  msg ++ [128] ++ List.replicate ((56 + 64 - (msg.length + 1) % 64) % 64) 0 ++
    u64leBytes (msg.length * 8 % 18446744073709551616)

/-- Split a message into 64-byte blocks. -/
def chunks64 (l : List Byte) : List (List Byte) :=
  if h : l = [] then []
  else
    have _hlen : 0 < l.length := List.length_pos.mpr h
    l.take 64 :: chunks64 (l.drop 64)
termination_by l.length
decreasing_by simp; omega

/-- The MD5 initial state. -/
def md5Init : Nat × Nat × Nat × Nat :=
  (0x67452301, 0xefcdab89, 0x98badcfe, 0x10325476)

/-- The 16 MD5 digest bytes of `data` (`hashlib.md5(data).digest()`; the
source compares hex digests, which are equal exactly when these bytes are
equal). -/
def md5 (data : List Byte) : List Byte :=
  let st := (chunks64 (md5Pad data)).foldl md5Block md5Init
  u32leBytes st.1 ++ u32leBytes st.2.1 ++ u32leBytes st.2.2.1 ++ u32leBytes st.2.2.2

/-- `smart_filter.compute_md5` (returns the digest rather than its hex
rendering; two hex renderings are equal exactly when the digests are). -/
def compute_md5 (data : List Byte) : List Byte := md5 data

/-! ## Shannon entropy

`calculate_entropy` appears identically in `damage_detector.py` and
`smart_filter.py`; the floating-point accumulation is modelled by the exact
real value it approximates. -/

/-- Shannon entropy of a byte sequence in bits per byte (0.0 – 8.0). -/
noncomputable def calculate_entropy (data : List Byte) : ℝ :=
  if data = [] then 0
  else ∑ v ∈ Finset.range 256,
    (if data.count v ≠ 0 then
      -((data.count v : ℝ) / data.length * Real.logb 2 ((data.count v : ℝ) / data.length))
     else 0)

/-! ## `smart_filter.py` — per-format validators

Each `validate_*` function below is the direct translation of the function
of the same name.  Byte-string literals are written as byte lists. -/

/-- Thresholds from `smart_filter.py`. -/
def MIN_FILE_SIZE : Nat := 4 * 1024

/-- Minimum size for very small formats (ICO). -/
def MIN_FILE_SIZE_SMALL : Nat := 256

/-- `MIN_ENTROPY = 1.0`. -/
noncomputable def MIN_ENTROPY : ℝ := 1

/-- `MAX_ENTROPY = 7.9999`. -/
noncomputable def MAX_ENTROPY : ℝ := 79999 / 10000

/-- Signed little-endian 32-bit read (`struct.unpack("<i", ...)`). -/
def i32le (d : List Byte) (pos : Nat) : Int :=
  let u := u32le d pos
  if 2147483648 ≤ u then (u : Int) - 4294967296 else (u : Int)

def validate_jpeg (d : List Byte) : Bool :=
  if d.length < 4 ∨ takeN d 2 ≠ [0xFF, 0xD8] then false
  else if byteAt d 2 ≠ 0xFF then false
  else
    let m := byteAt d 3
    if m < 0xC0 then false
    else if 0xD0 ≤ m ∧ m ≤ 0xD7 then false
    else true

/-- The 8-byte PNG signature. -/
def pngSig : List Byte := [0x89, 0x50, 0x4E, 0x47, 0x0D, 0x0A, 0x1A, 0x0A]

def validate_png (d : List Byte) : Bool :=
  if d.length < 24 then false
  else if takeN d 8 ≠ pngSig then false
  else slice d 12 16 = [0x49, 0x48, 0x44, 0x52]

def validate_gif (d : List Byte) : Bool :=
  if d.length < 13 then false
  else takeN d 6 = [0x47, 0x49, 0x46, 0x38, 0x37, 0x61] ∨
       takeN d 6 = [0x47, 0x49, 0x46, 0x38, 0x39, 0x61]

/-- The `dib_sz >= 40` branch of `validate_bmp` (planes, bpp, dimensions). -/
def bmpDimsOk (d : List Byte) (dib_sz : Nat) : Bool :=
  if 40 ≤ dib_sz ∧ 30 ≤ d.length then
    let width := i32le d 18
    let height := i32le d 22
    let planes := u16le d 26
    let bpp := u16le d 28
    if planes ≠ 1 then false
    else if ¬ (bpp = 1 ∨ bpp = 2 ∨ bpp = 4 ∨ bpp = 8 ∨ bpp = 16 ∨
               bpp = 24 ∨ bpp = 32) then false
    else if width.natAbs = 0 ∨ 65536 < width.natAbs then false
    else if height.natAbs = 0 ∨ 65536 < height.natAbs then false
    else true
  else true

def validate_bmp (d : List Byte) : Bool :=
  if d.length < 54 then false
  else if takeN d 2 ≠ [0x42, 0x4D] then false
  else
    let file_size := u32le d 2
    let reserved1 := u16le d 6
    let reserved2 := u16le d 8
    let data_off := u32le d 10
    if reserved1 ≠ 0 ∨ reserved2 ≠ 0 then false
    else
      let dib_sz := u32le d 14
      if ¬ (dib_sz = 12 ∨ dib_sz = 40 ∨ dib_sz = 52 ∨ dib_sz = 56 ∨
            dib_sz = 64 ∨ dib_sz = 108 ∨ dib_sz = 124) then false
      else if ¬ bmpDimsOk d dib_sz then false
        else if data_off < 14 + dib_sz then false
        else if file_size < 54 ∨ 500 * 1024 * 1024 < file_size then false
        else if file_size < data_off then false
        else true

def validate_tiff (d : List Byte) : Bool :=
  if d.length < 8 then false
  else if takeN d 2 = [0x49, 0x49] then u16le d 2 = 42
  else if takeN d 2 = [0x4D, 0x4D] then u16be d 2 = 42
  else false

def validate_webp (d : List Byte) : Bool :=
  if d.length < 12 then false
  else takeN d 4 = [0x52, 0x49, 0x46, 0x46] ∧
       slice d 8 12 = [0x57, 0x45, 0x42, 0x50]

def validate_jp2 (d : List Byte) : Bool :=
  if d.length < 12 then false
  else takeN d 12 = [0x00, 0x00, 0x00, 0x0C, 0x6A, 0x50, 0x20, 0x20, 0x0D, 0x0A, 0x87, 0x0A]

def validate_psd (d : List Byte) : Bool :=
  if d.length < 6 then false
  else if takeN d 4 ≠ [0x38, 0x42, 0x50, 0x53] then false
  else u16be d 4 = 1 ∨ u16be d 4 = 2

/-- The first-directory-entry check of `validate_ico` (`dir_end` is
`6 + count * 16`). -/
def icoEntryOk (d : List Byte) (dir_end : Nat) : Bool :=
  if min dir_end 22 ≤ d.length then
    if 6 + 16 ≤ d.length then
      let img_sz := u32le d 14
      let img_off := u32le d 18
      if img_off < dir_end then false
      else if img_sz = 0 ∨ 10 * 1024 * 1024 < img_sz then false
      else true
    else true
  else true

def validate_ico (d : List Byte) : Bool :=
  if d.length < 6 then false
  else
    let reserved := u16le d 0
    let img_type := u16le d 2
    let count := u16le d 4
    if reserved ≠ 0 then false
    else if ¬ (img_type = 1 ∨ img_type = 2) then false
    else if count = 0 ∨ 256 < count then false
    else icoEntryOk d (6 + count * 16)

def validate_raf (d : List Byte) : Bool :=
  if d.length < 16 then false
  else takeN d 16 = [0x46, 0x55, 0x4A, 0x49, 0x46, 0x49, 0x4C, 0x4D,
                     0x43, 0x43, 0x44, 0x2D, 0x52, 0x41, 0x57, 0x20]

def validate_isobmff (d : List Byte) : Bool :=
  if d.length < 12 then false
  else
    let box_size := u32be d 0
    let box_type := slice d 4 8
    if box_type ≠ [0x66, 0x74, 0x79, 0x70] then false
    else if box_size < 8 ∨ 4096 < box_size then false
    else true

def validate_avi (d : List Byte) : Bool :=
  if d.length < 12 then false
  else takeN d 4 = [0x52, 0x49, 0x46, 0x46] ∧
       slice d 8 12 = [0x41, 0x56, 0x49, 0x20]

def validate_mkv (d : List Byte) : Bool :=
  if d.length < 4 then false
  else takeN d 4 = [0x1A, 0x45, 0xDF, 0xA3]

def validate_flv (d : List Byte) : Bool :=
  if d.length < 9 then false
  else if takeN d 3 ≠ [0x46, 0x4C, 0x56] then false
  else
    let version := byteAt d 3
    if version < 1 ∨ 10 < version then false else true

def validate_wmv (d : List Byte) : Bool :=
  if d.length < 16 then false
  else takeN d 8 = [0x30, 0x26, 0xB2, 0x75, 0x8E, 0x66, 0xCF, 0x11]

/-- `_find_mpeg_start_code`: first `00 00 01` within `max_offset` bytes. -/
def find_mpeg_start_code (d : List Byte) (max_offset : Nat := 32) : Option Nat :=
  if d.length < 4 then none
  else
    let limit := min max_offset (d.length - 4)
    (List.range (limit + 1)).find? (fun i => slice d i (i + 3) = [0, 0, 1])

def validate_mpg (d : List Byte) : Bool :=
  if d.length < 12 then false
  else
    match find_mpeg_start_code d 32 with
    | none => false
    | some start =>
      let code := byteAt d (start + 3)
      if code = 0xB3 ∧ start + 12 ≤ d.length then
        let h_size := byteAt d (start + 4) * 16 + byteAt d (start + 5) / 16
        let v_size := byteAt d (start + 5) % 16 * 256 + byteAt d (start + 6)
        if h_size = 0 ∨ 7680 < h_size then false
        else if v_size = 0 ∨ 4320 < v_size then false
        else
          let aspect_ratio := byteAt d (start + 7) / 16 % 16
          let frame_rate := byteAt d (start + 7) % 16
          if aspect_ratio = 0 then false
          else if frame_rate = 0 ∨ 8 < frame_rate then false
          else true
      else if code = 0xBA then
        let b4 := byteAt d (start + 4)
        if b4 / 64 % 4 = 1 then true
        else if b4 / 16 % 16 = 2 then true
        else false
      else if code = 0xB7 ∨ code = 0xB8 ∨ code = 0xB9 ∨ code = 0xBB ∨
              code = 0xBC ∨ code = 0xBD ∨ code = 0xBE ∨ code = 0xBF then true
      else if 0xC0 ≤ code ∧ code ≤ 0xDF then true
      else if 0xE0 ≤ code ∧ code ≤ 0xEF then true
      else false

def validate_ts (d : List Byte) : Bool :=
  if d.length < 188 * 3 then false
  else byteAt d 0 = 0x47 ∧ byteAt d 188 = 0x47 ∧ byteAt d 376 = 0x47

def validate_vob (d : List Byte) : Bool := validate_mpg d

def validate_ogv (d : List Byte) : Bool :=
  if d.length < 4 then false
  else takeN d 4 = [0x4F, 0x67, 0x67, 0x53]

def validate_rm (d : List Byte) : Bool :=
  if d.length < 4 then false
  else takeN d 4 = [0x2E, 0x52, 0x4D, 0x46]

def validate_swf (d : List Byte) : Bool :=
  if d.length < 8 then false
  else takeN d 3 = [0x46, 0x57, 0x53] ∨ takeN d 3 = [0x43, 0x57, 0x53]

def validate_mp3 (d : List Byte) : Bool :=
  if d.length < 4 then false
  else if takeN d 3 = [0x49, 0x44, 0x33] then
    if d.length < 10 then false
    else byteAt d 3 = 2 ∨ byteAt d 3 = 3 ∨ byteAt d 3 = 4
  else if byteAt d 0 = 0xFF ∧ byteAt d 1 / 32 % 8 = 7 then
    let version := byteAt d 1 / 8 % 4
    if version = 1 then false
    else
      let layer := byteAt d 1 / 2 % 4
      if layer = 0 then false
      else
        let bitrate_idx := byteAt d 2 / 16 % 16
        if bitrate_idx = 15 then false
        else
          let sample_idx := byteAt d 2 / 4 % 4
          if sample_idx = 3 then false
          else true
  else false

def validate_wav (d : List Byte) : Bool :=
  if d.length < 16 then false
  else if takeN d 4 ≠ [0x52, 0x49, 0x46, 0x46] then false
  else if slice d 8 12 ≠ [0x57, 0x41, 0x56, 0x45] then false
  else if slice d 12 16 = [0x66, 0x6D, 0x74, 0x20] then true
  else containsSeq [0x66, 0x6D, 0x74, 0x20] (takeN d 256)

def validate_flac (d : List Byte) : Bool :=
  if d.length < 8 then false
  else if takeN d 4 ≠ [0x66, 0x4C, 0x61, 0x43] then false
  else byteAt d 4 % 128 = 0

def validate_aiff (d : List Byte) : Bool :=
  if d.length < 12 then false
  else if takeN d 4 ≠ [0x46, 0x4F, 0x52, 0x4D] then false
  else slice d 8 12 = [0x41, 0x49, 0x46, 0x46] ∨
       slice d 8 12 = [0x41, 0x49, 0x46, 0x43]

def validate_midi (d : List Byte) : Bool :=
  if d.length < 14 then false
  else if takeN d 4 ≠ [0x4D, 0x54, 0x68, 0x64] then false
  else u32be d 4 = 6

def validate_pdf (d : List Byte) : Bool :=
  if d.length < 8 then false
  else if takeN d 5 ≠ [0x25, 0x50, 0x44, 0x46, 0x2D] then false
  else
    let c := byteAt d 5
    if 0x30 ≤ c ∧ c ≤ 0x39 then c - 0x30 = 1 ∨ c - 0x30 = 2 else false

def validate_zip (d : List Byte) : Bool :=
  if d.length < 30 then false
  else if takeN d 4 ≠ [0x50, 0x4B, 0x03, 0x04] then false
  else if 100 < u16le d 4 then false
  else
    let fn_len := u16le d 26
    if fn_len = 0 ∨ 1024 < fn_len then false else true

def validate_sqlite (d : List Byte) : Bool :=
  if d.length < 100 then false
  else if takeN d 16 ≠ [0x53, 0x51, 0x4C, 0x69, 0x74, 0x65, 0x20, 0x66,
                        0x6F, 0x72, 0x6D, 0x61, 0x74, 0x20, 0x33, 0x00] then false
  else
    let ps0 := u16be d 16
    let page_size := if ps0 = 1 then 65536 else ps0
    if page_size < 512 ∨ 65536 < page_size then false
    else Nat.land page_size (page_size - 1) = 0

def validate_rtf (d : List Byte) : Bool :=
  if d.length < 10 then false
  else if takeN d 5 ≠ [0x7B, 0x5C, 0x72, 0x74, 0x66] then false
  else containsSeq [0x7D] (takeN d (min d.length 4096))

def validate_xml (d : List Byte) : Bool :=
  if d.length < 10 then false
  else
    let start := if takeN d 3 = [0xEF, 0xBB, 0xBF] then slice d 3 13 else takeN d 10
    start.take 5 = [0x3C, 0x3F, 0x78, 0x6D, 0x6C] ∨ start.take 2 = [0x3C, 0x3F]

/-- `bytes.lower()` on one byte. -/
def byteLower (b : Byte) : Byte := if 0x41 ≤ b ∧ b ≤ 0x5A then b + 32 else b

def validate_html (d : List Byte) : Bool :=
  if d.length < 15 then false
  else
    let lower := (takeN d 256).map byteLower
    containsSeq [0x3C, 0x21, 0x64, 0x6F, 0x63, 0x74, 0x79, 0x70, 0x65, 0x20,
                 0x68, 0x74, 0x6D, 0x6C] lower ∨
    containsSeq [0x3C, 0x68, 0x74, 0x6D, 0x6C] lower ∨
    containsSeq [0x3C, 0x68, 0x65, 0x61, 0x64] lower ∨
    containsSeq [0x3C, 0x62, 0x6F, 0x64, 0x79] lower

def validate_eps (d : List Byte) : Bool :=
  if d.length < 14 then false
  else takeN d 11 = [0x25, 0x21, 0x50, 0x53, 0x2D, 0x41, 0x64, 0x6F, 0x62, 0x65, 0x2D]

def validate_ole2 (d : List Byte) : Bool :=
  if d.length < 512 then false
  else if takeN d 8 ≠ [0xD0, 0xCF, 0x11, 0xE0, 0xA1, 0xB1, 0x1A, 0xE1] then false
  else u16le d 26 = 3 ∨ u16le d 26 = 4

def validate_7z (d : List Byte) : Bool :=
  if d.length < 32 then false
  else if takeN d 6 ≠ [0x37, 0x7A, 0xBC, 0xAF, 0x27, 0x1C] then false
  else byteAt d 6 = 0

def validate_rar (d : List Byte) : Bool :=
  if d.length < 12 then false
  else if takeN d 7 = [0x52, 0x61, 0x72, 0x21, 0x1A, 0x07, 0x00] then true
  else if takeN d 8 = [0x52, 0x61, 0x72, 0x21, 0x1A, 0x07, 0x01, 0x00] then true
  else false

def validate_gz (d : List Byte) : Bool :=
  if d.length < 10 then false
  else if takeN d 2 ≠ [0x1F, 0x8B] then false
  else byteAt d 2 = 8

def validate_bz2 (d : List Byte) : Bool :=
  if d.length < 10 then false
  else if takeN d 3 ≠ [0x42, 0x5A, 0x68] then false
  else 0x31 ≤ byteAt d 3 ∧ byteAt d 3 ≤ 0x39

def validate_xz (d : List Byte) : Bool :=
  if d.length < 12 then false
  else takeN d 6 = [0xFD, 0x37, 0x7A, 0x58, 0x5A, 0x00]

def validate_tar (d : List Byte) : Bool :=
  if d.length < 512 then false
  else slice d 257 262 = [0x75, 0x73, 0x74, 0x61, 0x72]

def validate_cab (d : List Byte) : Bool :=
  if d.length < 36 then false
  else if takeN d 4 ≠ [0x4D, 0x53, 0x43, 0x46] then false
  else
    let cab_size := u32le d 8
    36 ≤ cab_size ∧ cab_size ≤ 2 * 1024 * 1024 * 1024

def validate_iso (d : List Byte) : Bool :=
  if d.length < 32774 then false
  else slice d 32769 32774 = [0x43, 0x44, 0x30, 0x30, 0x31]

def validate_zstd (d : List Byte) : Bool :=
  if d.length < 8 then false
  else takeN d 4 = [0x28, 0xB5, 0x2F, 0xFD]

def validate_lz4 (d : List Byte) : Bool :=
  if d.length < 7 then false
  else takeN d 4 = [0x04, 0x22, 0x4D, 0x18]

def validate_exe (d : List Byte) : Bool :=
  if d.length < 64 then false
  else if takeN d 2 ≠ [0x4D, 0x5A] then false
  else
    let pe_offset := u32le d 60
    if d.length < pe_offset + 4 then true
    else slice d pe_offset (pe_offset + 4) = [0x50, 0x45, 0x00, 0x00]

def validate_elf (d : List Byte) : Bool :=
  if d.length < 16 then false
  else if takeN d 4 ≠ [0x7F, 0x45, 0x4C, 0x46] then false
  else (byteAt d 4 = 1 ∨ byteAt d 4 = 2) ∧ (byteAt d 5 = 1 ∨ byteAt d 5 = 2)

def validate_macho (d : List Byte) : Bool :=
  if d.length < 28 then false
  else
    let magic := takeN d 4
    magic = [0xFE, 0xED, 0xFA, 0xCE] ∨ magic = [0xFE, 0xED, 0xFA, 0xCF] ∨
    magic = [0xCE, 0xFA, 0xED, 0xFE] ∨ magic = [0xCF, 0xFA, 0xED, 0xFE] ∨
    magic = [0xCA, 0xFE, 0xBA, 0xBE]

def validate_dex (d : List Byte) : Bool :=
  if d.length < 112 then false
  else if takeN d 4 ≠ [0x64, 0x65, 0x78, 0x0A] then false
  else byteAt d 7 = 0

def validate_wasm (d : List Byte) : Bool :=
  if d.length < 8 then false
  else if takeN d 4 ≠ [0x00, 0x61, 0x73, 0x6D] then false
  else u32le d 4 = 1

def validate_ttf (d : List Byte) : Bool :=
  if d.length < 12 then false
  else if ¬ (takeN d 4 = [0x00, 0x01, 0x00, 0x00] ∨
             takeN d 4 = [0x74, 0x72, 0x75, 0x65]) then false
  else 1 ≤ u16be d 4 ∧ u16be d 4 ≤ 256

def validate_otf (d : List Byte) : Bool :=
  if d.length < 12 then false
  else if takeN d 4 ≠ [0x4F, 0x54, 0x54, 0x4F] then false
  else 1 ≤ u16be d 4 ∧ u16be d 4 ≤ 256

def validate_woff (d : List Byte) : Bool :=
  if d.length < 44 then false
  else if takeN d 4 ≠ [0x77, 0x4F, 0x46, 0x46] then false
  else 44 ≤ u32be d 4

def validate_woff2 (d : List Byte) : Bool :=
  if d.length < 48 then false
  else if takeN d 4 ≠ [0x77, 0x4F, 0x46, 0x32] then false
  else 48 ≤ u32be d 4

def validate_parquet (d : List Byte) : Bool :=
  if d.length < 12 then false
  else if takeN d 4 ≠ [0x50, 0x41, 0x52, 0x31] then false
  else true

def validate_hdf5 (d : List Byte) : Bool :=
  if d.length < 16 then false
  else takeN d 8 = [0x89, 0x48, 0x44, 0x46, 0x0D, 0x0A, 0x1A, 0x0A]

def validate_npy (d : List Byte) : Bool :=
  if d.length < 10 then false
  else if takeN d 6 ≠ [0x93, 0x4E, 0x55, 0x4D, 0x50, 0x59] then false
  else byteAt d 6 = 1 ∨ byteAt d 6 = 2 ∨ byteAt d 6 = 3

def validate_pcap (d : List Byte) : Bool :=
  if d.length < 24 then false
  else
    let magic := takeN d 4
    if magic = [0xD4, 0xC3, 0xB2, 0xA1] then u16le d 4 = 2
    else if magic = [0xA1, 0xB2, 0xC3, 0xD4] then u16be d 4 = 2
    else false

def validate_pcapng (d : List Byte) : Bool :=
  if d.length < 28 then false
  else takeN d 4 = [0x0A, 0x0D, 0x0D, 0x0A]

def validate_lnk (d : List Byte) : Bool :=
  if d.length < 76 then false
  else takeN d 8 = [0x4C, 0x00, 0x00, 0x00, 0x01, 0x14, 0x02, 0x00]

def validate_reg (d : List Byte) : Bool :=
  if d.length < 4096 then false
  else takeN d 4 = [0x72, 0x65, 0x67, 0x66]

def validate_plist (d : List Byte) : Bool :=
  if d.length < 8 then false
  else takeN d 6 = [0x62, 0x70, 0x6C, 0x69, 0x73, 0x74]

def validate_avro (d : List Byte) : Bool :=
  if d.length < 16 then false
  else takeN d 4 = [0x4F, 0x62, 0x6A, 0x01]

def validate_orc (d : List Byte) : Bool :=
  if d.length < 4 then false
  else takeN d 3 = [0x4F, 0x52, 0x43]

/-- The `_VALIDATORS` dispatch table (`smart_filter.py`). -/
def validatorFor (ext : String) : Option (List Byte → Bool) :=
  match ext with
  | "jpg" => some validate_jpeg
  | "jpeg" => some validate_jpeg
  | "png" => some validate_png
  | "gif" => some validate_gif
  | "bmp" => some validate_bmp
  | "tiff" => some validate_tiff
  | "tif" => some validate_tiff
  | "webp" => some validate_webp
  | "jp2" => some validate_jp2
  | "psd" => some validate_psd
  | "ico" => some validate_ico
  | "raf" => some validate_raf
  | "cr2" => some validate_tiff
  | "nef" => some validate_tiff
  | "arw" => some validate_tiff
  | "dng" => some validate_tiff
  | "orf" => some validate_tiff
  | "rw2" => some validate_tiff
  | "heic" => some validate_isobmff
  | "avif" => some validate_isobmff
  | "mp4" => some validate_isobmff
  | "mov" => some validate_isobmff
  | "3gp" => some validate_isobmff
  | "m4v" => some validate_isobmff
  | "avi" => some validate_avi
  | "mkv" => some validate_mkv
  | "webm" => some validate_mkv
  | "flv" => some validate_flv
  | "wmv" => some validate_wmv
  | "asf" => some validate_wmv
  | "mpg" => some validate_mpg
  | "mpeg" => some validate_mpg
  | "ts" => some validate_ts
  | "mts" => some validate_ts
  | "m2ts" => some validate_ts
  | "vob" => some validate_vob
  | "ogv" => some validate_ogv
  | "ogg" => some validate_ogv
  | "rm" => some validate_rm
  | "rmvb" => some validate_rm
  | "swf" => some validate_swf
  | "mp3" => some validate_mp3
  | "wav" => some validate_wav
  | "flac" => some validate_flac
  | "aiff" => some validate_aiff
  | "aif" => some validate_aiff
  | "mid" => some validate_midi
  | "midi" => some validate_midi
  | "m4a" => some validate_isobmff
  | "wma" => some validate_wmv
  | "pdf" => some validate_pdf
  | "zip" => some validate_zip
  | "docx" => some validate_zip
  | "xlsx" => some validate_zip
  | "pptx" => some validate_zip
  | "sqlite" => some validate_sqlite
  | "db" => some validate_sqlite
  | "rtf" => some validate_rtf
  | "xml" => some validate_xml
  | "html" => some validate_html
  | "htm" => some validate_html
  | "eps" => some validate_eps
  | "doc" => some validate_ole2
  | "xls" => some validate_ole2
  | "ppt" => some validate_ole2
  | "msg" => some validate_ole2
  | "epub" => some validate_zip
  | "odt" => some validate_zip
  | "ods" => some validate_zip
  | "odp" => some validate_zip
  | "7z" => some validate_7z
  | "rar" => some validate_rar
  | "gz" => some validate_gz
  | "gzip" => some validate_gz
  | "bz2" => some validate_bz2
  | "xz" => some validate_xz
  | "tar" => some validate_tar
  | "cab" => some validate_cab
  | "iso" => some validate_iso
  | "zst" => some validate_zstd
  | "zstd" => some validate_zstd
  | "lz4" => some validate_lz4
  | "exe" => some validate_exe
  | "dll" => some validate_exe
  | "sys" => some validate_exe
  | "elf" => some validate_elf
  | "so" => some validate_elf
  | "macho" => some validate_macho
  | "dylib" => some validate_macho
  | "dex" => some validate_dex
  | "wasm" => some validate_wasm
  | "ttf" => some validate_ttf
  | "otf" => some validate_otf
  | "woff" => some validate_woff
  | "woff2" => some validate_woff2
  | "parquet" => some validate_parquet
  | "avro" => some validate_avro
  | "orc" => some validate_orc
  | "hdf5" => some validate_hdf5
  | "h5" => some validate_hdf5
  | "npy" => some validate_npy
  | "pcap" => some validate_pcap
  | "pcapng" => some validate_pcapng
  | "lnk" => some validate_lnk
  | "reg" => some validate_reg
  | "plist" => some validate_plist
  | _ => none

/-- `_SMALL_EXTS`: extensions allowed to be smaller than 4 KB. -/
def SMALL_EXTS : List String := ["ico"]

/-- `_PILLOW_EXTS`: image extensions handed to the Pillow deep decode. -/
def PILLOW_EXTS : List String :=
  ["jpg", "jpeg", "png", "gif", "bmp", "tiff", "tif",
   "webp", "ico", "psd", "jp2", "tga"]

/-- The mid-file sample `validate_carved_file` measures entropy on
(`data[sample_start:sample_end]`). -/
def entropy_sample (data : List Byte) : List Byte :=
  let sample_start := min 1024 (data.length / 4)
  let sample_end := min (sample_start + 4096) data.length
  slice data sample_start sample_end

/-- `validate_carved_file` (`smart_filter.py`).

The Pillow deep decode calls an external library, so it is abstracted by the
parameters `hasPillow` (the `_HAS_PILLOW` import flag) and `pillow` (the
verdict of `_pillow_validate`); every quantified theorem below holds for all
instantiations of the two. -/
noncomputable def validate_carved_file (hasPillow : Bool)
    (pillow : String → List Byte → Bool) (extension : String)
    (data : List Byte) : Bool :=
  let ext := lowerExt extension
  let min_sz := if SMALL_EXTS.contains ext then MIN_FILE_SIZE_SMALL else MIN_FILE_SIZE
  if data.length < min_sz then false
  else
    let structOk : Bool :=
      match validatorFor ext with
      | some v => v data
      | none => true
    if ¬ structOk then false
    else
      let sample := entropy_sample data
      let entropyReject : Bool :=
        if 256 ≤ sample.length then
          if calculate_entropy sample < MIN_ENTROPY then true
          else if MAX_ENTROPY < calculate_entropy sample then true
          else false
        else false
      if entropyReject then false
      else if hasPillow ∧ PILLOW_EXTS.contains ext then pillow ext data
      else true

/-- `quick_hash`: MD5 of head + tail, for fast dedup. -/
def quick_hash (data : List Byte) (size : Nat := 8192) : List Byte :=
  let head := data.take size
  let tail := if size < data.length then takeLast data size else []
  md5 (head ++ tail)

/-- `DeduplicationTracker` state: the sets are modelled as lists with
membership semantics. -/
structure DeduplicationTracker where
  quick_hashes : List (List Byte) := []
  offsets : List Nat := []
deriving Repr, DecidableEq

/-- `DeduplicationTracker.is_duplicate_offset`. -/
def is_duplicate_offset (t : DeduplicationTracker) (offset : Nat)
    (window : Nat := 512) : Bool :=
  t.offsets.any (fun o => natDist o offset < window)

/-- `DeduplicationTracker.is_duplicate_content`: returns the verdict and the
updated tracker (the Python method inserts the hash on a miss). -/
def is_duplicate_content (t : DeduplicationTracker) (data : List Byte) :
    Bool × DeduplicationTracker :=
  let qh := quick_hash data
  if t.quick_hashes.contains qh then (true, t)
  else (false, { t with quick_hashes := qh :: t.quick_hashes })

/-- `DeduplicationTracker.register`. -/
def registerOffset (t : DeduplicationTracker) (offset : Nat) :
    DeduplicationTracker :=
  { t with offsets := offset :: t.offsets }

/-! ## `damage_detector.py`

Human-readable issue strings are modelled by the tag type `Issue`; every
membership or substring test the source performs on `report.issues` is
reflected exactly by the predicates below (interpolated numbers that no test
inspects are dropped from the tags). -/

/-- One entry of `DamageReport.issues`. -/
inductive Issue where
  | emptyOrTooSmall : Issue
  | invalidFtypSize (size : Nat) : Issue
  | missingFtyp : Issue
  | invalidJpegMarker (m : Nat) : Issue
  | pngFirstChunkNotIhdr : Issue
  | headerMagicCorrupted (ext : String) : Issue
  | missingFooter (ext : String) : Issue
  | nullRegionsWiped : Issue
  | nullRegionsPartial : Issue
  | jpegUnexpectedByte (b pos : Nat) : Issue
  | jpegTruncatedSegment : Issue
  | jpegInvalidSegLen (len m : Nat) : Issue
  | jpegNoSof : Issue
  | pngChunkTooLong : Issue
  | pngMissingCrc : Issue
  | pngCrcMismatch : Issue
  | pngCrcErrors (n : Nat) : Issue
  | pngNoIdat : Issue
  | pngMissingIend : Issue
  | isobmffFirstBoxInvalid : Issue
  | isobmffInvalidBoxType (pos : Nat) : Issue
  | isobmffMissingMoov : Issue
  | isobmffNoMdat : Issue
  | bmpSizeMismatch (declared actual : Nat) : Issue
  | bmpDataOffsetBeyond (off : Nat) : Issue
  | riffSizeMismatch (declared actual : Nat) : Issue
  | mpegNoStartCodes : Issue
  | mpegNoPackOrSeq : Issue
  | mpegLargeGap (gap : Nat) : Issue
  | mpegLowDensity : Issue
  | swfSizeMismatch (declared actual : Nat) : Issue
  | fileTruncated (got want : Nat) : Issue
  | jpegAppearsTruncated : Issue
  | pngAppearsTruncated : Issue
  | entropyWiped : Issue
  | entropyDrop : Issue
deriving Repr, DecidableEq

/-- The rendered string of an issue contains the word `"truncated"`
(the source tests `"truncated" in " ".join(report.issues).lower()`). -/
def Issue.mentionsTruncated : Issue → Bool
  | .fileTruncated _ _ => true
  | .jpegAppearsTruncated => true
  | .pngAppearsTruncated => true
  | .jpegTruncatedSegment => true
  | _ => false

/-- The rendered string of an issue contains `"CRC"`
(the source tests `"CRC" in " ".join(report.issues)`). -/
def Issue.mentionsCRC : Issue → Bool
  | .pngCrcMismatch => true
  | .pngCrcErrors _ => true
  | _ => false

/-- `DamageReport` (`damage_detector.py`); scores and percentages are exact
rationals standing for the source's floats. -/
structure DamageReport where
  is_damaged : Bool := false
  damage_level : String := "healthy"
  damage_score : ℚ := 0
  issues : List Issue := []
  repairable : Bool := false
  repair_actions : List String := []
  header_damaged : Bool := false
  footer_missing : Bool := false
  truncated : Bool := false
  has_null_regions : Bool := false
  structure_broken : Bool := false
  entropy_anomaly : Bool := false
  expected_size : Nat := 0
  actual_size : Nat := 0
  null_region_bytes : Nat := 0
  null_region_percent : ℚ := 0
deriving Repr, DecidableEq

/-- `_MAGIC_BYTES` (entries whose value is `None` and absent extensions both
make `_check_header` return early, so both map to `none`). -/
def magicBytesFor (ext : String) : Option (List (List Byte)) :=
  match ext with
  | "jpg" => some [[0xFF, 0xD8, 0xFF]]
  | "jpeg" => some [[0xFF, 0xD8, 0xFF]]
  | "png" => some [pngSig]
  | "gif" => some [[0x47, 0x49, 0x46, 0x38, 0x37, 0x61], [0x47, 0x49, 0x46, 0x38, 0x39, 0x61]]
  | "bmp" => some [[0x42, 0x4D]]
  | "tiff" => some [[0x49, 0x49, 0x2A, 0x00], [0x4D, 0x4D, 0x00, 0x2A]]
  | "tif" => some [[0x49, 0x49, 0x2A, 0x00], [0x4D, 0x4D, 0x00, 0x2A]]
  | "webp" => some [[0x52, 0x49, 0x46, 0x46]]
  | "psd" => some [[0x38, 0x42, 0x50, 0x53]]
  | "ico" => some [[0x00, 0x00, 0x01, 0x00], [0x00, 0x00, 0x02, 0x00]]
  | "jp2" => some [[0x00, 0x00, 0x00, 0x0C, 0x6A, 0x50, 0x20, 0x20, 0x0D, 0x0A, 0x87, 0x0A]]
  | "raf" => some [[0x46, 0x55, 0x4A, 0x49, 0x46, 0x49, 0x4C, 0x4D, 0x43, 0x43, 0x44, 0x2D, 0x52, 0x41, 0x57]]
  | "avi" => some [[0x52, 0x49, 0x46, 0x46]]
  | "mkv" => some [[0x1A, 0x45, 0xDF, 0xA3]]
  | "webm" => some [[0x1A, 0x45, 0xDF, 0xA3]]
  | "flv" => some [[0x46, 0x4C, 0x56]]
  | "wmv" => some [[0x30, 0x26, 0xB2, 0x75, 0x8E, 0x66, 0xCF, 0x11]]
  | "mpg" => some [[0x00, 0x00, 0x01, 0xBA], [0x00, 0x00, 0x01, 0xB3]]
  | "mpeg" => some [[0x00, 0x00, 0x01, 0xBA], [0x00, 0x00, 0x01, 0xB3]]
  | "cr2" => some [[0x49, 0x49, 0x2A, 0x00]]
  | "nef" => some [[0x4D, 0x4D, 0x00, 0x2A]]
  | "arw" => some [[0x49, 0x49, 0x2A, 0x00]]
  | "dng" => some [[0x49, 0x49, 0x2A, 0x00], [0x4D, 0x4D, 0x00, 0x2A]]
  | _ => none

/-- `_FTYP_EXTENSIONS`. -/
def FTYP_EXTENSIONS : List String := ["mp4", "mov", "heic", "avif", "3gp", "m4v"]

/-- Extra header checks performed once a magic matched (`_check_header`). -/
def headerExtraChecks (ext : String) (data : List Byte) (r : DamageReport) :
    DamageReport :=
  if ext = "jpg" ∨ ext = "jpeg" then
    if 4 ≤ data.length ∧ byteAt data 2 = 0xFF then
      let m := byteAt data 3
      if m < 0xC0 ∨ (0xD0 ≤ m ∧ m ≤ 0xD7) then
        { r with header_damaged := true,
                 issues := r.issues ++ [Issue.invalidJpegMarker m],
                 repair_actions := r.repair_actions ++ ["fix_jpeg_marker"] }
      else r
    else r
  else if ext = "png" then
    if 16 ≤ data.length ∧ slice data 12 16 ≠ [0x49, 0x48, 0x44, 0x52] then
      { r with header_damaged := true,
               issues := r.issues ++ [Issue.pngFirstChunkNotIhdr],
               repair_actions := r.repair_actions ++ ["fix_png_ihdr"] }
    else r
  else r

/-- `_check_header`. -/
def check_header (ext : String) (data : List Byte) (r : DamageReport) :
    DamageReport :=
  if FTYP_EXTENSIONS.contains ext then
    if 8 ≤ data.length ∧ slice data 4 8 = [0x66, 0x74, 0x79, 0x70] then
      let box_size := u32be data 0
      if box_size < 8 ∨ 4096 < box_size then
        { r with header_damaged := true,
                 issues := r.issues ++ [Issue.invalidFtypSize box_size] }
      else r
    else
      { r with header_damaged := true,
               issues := r.issues ++ [Issue.missingFtyp],
               repair_actions := r.repair_actions ++ ["reconstruct_ftyp_header"] }
  else
    match magicBytesFor ext with
    | none => r
    | some magics =>
      match magics.find? (fun m => takeN data m.length = m) with
      | some _ => headerExtraChecks ext data r
      | none =>
        { r with header_damaged := true,
                 issues := r.issues ++ [Issue.headerMagicCorrupted ext],
                 repair_actions := r.repair_actions ++
                   ["reconstruct_" ++ ext ++ "_header"] }

/-- `_FOOTERS`. -/
def footerFor (ext : String) : Option (List Byte) :=
  match ext with
  | "jpg" => some [0xFF, 0xD9]
  | "jpeg" => some [0xFF, 0xD9]
  | "png" => some [0x00, 0x00, 0x00, 0x00, 0x49, 0x45, 0x4E, 0x44, 0xAE, 0x42, 0x60, 0x82]
  | "gif" => some [0x00, 0x3B]
  | "mpg" => some [0x00, 0x00, 0x01, 0xB9]
  | "mpeg" => some [0x00, 0x00, 0x01, 0xB9]
  | _ => none

/-- `_check_footer` (both branches of the source's `if` perform the same
`rfind`, so a single search is modelled). -/
def check_footer (ext : String) (data : List Byte) (r : DamageReport) :
    DamageReport :=
  match footerFor (lowerExt ext) with
  | none => r
  | some footer =>
    let tail_size := min data.length 4096
    let tail := takeLast data tail_size
    match rfindSeq footer tail with
    | some _ => r
    | none =>
      { r with footer_missing := true,
               issues := r.issues ++ [Issue.missingFooter ext],
               repair_actions := r.repair_actions ++
                 ["append_" ++ ext ++ "_footer"] }

/-- Python `range(start, stop, step)` for a positive step. -/
def rangeStep (start stop step : Nat) : List Nat :=
  (List.range ((stop - start + step - 1) / step)).map (fun k => start + k * step)

/-- `_check_null_regions`. -/
def check_null_regions (data : List Byte) (r : DamageReport) : DamageReport :=
  if data.length < 1024 then r
  else
    let block_size := 4096
    let start := min 512 (data.length / 4)
    let stop := max (start + block_size) (data.length - 512)
    let blocks := (rangeStep start stop block_size).map
      (fun i => slice data i (i + block_size))
    let total_checked := (blocks.map List.length).sum
    let null_bytes : Nat := (blocks.filter
      (fun b => (b.count 0 : ℚ) > (b.length : ℚ) * (95 / 100))).foldl
      (fun acc b => acc + b.length) (0 : Nat)
    if total_checked = 0 then r
    else
      let pct : ℚ := (null_bytes : ℚ) / (total_checked : ℚ) * 100
      let r := { r with null_region_bytes := null_bytes, null_region_percent := pct }
      if pct > 50 then
        { r with has_null_regions := true, issues := r.issues ++ [Issue.nullRegionsWiped] }
      else if pct > 20 then
        { r with has_null_regions := true, issues := r.issues ++ [Issue.nullRegionsPartial] }
      else r

/-- Skip consecutive `0xFF` padding bytes (`_check_jpeg_structure`). -/
def skipFFs (data : List Byte) (pos : Nat) : Nat → Nat
  | 0 => pos
  | fuel + 1 =>
    if pos < data.length ∧ byteAt data pos = 0xFF then skipFFs data (pos + 1) fuel
    else pos

/-- The marker-walk loop of `_check_jpeg_structure`; returns the updated
report, the marker count, and the SOF flag. -/
def jpegWalk (data : List Byte) (pos marker_count : Nat) (has_sos has_sof : Bool)
    (r : DamageReport) : Nat → DamageReport × Nat × Bool
  | 0 => (r, marker_count, has_sof)
  | fuel + 1 =>
    if ¬ (pos < data.length - 1) then (r, marker_count, has_sof)
    else if byteAt data pos ≠ 0xFF then
      if has_sos then (r, marker_count, has_sof)
      else
        ({ r with structure_broken := true,
                  issues := r.issues ++ [Issue.jpegUnexpectedByte (byteAt data pos) pos],
                  repair_actions := r.repair_actions ++ ["repair_jpeg_markers"] },
         marker_count, has_sof)
    else
      let pos1 := skipFFs data pos (data.length + 1)
      if data.length ≤ pos1 then (r, marker_count, has_sof)
      else
        let marker := byteAt data pos1
        let pos2 := pos1 + 1
        let mc := marker_count + 1
        if marker = 0xD9 then (r, mc, has_sof)
        else if marker = 0xDA then (r, mc, has_sof)
        else
          let has_sof1 :=
            if 0xC0 ≤ marker ∧ marker ≤ 0xCF ∧ marker ≠ 0xC4 ∧ marker ≠ 0xC8 ∧
               marker ≠ 0xCC then true else has_sof
          if (0xD0 ≤ marker ∧ marker ≤ 0xD7) ∨ marker = 0x01 then
            jpegWalk data pos2 mc has_sos has_sof1 r fuel
          else if data.length < pos2 + 2 then
            ({ r with structure_broken := true,
                      issues := r.issues ++ [Issue.jpegTruncatedSegment] },
             mc, has_sof1)
          else
            let seg_len := u16be data pos2
            if seg_len < 2 then
              ({ r with structure_broken := true,
                        issues := r.issues ++ [Issue.jpegInvalidSegLen seg_len marker],
                        repair_actions := r.repair_actions ++ ["repair_jpeg_markers"] },
               mc, has_sof1)
            else jpegWalk data (pos2 + seg_len) mc has_sos has_sof1 r fuel

/-- `_check_jpeg_structure`. -/
def check_jpeg_structure (data : List Byte) (r : DamageReport) : DamageReport :=
  if data.length < 4 ∨ takeN data 2 ≠ [0xFF, 0xD8] then r
  else
    let res := jpegWalk data 2 0 false false r (data.length + 1)
    let r1 := res.1
    if 0 < res.2.1 ∧ res.2.2 = false ∧ r1.structure_broken = false then
      { r1 with structure_broken := true, issues := r1.issues ++ [Issue.jpegNoSof] }
    else r1

/-- The chunk-walk loop of `_check_png_structure`; returns the updated
report, the bad-CRC count, and the IEND/IDAT flags. -/
def pngWalk (data : List Byte) (pos chunk_count bad_crcs : Nat)
    (has_iend has_idat : Bool) (r : DamageReport) :
    Nat → DamageReport × Nat × Bool × Bool
  | 0 => (r, bad_crcs, has_iend, has_idat)
  | fuel + 1 =>
    if ¬ (pos + 12 ≤ data.length) then (r, bad_crcs, has_iend, has_idat)
    else
      let chunk_len := u32be data pos
      let chunk_type := slice data (pos + 4) (pos + 8)
      let pos1 := pos + 8
      if data.length - pos1 < chunk_len then
        ({ r with structure_broken := true,
                  issues := r.issues ++ [Issue.pngChunkTooLong],
                  repair_actions := r.repair_actions ++ ["repair_png_chunks"] },
         bad_crcs, has_iend, has_idat)
      else
        let chunk_data := slice data pos1 (pos1 + chunk_len)
        let pos2 := pos1 + chunk_len
        if data.length < pos2 + 4 then
          ({ r with structure_broken := true,
                    issues := r.issues ++ [Issue.pngMissingCrc] },
           bad_crcs, has_iend, has_idat)
        else
          let stored_crc := u32be data pos2
          let computed_crc := crc32 (chunk_type ++ chunk_data)
          let pos3 := pos2 + 4
          let bad1 := if stored_crc ≠ computed_crc then bad_crcs + 1 else bad_crcs
          let r1 :=
            if stored_crc ≠ computed_crc ∧ bad1 ≤ 3 then
              { r with issues := r.issues ++ [Issue.pngCrcMismatch],
                       repair_actions := r.repair_actions ++ ["fix_png_crcs"] }
            else r
          let has_idat1 := if chunk_type = [0x49, 0x44, 0x41, 0x54] then true else has_idat
          if chunk_type = [0x49, 0x45, 0x4E, 0x44] then (r1, bad1, true, has_idat1)
          else
            let cc := chunk_count + 1
            if 10000 < cc then (r1, bad1, has_iend, has_idat1)
            else pngWalk data pos3 cc bad1 has_iend has_idat1 r1 fuel

/-- `_check_png_structure`. -/
def check_png_structure (data : List Byte) (r : DamageReport) : DamageReport :=
  if data.length < 8 ∨ takeN data 8 ≠ pngSig then r
  else
    let res := pngWalk data 8 0 0 false false r (data.length + 1)
    let r1 := res.1
    let bad_crcs := res.2.1
    let has_iend := res.2.2.1
    let has_idat := res.2.2.2
    let r2 :=
      if 0 < bad_crcs then
        { r1 with structure_broken := true,
                  issues := r1.issues ++ [Issue.pngCrcErrors bad_crcs] }
      else r1
    let r3 :=
      if has_idat = false ∧ r2.structure_broken = false then
        { r2 with structure_broken := true, issues := r2.issues ++ [Issue.pngNoIdat] }
      else r2
    if has_iend = false then
      let r4 := { r3 with footer_missing := true }
      if ¬ r4.issues.contains (Issue.missingFooter "png") then
        { r4 with issues := r4.issues ++ [Issue.pngMissingIend],
                  repair_actions := r4.repair_actions ++ ["append_png_iend"] }
      else r4
    else r3

/-- Known top-level box types in `_check_isobmff_structure`. -/
def KNOWN_BOXES_DD : List (List Byte) :=
  [[0x66, 0x74, 0x79, 0x70], [0x6D, 0x6F, 0x6F, 0x76], [0x6D, 0x64, 0x61, 0x74],
   [0x66, 0x72, 0x65, 0x65], [0x73, 0x6B, 0x69, 0x70], [0x77, 0x69, 0x64, 0x65],
   [0x6D, 0x65, 0x74, 0x61], [0x6D, 0x6F, 0x6F, 0x66], [0x6D, 0x66, 0x72, 0x61],
   [0x73, 0x74, 0x79, 0x70], [0x73, 0x69, 0x64, 0x78], [0x73, 0x73, 0x69, 0x78],
   [0x70, 0x64, 0x69, 0x6E], [0x75, 0x75, 0x69, 0x64]]

/-- The box-walk loop of `_check_isobmff_structure`; returns the updated
report, the box count, and the moov/mdat flags. -/
def isobmffStructWalk (data : List Byte) (pos box_count : Nat)
    (has_moov has_mdat : Bool) (r : DamageReport) :
    Nat → DamageReport × Nat × Bool × Bool
  | 0 => (r, box_count, has_moov, has_mdat)
  | fuel + 1 =>
    if ¬ (pos + 8 ≤ data.length) then (r, box_count, has_moov, has_mdat)
    else
      let box_size0 := u32be data pos
      let box_type := slice data (pos + 4) (pos + 8)
      let box_size :=
        if box_size0 = 1 ∧ pos + 16 ≤ data.length then u64be data (pos + 8)
        else box_size0
      if box_size < 8 then
        if box_count = 0 then
          ({ r with structure_broken := true,
                    issues := r.issues ++ [Issue.isobmffFirstBoxInvalid] },
           box_count, has_moov, has_mdat)
        else (r, box_count, has_moov, has_mdat)
      else
        let has_moov1 := if box_type = [0x6D, 0x6F, 0x6F, 0x76] then true else has_moov
        let has_mdat1 := if box_type = [0x6D, 0x64, 0x61, 0x74] then true else has_mdat
        if ¬ KNOWN_BOXES_DD.contains box_type ∧ 0 < box_count ∧
           box_type.any (fun c => c < 32 ∨ 126 < c) then
          ({ r with structure_broken := true,
                    issues := r.issues ++ [Issue.isobmffInvalidBoxType pos] },
           box_count, has_moov1, has_mdat1)
        else
          let pos1 := pos + box_size
          let bc := box_count + 1
          if 10000 < bc then (r, bc, has_moov1, has_mdat1)
          else isobmffStructWalk data pos1 bc has_moov1 has_mdat1 r fuel

/-- `_check_isobmff_structure`. -/
def check_isobmff_structure (data : List Byte) (r : DamageReport) : DamageReport :=
  if data.length < 8 then r
  else
    let res := isobmffStructWalk data 0 0 false false r (data.length + 1)
    let r1 := res.1
    let box_count := res.2.1
    let has_moov := res.2.2.1
    let has_mdat := res.2.2.2
    let r2 :=
      if 0 < box_count ∧ has_moov = false then
        { r1 with structure_broken := true,
                  issues := r1.issues ++ [Issue.isobmffMissingMoov],
                  repair_actions := r1.repair_actions ++ ["repair_moov_box"] }
      else r1
    if 0 < box_count ∧ has_mdat = false ∧ r2.structure_broken = false then
      { r2 with issues := r2.issues ++ [Issue.isobmffNoMdat] }
    else r2

/-- `_check_bmp_structure`. -/
def check_bmp_structure (data : List Byte) (r : DamageReport) : DamageReport :=
  if data.length < 54 ∨ takeN data 2 ≠ [0x42, 0x4D] then r
  else
    let file_size := u32le data 2
    let data_off := u32le data 10
    let r1 :=
      if 0 < file_size ∧ 1024 < natDist file_size data.length then
        { r with structure_broken := true,
                 issues := r.issues ++ [Issue.bmpSizeMismatch file_size data.length],
                 repair_actions := r.repair_actions ++ ["fix_bmp_size_field"] }
      else r
    if data.length < data_off then
      { r1 with structure_broken := true,
                issues := r1.issues ++ [Issue.bmpDataOffsetBeyond data_off] }
    else r1

/-- `_check_riff_structure`. -/
def check_riff_structure (data : List Byte) (r : DamageReport) : DamageReport :=
  if data.length < 12 ∨ takeN data 4 ≠ [0x52, 0x49, 0x46, 0x46] then r
  else
    let riff_size := u32le data 4
    let expected_total := riff_size + 8
    if 0 < expected_total ∧ 4096 < natDist expected_total data.length then
      { r with structure_broken := true,
               issues := r.issues ++ [Issue.riffSizeMismatch expected_total data.length],
               repair_actions := r.repair_actions ++ ["fix_riff_size_field"] }
    else r

/-- Membership in `_VALID_CODES` of `_check_mpeg_ps_structure` (equivalently
`_MPEG_VALID_CODES` of `file_repair.py`): `range(0x00, 0xBA)`, the PS and
video specials, and `range(0xC0, 0xF0)`. -/
def mpegValidCode (c : Byte) : Bool :=
  c < 0xBA ∨ (0xBA ≤ c ∧ c ≤ 0xBF) ∨ (0xC0 ≤ c ∧ c < 0xF0)

/-- Accumulator of the start-code scan in `_check_mpeg_ps_structure`. -/
structure MpegScanState where
  start_code_count : Nat := 0
  pack_count : Nat := 0
  has_seq_header : Bool := false
  has_gop : Bool := false
  has_end_code : Bool := false
  max_gap : Nat := 0
  prev_sc_pos : Nat := 0
deriving Repr, DecidableEq

/-- The start-code sampling loop of `_check_mpeg_ps_structure`. -/
def mpegScan (data : List Byte) (sample_size : Nat) (pos : Nat)
    (st : MpegScanState) : Nat → MpegScanState
  | 0 => st
  | fuel + 1 =>
    if ¬ (pos < sample_size - 4) then st
    else
      match findSeq [0, 0, 1] (slice data pos sample_size) with
      | none => st
      | some idx =>
        let abs_pos := pos + idx
        if data.length ≤ abs_pos + 3 then st
        else
          let code := byteAt data (abs_pos + 3)
          let st1 :=
            if mpegValidCode code then
              let cnt := st.start_code_count + 1
              let gap := abs_pos - st.prev_sc_pos
              { st with
                start_code_count := cnt,
                max_gap := if st.max_gap < gap ∧ 1 < cnt then gap else st.max_gap,
                prev_sc_pos := abs_pos,
                pack_count := if code = 0xBA then st.pack_count + 1 else st.pack_count,
                has_seq_header := if code = 0xB3 then true else st.has_seq_header,
                has_gop := if code = 0xB8 then true else st.has_gop,
                has_end_code := if code = 0xB9 then true else st.has_end_code }
            else st
          mpegScan data sample_size (abs_pos + 1) st1 fuel

/-- `_check_mpeg_ps_structure`. -/
def check_mpeg_ps_structure (data : List Byte) (r : DamageReport) : DamageReport :=
  if data.length < 12 then r
  else
    let sample_size := min data.length (10 * 1024 * 1024)
    let st := mpegScan data sample_size 0 {} (sample_size + 1)
    let has_end_code :=
      st.has_end_code ∨ takeLast data 4 = [0x00, 0x00, 0x01, 0xB9]
    if st.start_code_count = 0 then
      { r with structure_broken := true,
               issues := r.issues ++ [Issue.mpegNoStartCodes] }
    else
      let r1 :=
        if st.pack_count = 0 ∧ st.has_seq_header = false then
          { r with structure_broken := true,
                   issues := r.issues ++ [Issue.mpegNoPackOrSeq],
                   repair_actions := r.repair_actions ++ ["reconstruct_mpeg_header"] }
        else r
      let r2 :=
        if 1024 * 1024 < st.max_gap then
          { r1 with structure_broken := true,
                    issues := r1.issues ++ [Issue.mpegLargeGap st.max_gap],
                    repair_actions := r1.repair_actions ++ ["excise_null_regions"] }
        else r1
      let r3 :=
        if ¬ has_end_code ∧ ¬ r2.issues.contains (Issue.missingFooter "mpg") then
          { r2 with repair_actions := r2.repair_actions ++ ["append_mpeg_end_code"] }
        else r2
      if st.start_code_count * 65536 < sample_size ∧ 0 < st.start_code_count then
        { r3 with issues := r3.issues ++ [Issue.mpegLowDensity] }
      else r3

/-- `_check_swf_structure`. -/
def check_swf_structure (data : List Byte) (r : DamageReport) : DamageReport :=
  if data.length < 8 then r
  else if ¬ (takeN data 3 = [0x46, 0x57, 0x53] ∨ takeN data 3 = [0x43, 0x57, 0x53] ∨
             takeN data 3 = [0x5A, 0x57, 0x53]) then r
  else
    let declared_size := u32le data 4
    if 0 < declared_size ∧ 4096 < natDist declared_size data.length then
      { r with structure_broken := true,
               issues := r.issues ++ [Issue.swfSizeMismatch declared_size data.length],
               repair_actions := r.repair_actions ++ ["fix_swf_size_field"] }
    else r

/-- `_check_structure` dispatcher. -/
def check_structure (ext0 : String) (data : List Byte) (r : DamageReport) :
    DamageReport :=
  let ext := lowerExt ext0
  if ext = "jpg" ∨ ext = "jpeg" then check_jpeg_structure data r
  else if ext = "png" then check_png_structure data r
  else if FTYP_EXTENSIONS.contains ext then check_isobmff_structure data r
  else if ext = "bmp" then check_bmp_structure data r
  else if ext = "avi" ∨ ext = "webp" then check_riff_structure data r
  else if ext = "mpg" ∨ ext = "mpeg" ∨ ext = "vob" then check_mpeg_ps_structure data r
  else if ext = "swf" then check_swf_structure data r
  else r

/-- `_check_truncation`. -/
def check_truncation (ext0 : String) (data : List Byte) (expected_size : Nat)
    (r : DamageReport) : DamageReport :=
  let ext := lowerExt ext0
  let r1 :=
    if 0 < expected_size ∧ data.length < expected_size then
      let deficit := expected_size - data.length
      let pct : ℚ := (deficit : ℚ) / (expected_size : ℚ) * 100
      if 5 < pct then
        { r with truncated := true,
                 issues := r.issues ++ [Issue.fileTruncated data.length expected_size] }
      else r
    else r
  if ext = "jpg" ∨ ext = "jpeg" then
    if 100 < data.length then
      if takeLast data 2 ≠ [0xFF, 0xD9] then
        match rfindSeq [0xFF, 0xD9] data with
        | some _ => r1
        | none =>
          let r2 := { r1 with truncated := true }
          if r2.issues.any Issue.mentionsTruncated = false then
            { r2 with issues := r2.issues ++ [Issue.jpegAppearsTruncated],
                      repair_actions := r2.repair_actions ++ ["append_jpeg_eoi"] }
          else r2
      else r1
    else r1
  else if ext = "png" then
    if ¬ containsSeq [0x49, 0x45, 0x4E, 0x44] (takeLast data 32) ∧
       r1.footer_missing = false then
      let r2 := { r1 with truncated := true }
      if r2.issues.any Issue.mentionsTruncated = false then
        { r2 with issues := r2.issues ++ [Issue.pngAppearsTruncated],
                  repair_actions := r2.repair_actions ++ ["append_png_iend"] }
      else r2
    else r1
  else r1

/-- `compressed_exts` of `_check_entropy`. -/
def COMPRESSED_EXTS : List String :=
  ["jpg", "jpeg", "png", "mp4", "mov", "heic", "mkv", "webm", "flv",
   "3gp", "m4v", "mpg", "mpeg", "vob"]

open Classical in
/-- `_check_entropy` (the float entropies are modelled by exact reals). -/
noncomputable def check_entropy (ext0 : String) (data : List Byte)
    (r : DamageReport) : DamageReport :=
  if data.length < 1024 then r
  else
    let ext := lowerExt ext0
    let chunk_size := 4096
    let step := max chunk_size (data.length / 8)
    let offs := rangeStep 0 (data.length - chunk_size) step
    let regions := offs.map (fun i => (i, calculate_entropy (slice data i (i + chunk_size))))
    if regions.isEmpty then r
    else
      let body := (regions.filter (fun p => 512 < p.1)).map (fun p => p.2)
      if body.isEmpty then r
      else
        let low_entropy_count :=
          (body.filter (fun e => decide (e < 1 / 2))).length
        let r1 :=
          if (low_entropy_count : ℚ) > (body.length : ℚ) * (3 / 10) then
            { r with entropy_anomaly := true,
                     issues := r.issues ++ [Issue.entropyWiped] }
          else r
        if COMPRESSED_EXTS.contains ext ∧ 4 ≤ body.length then
          if (List.range body.length).any
              (fun i => decide (1 ≤ i ∧ (6 : ℝ) < body.getD (i - 1) 0 ∧ body.getD i 0 < (2 : ℝ))) then
            { r1 with entropy_anomaly := true,
                      issues := r1.issues ++ [Issue.entropyDrop] }
          else r1
        else r1

/-- The weighted contributions summed by `_compute_damage_level`. -/
def weightedScore (r : DamageReport) : ℚ :=
  (if r.header_damaged then 35 / 100 else 0) +
  (if r.footer_missing then 10 / 100 else 0) +
  (if r.truncated then 15 / 100 else 0) +
  (if r.structure_broken then 25 / 100 else 0) +
  (if r.has_null_regions then
    min (40 / 100) (r.null_region_percent / 100 * (5 / 10)) else 0) +
  (if r.entropy_anomaly then 10 / 100 else 0)

/-- The number of raised flags (`issue_count` in `_compute_damage_level`). -/
def issueFlagCount (r : DamageReport) : Nat :=
  (if r.header_damaged then 1 else 0) + (if r.footer_missing then 1 else 0) +
  (if r.truncated then 1 else 0) + (if r.structure_broken then 1 else 0) +
  (if r.has_null_regions then 1 else 0) + (if r.entropy_anomaly then 1 else 0)

/-- The raw (uncapped) score of `_compute_damage_level`, including the
multiple-issue bonus. -/
def totalScore (r : DamageReport) : ℚ :=
  weightedScore r + (if 3 ≤ issueFlagCount r then 10 / 100 else 0)

/-- `_compute_damage_level`. -/
def compute_damage_level (r : DamageReport) : DamageReport :=
  let score := totalScore r
  { r with
    damage_score := min 1 score,
    is_damaged := decide (0 < score),
    damage_level :=
      if score = 0 then "healthy"
      else if score ≤ 15 / 100 then "minor"
      else if score ≤ 35 / 100 then "moderate"
      else if score ≤ 65 / 100 then "severe"
      else "fatal" }

/-- `_assess_repairability`. -/
def assess_repairability (ext : String) (r : DamageReport) : DamageReport :=
  if r.is_damaged = false then { r with repairable := false }
  else if ext = "mpg" ∨ ext = "mpeg" ∨ ext = "vob" then
    if 98 < r.null_region_percent then { r with repairable := false }
    else
      let r1 := { r with repairable := true }
      let r2 :=
        if ¬ r1.repair_actions.contains "excise_null_regions" ∧ r1.has_null_regions then
          { r1 with repair_actions := r1.repair_actions ++ ["excise_null_regions"] }
        else r1
      let r3 :=
        if ¬ r2.repair_actions.contains "append_mpeg_end_code" ∧ r2.footer_missing then
          { r2 with repair_actions := r2.repair_actions ++ ["append_mpeg_end_code"] }
        else r2
      if r3.header_damaged ∧ ¬ r3.repair_actions.contains "reconstruct_mpeg_header" then
        { r3 with repair_actions := r3.repair_actions ++ ["reconstruct_mpeg_header"] }
      else r3
  else if ext = "swf" then
    let r1 := { r with repairable := true }
    if r1.structure_broken then
      { r1 with repair_actions := r1.repair_actions ++ ["fix_swf_size_field"] }
    else r1
  else if r.damage_level = "fatal" ∧ 60 < r.null_region_percent then
    { r with repairable := false }
  else if r.repair_actions ≠ [] then { r with repairable := true }
  else if r.footer_missing ∧ r.header_damaged = false then
    { r with repairable := true,
             repair_actions := r.repair_actions ++ ["append_" ++ ext ++ "_footer"] }
  else if r.truncated ∧ r.header_damaged = false then { r with repairable := true }
  else { r with repairable := decide (r.damage_score < 65 / 100) }

/-- `analyze_damage` (`damage_detector.py`): the six checks, the combined
score, and the repairability assessment. -/
noncomputable def analyze_damage (extension : String) (data : List Byte)
    (expected_size : Nat := 0) : DamageReport :=
  let report0 : DamageReport :=
    { actual_size := data.length,
      expected_size := if expected_size = 0 then data.length else expected_size }
  if data = [] ∨ data.length < 8 then
    { report0 with is_damaged := true, damage_level := "fatal",
                   damage_score := 1, issues := [Issue.emptyOrTooSmall] }
  else
    let ext := lowerExt extension
    assess_repairability ext (compute_damage_level
      (check_entropy ext data
        (check_truncation ext data expected_size
          (check_structure ext data
            (check_null_regions data
              (check_footer ext data
                (check_header ext data report0)))))))

/-! ## `file_repair.py` -/

/-- `RepairResult` (MD5 hex digests are modelled by digest bytes; the
interpolated counts inside action strings are dropped — no test reads
them). -/
structure RepairResult where
  success : Bool := false
  repaired_data : Option (List Byte) := none
  original_size : Nat := 0
  repaired_size : Nat := 0
  actions_taken : List String := []
  actions_failed : List String := []
  damage_before : Option DamageReport := none
  damage_after : Option DamageReport := none
  md5_before : List Byte := []
  md5_after : List Byte := []
deriving Repr, DecidableEq

/-- Append to `actions_taken`. -/
def addAction (r : RepairResult) (a : String) : RepairResult :=
  { r with actions_taken := r.actions_taken ++ [a] }

/-- Append to `actions_failed`. -/
def addFailed (r : RepairResult) (a : String) : RepairResult :=
  { r with actions_failed := r.actions_failed ++ [a] }

/-- The terminating index of `while end > lo and data[end - 1] == 0x00`
started at `e`. -/
def trimEndAux (d : List Byte) (lo : Nat) : Nat → Nat → Nat
  | e, 0 => e
  | e, fuel + 1 =>
    if lo < e ∧ byteAt d (e - 1) = 0 then trimEndAux d lo (e - 1) fuel else e

/-- The index where the trailing-zero run of `d` starts (bounded below by
`lo`), as computed by the source's trim loops. -/
def trimEnd (d : List Byte) (lo : Nat) : Nat :=
  trimEndAux d lo d.length (d.length + 1)

/-- `_repair_jpeg`. -/
def repair_jpeg (data0 : List Byte) (report : DamageReport)
    (res0 : RepairResult) : List Byte × RepairResult :=
  -- Fix header if corrupted
  let step1 : List Byte × RepairResult :=
    if report.header_damaged then
      if 2 ≤ data0.length ∧ takeN data0 2 ≠ [0xFF, 0xD8] then
        let idx := findSeq [0xFF, 0xD8, 0xFF] (takeN data0 512)
        match idx with
        | some i =>
          if 0 < i then (data0.drop i, addAction res0 "Trimmed garbage bytes before SOI")
          else
            let d1 := if byteAt data0 0 ≠ 0xFF then data0.set 0 0xFF else data0
            let d2 := if byteAt d1 1 ≠ 0xD8 then d1.set 1 0xD8 else d1
            (d2, addAction res0 "Reconstructed JPEG SOI marker")
        | none =>
          let d1 := if byteAt data0 0 ≠ 0xFF then data0.set 0 0xFF else data0
          let d2 := if byteAt d1 1 ≠ 0xD8 then d1.set 1 0xD8 else d1
          (d2, addAction res0 "Reconstructed JPEG SOI marker")
      else if 4 ≤ data0.length ∧ takeN data0 2 = [0xFF, 0xD8] then
        let s : List Byte × RepairResult :=
          if byteAt data0 2 ≠ 0xFF then
            (data0.set 2 0xFF, addAction res0 "Fixed byte after SOI")
          else (data0, res0)
        let m := byteAt s.1 3
        if m < 0xC0 ∨ (0xD0 ≤ m ∧ m ≤ 0xD7) then
          (s.1.set 3 0xE0, addAction s.2 "Replaced invalid marker with APP0")
        else s
      else (data0, res0)
    else (data0, res0)
  -- Append EOI if missing
  let step2 : List Byte × RepairResult :=
    if report.footer_missing ∨ report.truncated then
      if step1.1 = [] ∨ takeLast step1.1 2 ≠ [0xFF, 0xD9] then
        let d := step1.1.take (trimEnd step1.1 2)
        (d ++ [0xFF, 0xD9], addAction step1.2 "Appended JPEG EOI marker (FF D9)")
      else step1
    else step1
  -- Trim data after the last valid EOI
  match rfindSeq [0xFF, 0xD9] step2.1 with
  | some last_eoi =>
    if last_eoi < step2.1.length - 2 then
      let trailing := step2.1.length - (last_eoi + 2)
      if 16 < trailing then
        (step2.1.take (last_eoi + 2), addAction step2.2 "Trimmed bytes after EOI marker")
      else step2
    else step2
  | none => step2

/-- The fix-and-advance loop of `_fix_png_crcs`; returns the rewritten bytes
and the number of CRCs fixed. -/
def fixPngCrcsLoop (d : List Byte) (pos fixed : Nat) : Nat → List Byte × Nat
  | 0 => (d, fixed)
  | fuel + 1 =>
    if ¬ (pos + 12 ≤ d.length) then (d, fixed)
    else
      let chunk_len := u32be d pos
      let chunk_type := slice d (pos + 4) (pos + 8)
      let pos1 := pos + 8
      if d.length - pos1 < chunk_len then (d, fixed)
      else
        let chunk_data := slice d pos1 (pos1 + chunk_len)
        let pos2 := pos1 + chunk_len
        if d.length < pos2 + 4 then (d, fixed)
        else
          let stored_crc := u32be d pos2
          let correct_crc := crc32 (chunk_type ++ chunk_data)
          let upd : List Byte × Nat :=
            if stored_crc ≠ correct_crc then
              (packU32beInto d pos2 correct_crc, fixed + 1)
            else (d, fixed)
          if chunk_type = [0x49, 0x45, 0x4E, 0x44] then upd
          else fixPngCrcsLoop upd.1 (pos2 + 4) upd.2 fuel

/-- `_fix_png_crcs`. -/
def fix_png_crcs (d : List Byte) : List Byte × Nat :=
  if d.length < 8 then (d, 0)
  else fixPngCrcsLoop d 8 0 (d.length + 1)

/-- The canonical 12-byte IEND chunk. -/
def iendChunk : List Byte :=
  [0x00, 0x00, 0x00, 0x00, 0x49, 0x45, 0x4E, 0x44, 0xAE, 0x42, 0x60, 0x82]

/-- `_repair_png`. -/
def repair_png (data0 : List Byte) (report : DamageReport)
    (res0 : RepairResult) : List Byte × RepairResult :=
  -- Fix header
  let step1 : List Byte × RepairResult :=
    if report.header_damaged then
      if takeN data0 8 ≠ pngSig then
        match findSeq pngSig (takeN data0 512) with
        | some i =>
          if 0 < i then (data0.drop i, addAction res0 "Trimmed bytes before PNG signature")
          else (pngSig ++ data0.drop 8, addAction res0 "Reconstructed PNG signature")
        | none => (pngSig ++ data0.drop 8, addAction res0 "Reconstructed PNG signature")
      else (data0, res0)
    else (data0, res0)
  -- Fix CRC errors
  let step2 : List Byte × RepairResult :=
    if report.structure_broken ∧ report.issues.any Issue.mentionsCRC then
      let fr := fix_png_crcs step1.1
      if 0 < fr.2 then (fr.1, addAction step1.2 "Fixed PNG chunk CRCs")
      else (fr.1, step1.2)
    else step1
  -- Append IEND if missing
  if report.footer_missing ∨
     (report.truncated ∧ ¬ containsSeq [0x49, 0x45, 0x4E, 0x44] (takeLast step2.1 32)) then
    if takeLast step2.1 12 ≠ iendChunk then
      let d := step2.1.take (trimEnd step2.1 8)
      (d ++ iendChunk, addAction step2.2 "Appended PNG IEND chunk")
    else step2
  else step2

/-- `_repair_bmp`. -/
def repair_bmp (data0 : List Byte) (report : DamageReport)
    (res0 : RepairResult) : List Byte × RepairResult :=
  if data0.length < 54 then (data0, addFailed res0 "BMP too small to repair")
  else
    let step1 : List Byte × RepairResult :=
      if report.structure_broken then
        let declared_size := u32le data0 2
        if declared_size ≠ data0.length then
          (packU32leInto data0 2 data0.length, addAction res0 "Fixed BMP size field")
        else (data0, res0)
      else (data0, res0)
    let data_off := u32le step1.1 10
    if step1.1.length < data_off then
      let dib_sz := u32le step1.1 14
      (packU32leInto step1.1 10 (14 + dib_sz), addAction step1.2 "Fixed BMP data offset")
    else step1

/-- The box-size fixing loop of `_repair_isobmff`; returns the data and
`last_valid_end`, with the action flag for a truncated box. -/
def isobmffFixLoop (d : List Byte) (pos last_valid_end : Nat)
    (res : RepairResult) : Nat → List Byte × Nat × RepairResult
  | 0 => (d, last_valid_end, res)
  | fuel + 1 =>
    if ¬ (pos + 8 ≤ d.length) then (d, last_valid_end, res)
    else
      let box_size0 := u32be d pos
      let box_size :=
        if box_size0 = 1 ∧ pos + 16 ≤ d.length then u64be d (pos + 8)
        else box_size0
      if box_size < 8 then (d, last_valid_end, res)
      else if d.length < pos + box_size then
        let actual_remaining := d.length - pos
        (packU32beInto d pos actual_remaining, d.length,
         addAction res "Truncated box size to remaining bytes")
      else isobmffFixLoop d (pos + box_size) (pos + box_size) res fuel

/-- `_repair_isobmff`. -/
def repair_isobmff (data0 : List Byte) (report : DamageReport)
    (res0 : RepairResult) : List Byte × RepairResult :=
  let header : Option (List Byte × RepairResult) :=
    if report.header_damaged ∧
       (data0.length < 8 ∨ slice data0 4 8 ≠ [0x66, 0x74, 0x79, 0x70]) then
      match findSeq [0x66, 0x74, 0x79, 0x70] (takeN data0 1024) with
      | some i =>
        if 4 ≤ i then some (data0.drop (i - 4), addAction res0 "Aligned to ftyp box")
        else none
      | none => none
    else some (data0, res0)
  match header with
  | none => (data0, addFailed res0 "Cannot find ftyp box")
  | some step1 =>
    if report.structure_broken then
      let lp := isobmffFixLoop step1.1 0 0 step1.2 (step1.1.length + 1)
      let d := lp.1
      let last_valid_end := lp.2.1
      let res := lp.2.2
      if 0 < last_valid_end ∧ last_valid_end < d.length then
        let trailing := d.length - last_valid_end
        if 64 < trailing then
          (d.take last_valid_end, addAction res "Trimmed bytes after last ISO box")
        else (d, res)
      else (d, res)
    else step1

/-- `_repair_riff`. -/
def repair_riff (data0 : List Byte) (report : DamageReport)
    (res0 : RepairResult) : List Byte × RepairResult :=
  if data0.length < 12 then (data0, addFailed res0 "RIFF too small to repair")
  else if report.structure_broken then
    let riff_size := u32le data0 4
    let correct_size := data0.length - 8
    if riff_size ≠ correct_size then
      (packU32leInto data0 4 correct_size, addAction res0 "Fixed RIFF size")
    else (data0, res0)
  else (data0, res0)

/-- `_repair_gif`. -/
def repair_gif (data0 : List Byte) (report : DamageReport)
    (res0 : RepairResult) : List Byte × RepairResult :=
  let header : Option (List Byte × RepairResult) :=
    if report.header_damaged then
      if takeN data0 3 ≠ [0x47, 0x49, 0x46] then none
      else if ¬ (slice data0 3 6 = [0x38, 0x37, 0x61] ∨
                 slice data0 3 6 = [0x38, 0x39, 0x61]) then
        some (takeN data0 3 ++ [0x38, 0x39, 0x61] ++ data0.drop 6,
              addAction res0 "Fixed GIF version to 89a")
      else some (data0, res0)
    else some (data0, res0)
  match header with
  | none => (data0, addFailed res0 "GIF header unrecoverable")
  | some step1 =>
    if report.footer_missing then
      if takeLast step1.1 1 ≠ [0x3B] then
        let d := step1.1.take (trimEnd step1.1 6)
        (d ++ [0x3B], addAction step1.2 "Appended GIF trailer (0x3B)")
      else step1
    else step1

/-- MPEG start-code constants (`file_repair.py`). -/
def MPEG_PACK_START : List Byte := [0x00, 0x00, 0x01, 0xBA]

/-- `_MPEG_SEQ_HEADER`. -/
def MPEG_SEQ_HEADER : List Byte := [0x00, 0x00, 0x01, 0xB3]

/-- `_MPEG_PROGRAM_END`. -/
def MPEG_PROGRAM_END : List Byte := [0x00, 0x00, 0x01, 0xB9]

/-- `_MPEG_START_PREFIX`. -/
def MPEG_START_PREFIX : List Byte := [0x00, 0x00, 0x01]

/-- The fallback scan of `_mpeg_fix_header`: first position of a start-code
prefix followed by a valid code byte, within the search window. -/
def mpegHeaderScan (d : List Byte) (search_limit pos : Nat) :
    Nat → Option Nat
  | 0 => none
  | fuel + 1 =>
    if ¬ (pos < search_limit - 4) then none
    else
      match findSeq MPEG_START_PREFIX (slice d pos search_limit) with
      | none => none
      | some sc_pos =>
        let abs_pos := pos + sc_pos
        if abs_pos + 3 < d.length ∧ mpegValidCode (byteAt d (abs_pos + 3)) then
          some abs_pos
        else mpegHeaderScan d search_limit (abs_pos + 1) fuel

/-- The minimal MPEG-1 pack header prepended by `_mpeg_fix_header`. -/
def mpeg1PackHeader : List Byte :=
  [0x00, 0x00, 0x01, 0xBA, 0x21, 0x00, 0x01, 0x00, 0x01, 0x80, 0x01, 0xE1]

/-- `_mpeg_fix_header`. -/
def mpeg_fix_header (d : List Byte) (report : DamageReport)
    (res : RepairResult) : List Byte × RepairResult :=
  if 4 ≤ d.length ∧ (takeN d 4 = MPEG_PACK_START ∨ takeN d 4 = MPEG_SEQ_HEADER) then
    (d, res)
  else
    let search_limit := min d.length (64 * 1024)
    let pack_pos := findSeq MPEG_PACK_START (takeN d search_limit)
    let seq_pos := findSeq MPEG_SEQ_HEADER (takeN d search_limit)
    let best : Option Nat :=
      match pack_pos with
      | some p => some p
      | none =>
        match seq_pos with
        | some p => some p
        | none => mpegHeaderScan d search_limit 0 (search_limit + 1)
    match best with
    | some p =>
      if 0 < p then (d.drop p, addAction res "Aligned to start code")
      else (d, res)
    | none =>
      if report.header_damaged then
        (mpeg1PackHeader ++ d, addAction res "Reconstructed MPEG-1 pack header")
      else (d, res)

/-- `_mpeg_find_next_start_code`. -/
def mpeg_find_next_start_code (d : List Byte) (start : Nat) : Option Nat :=
  mpegFindAux d start (d.length + 1)
where
  /-- The scan loop (`while pos < limit`). -/
  mpegFindAux (d : List Byte) (pos : Nat) : Nat → Option Nat
    | 0 => none
    | fuel + 1 =>
      if ¬ (pos < d.length - 4) then none
      else
        match findSeqFrom MPEG_START_PREFIX d pos with
        | none => none
        | some idx =>
          if d.length ≤ idx + 3 then none
          else if mpegValidCode (byteAt d (idx + 3)) then some idx
          else mpegFindAux d (idx + 1) fuel

/-- Python `zero_ratio >= threshold` for a block, with the float threshold
`0.92` modelled exactly. -/
def zeroRatioGE (b : List Byte) (num den : Nat) : Bool :=
  (b.count 0 : ℚ) ≥ (b.length : ℚ) * ((num : ℚ) / (den : ℚ))

/-- `_mpeg_excise_null_regions`. -/
def mpeg_excise_null_regions (d : List Byte) (res : RepairResult) :
    List Byte × RepairResult :=
  let blocks := (rangeStep 0 d.length 2048).map (fun i => slice d i (i + 2048))
  let total_blocks := blocks.length
  let null_blocks := (blocks.filter (fun b => zeroRatioGE b 92 100)).length
  let good_chunks := blocks.filter (fun b => ¬ zeroRatioGE b 92 100)
  if null_blocks = 0 then (d, res)
  else if total_blocks - 1 ≤ null_blocks then
    (d, addFailed res "insufficient data for reconstruction")
  else
    let reassembled := good_chunks.flatten
    let res1 := addAction res "Excised null blocks"
    match mpeg_find_next_start_code reassembled 0 with
    | some sync_pos =>
      if 0 < sync_pos then
        (reassembled.drop sync_pos, addAction res1 "Re-synced to start code after excision")
      else (reassembled, res1)
    | none => (reassembled, res1)

/-- The start-code collection loop of `_mpeg_resync_start_codes`. -/
def resyncCollect (d : List Byte) (pos : Nat) (acc : List Nat) :
    Nat → List Nat
  | 0 => acc.reverse
  | fuel + 1 =>
    if ¬ (pos < d.length - 4 ∧ acc.length < 50000) then acc.reverse
    else
      match findSeqFrom MPEG_START_PREFIX d pos with
      | none => acc.reverse
      | some idx =>
        let acc1 :=
          if idx + 3 < d.length ∧ mpegValidCode (byteAt d (idx + 3)) then idx :: acc
          else acc
        resyncCollect d (idx + 1) acc1 fuel

/-- The gap-cleaning pass of `_mpeg_resync_start_codes`: walks the start
codes, accumulating kept parts and the removed-garbage byte count. -/
def resyncParts (d : List Byte) : List Nat → Nat → List (List Byte) → Nat →
    List (List Byte) × Nat × Nat
  | [], prev_end, parts, garbage => (parts, garbage, prev_end)
  | sc_pos :: rest, prev_end, parts, garbage =>
    if sc_pos < prev_end then resyncParts d rest prev_end parts garbage
    else
      let next_sc := match rest with | [] => d.length | q :: _ => q
      let gapRes : List (List Byte) × Nat :=
        if prev_end < sc_pos then
          let gap := slice d prev_end sc_pos
          if 16 < gap.length then
            if zeroRatioGE gap 80 100 ∧ 512 < gap.length then (parts, garbage + gap.length)
            else (parts ++ [gap], garbage)
          else (parts ++ [gap], garbage)
        else (parts, garbage)
      resyncParts d rest next_sc (gapRes.1 ++ [slice d sc_pos next_sc]) gapRes.2

/-- `_mpeg_resync_start_codes`. -/
def mpeg_resync_start_codes (d : List Byte) (res : RepairResult) :
    List Byte × RepairResult :=
  if d.length < 8 then (d, res)
  else
    let positions := resyncCollect d 0 [] (d.length + 1)
    if positions.length < 2 then (d, res)
    else
      let pr := resyncParts d positions 0 [] 0
      let prev_end := pr.2.2
      let withTail : List (List Byte) × Nat :=
        if prev_end < d.length then
          let tail := slice d prev_end d.length
          if ¬ zeroRatioGE tail 80 100 ∨ tail.length ≤ 512 then
            (pr.1 ++ [tail], pr.2.1)
          else (pr.1, pr.2.1 + tail.length)
        else (pr.1, pr.2.1)
      if 1024 < withTail.2 then
        (withTail.1.flatten, addAction res "Removed inter-stream garbage")
      else (d, res)

/-- The backward search loop of `_mpeg_trim_trailing`. -/
def trimTrailingFind (d : List Byte) (search_from pos : Nat) :
    Nat → Option Nat
  | 0 => none
  | fuel + 1 =>
    if ¬ (search_from < pos) then none
    else
      match (rfindSeq MPEG_START_PREFIX (slice d search_from (pos + 3))).map
          (· + search_from) with
      | none => none
      | some idx =>
        if idx + 3 < d.length ∧ mpegValidCode (byteAt d (idx + 3)) then some idx
        else trimTrailingFind d search_from (idx - 1) fuel

/-- `_mpeg_trim_trailing`. -/
def mpeg_trim_trailing (d : List Byte) (res : RepairResult) :
    List Byte × RepairResult :=
  if d.length < 16 then (d, res)
  else
    let search_from := d.length - 4 * 1024 * 1024
    let last_sc := trimTrailingFind d search_from (d.length - 4) (d.length + 1)
    match last_sc with
    | none =>
      let e := trimEnd d 64
      if e < d.length - 64 then
        (d.take e, addAction res "Trimmed trailing null bytes")
      else (d, res)
    | some sc =>
      let code_byte := byteAt d (sc + 3)
      if code_byte = 0xB9 then
        let end_pos := sc + 4
        if end_pos < d.length then
          (d.take end_pos, addAction res "Trimmed bytes after program end code")
        else (d, res)
      else if 0xBC ≤ code_byte ∧ sc + 6 ≤ d.length then
        let pes_len := u16be d (sc + 4)
        if 0 < pes_len then
          let packet_end := sc + 6 + pes_len
          if packet_end < d.length then
            let trailing := d.length - packet_end
            let tail := d.drop packet_end
            if (tail.count 0 : ℚ) > (tail.length : ℚ) * (8 / 10) ∧ 512 < trailing then
              (d.take packet_end, addAction res "Trimmed trailing bytes after last PES packet")
            else (d, res)
          else (d, res)
        else (d, res)
      else
        let e := trimEndAux d (sc + 8) d.length (d.length + 1)
        if 256 < d.length - e then
          (d.take e, addAction res "Trimmed trailing null bytes")
        else (d, res)

/-- `_mpeg_append_end_code`. -/
def mpeg_append_end_code (d : List Byte) (res : RepairResult) :
    List Byte × RepairResult :=
  if 4 ≤ d.length ∧ takeLast d 4 = MPEG_PROGRAM_END then (d, res)
  else
    let e := trimEnd d 8
    let d1 := if e < d.length - 4 then d.take e else d
    (d1 ++ MPEG_PROGRAM_END, addAction res "Appended MPEG program end code (00 00 01 B9)")

/-- `_repair_mpeg_ps`. -/
def repair_mpeg_ps (data0 : List Byte) (report : DamageReport)
    (res0 : RepairResult) : List Byte × RepairResult :=
  if data0.length < 12 then (data0, addFailed res0 "MPEG file too small to repair")
  else
    let original_len := data0.length
    let s1 := mpeg_fix_header data0 report res0
    let s2 :=
      if report.has_null_regions ∧ 15 < report.null_region_percent then
        mpeg_excise_null_regions s1.1 s1.2
      else s1
    let s3 := mpeg_resync_start_codes s2.1 s2.2
    let s4 := mpeg_trim_trailing s3.1 s3.2
    let s5 :=
      if report.footer_missing ∨ takeLast s4.1 4 ≠ MPEG_PROGRAM_END then
        mpeg_append_end_code s4.1 s4.2
      else s4
    if s5.1.length ≠ original_len ∧ 0 < original_len - s5.1.length then
      (s5.1, addAction s5.2 "Reduced file size")
    else s5

/-- `_repair_swf`. -/
def repair_swf (data0 : List Byte) (report : DamageReport)
    (res0 : RepairResult) : List Byte × RepairResult :=
  if data0.length < 8 then (data0, addFailed res0 "SWF file too small to repair")
  else
    let header : Option (List Byte × RepairResult) :=
      if report.header_damaged ∧
         ¬ (takeN data0 3 = [0x46, 0x57, 0x53] ∨ takeN data0 3 = [0x43, 0x57, 0x53] ∨
            takeN data0 3 = [0x5A, 0x57, 0x53]) then
        match findSeq [0x46, 0x57, 0x53] (takeN data0 1024) with
        | some i => some (data0.drop i, addAction res0 "Aligned to SWF signature")
        | none =>
          match findSeq [0x43, 0x57, 0x53] (takeN data0 1024) with
          | some i => some (data0.drop i, addAction res0 "Aligned to SWF signature")
          | none =>
            match findSeq [0x5A, 0x57, 0x53] (takeN data0 1024) with
            | some i => some (data0.drop i, addAction res0 "Aligned to SWF signature")
            | none => none
      else some (data0, res0)
    match header with
    | none => (data0, addFailed res0 "Cannot find SWF header signature")
    | some step1 =>
      let step2 : List Byte × RepairResult :=
        if 8 ≤ step1.1.length then
          let declared_size := u32le step1.1 4
          if declared_size ≠ step1.1.length then
            (packU32leInto step1.1 4 step1.1.length, addAction step1.2 "Fixed SWF size field")
          else step1
        else step1
      if report.has_null_regions then
        let e := trimEnd step2.1 8
        if 256 < step2.1.length - e then
          let d := step2.1.take e
          (packU32leInto d 4 d.length, addAction step2.2 "Trimmed trailing null bytes from SWF")
        else step2
      else step2

/-- `_repair_generic`. -/
def repair_generic (data0 : List Byte) (_report : DamageReport)
    (res0 : RepairResult) : List Byte × RepairResult :=
  let e := trimEnd data0 64
  let step1 : List Byte × RepairResult :=
    if e < data0.length - 64 then
      (data0.take e, addAction res0 "Trimmed trailing null bytes")
    else (data0, res0)
  if step1.2.actions_taken = [] then
    (step1.1, addFailed step1.2 "No specific repair strategy for this format")
  else step1

/-- `level_order` of `repair_file`. -/
def levelOrder (level : String) : Nat :=
  if level = "healthy" then 0
  else if level = "minor" then 1
  else if level = "moderate" then 2
  else if level = "severe" then 3
  else 4

/-- The per-format dispatch of `repair_file` (its `if ext == ...` chain). -/
def repairDispatch (ext : String) (data : List Byte) (report : DamageReport)
    (res1 : RepairResult) : List Byte × RepairResult :=
  if ext = "jpg" ∨ ext = "jpeg" then repair_jpeg data report res1
  else if ext = "png" then repair_png data report res1
  else if ext = "bmp" then repair_bmp data report res1
  else if ext = "mp4" ∨ ext = "mov" ∨ ext = "heic" ∨ ext = "avif" ∨
          ext = "3gp" ∨ ext = "m4v" then repair_isobmff data report res1
  else if ext = "avi" ∨ ext = "webp" then repair_riff data report res1
  else if ext = "gif" then repair_gif data report res1
  else if ext = "mpg" ∨ ext = "mpeg" ∨ ext = "vob" then
    repair_mpeg_ps data report res1
  else if ext = "swf" then repair_swf data report res1
  else repair_generic data report res1

/-- `repair_file` (`file_repair.py`). -/
noncomputable def repair_file (extension : String) (data : List Byte)
    (damage_report : Option DamageReport := none) : RepairResult :=
  let res0 : RepairResult :=
    { original_size := data.length, md5_before := md5 data }
  if data = [] then addFailed res0 "Empty file, nothing to repair"
  else
    let ext := lowerExt extension
    let report :=
      match damage_report with
      | some r => r
      | none => analyze_damage ext data
    let res1 := { res0 with damage_before := some report }
    if report.is_damaged = false then
      { res1 with success := true, repaired_data := some data,
                  repaired_size := data.length, md5_after := res1.md5_before,
                  actions_taken := res1.actions_taken ++ ["No repair needed"] }
    else
      let rep := repairDispatch ext data report res1
      let repaired := rep.1
      let res2 := { rep.2 with
        repaired_data := some repaired,
        repaired_size := repaired.length,
        md5_after := md5 repaired,
        damage_after := some (analyze_damage ext repaired) }
      let before_level := levelOrder report.damage_level
      let after_level :=
        levelOrder (analyze_damage ext repaired).damage_level
      let succ : Bool :=
        decide (after_level < before_level) ||
          (decide (res2.actions_taken ≠ ([] : List String)) && decide (res2.actions_failed = ([] : List String)))
      { res2 with success := succ }

/-- `IntegrityCheck` (`file_repair.py`); issue strings are kept as literals
with interpolated parts dropped (nothing reads them), and the two
cannot-read paths (missing file, IO error) are merged into the `none` case
of the saved-bytes parameter. -/
structure IntegrityCheck where
  passed : Bool := false
  file_path : String := ""
  expected_md5 : List Byte := []
  actual_md5 : List Byte := []
  expected_size : Nat := 0
  actual_size : Nat := 0
  is_readable : Bool := false
  format_valid : Bool := false
  issues : List String := []
deriving Repr, DecidableEq

/-- `verify_saved_file` (`file_repair.py`): `savedData` is the content the
re-read of the just-written file returns (`none` when the file is missing
or unreadable). -/
noncomputable def verify_saved_file (hasPillow : Bool)
    (pillow : String → List Byte → Bool) (savedData : Option (List Byte))
    (expected_data : List Byte) (extension : String) : IntegrityCheck :=
  let check0 : IntegrityCheck :=
    { expected_size := expected_data.length, expected_md5 := md5 expected_data }
  match savedData with
  | none => { check0 with issues := ["File does not exist after save"] }
  | some saved_data =>
    let check1 := { check0 with is_readable := true, actual_size := saved_data.length }
    let check2 :=
      if check1.actual_size ≠ check1.expected_size then
        { check1 with issues := check1.issues ++ ["Size mismatch"] }
      else check1
    let check3 := { check2 with actual_md5 := md5 saved_data }
    let check4 :=
      if check3.actual_md5 ≠ check3.expected_md5 then
        { check3 with issues := check3.issues ++ ["MD5 mismatch"] }
      else check3
    let fv := validate_carved_file hasPillow pillow extension saved_data
    let check5 := { check4 with format_valid := fv }
    let check6 :=
      if fv = false then
        { check5 with issues := check5.issues ++ ["Saved file fails format validation"] }
      else check5
    { check6 with passed :=
        check6.is_readable &&
          (decide (check6.actual_md5 = check6.expected_md5) &&
           decide (check6.actual_size = check6.expected_size)) }

/-! ## `mmap_reader.py` -/

/-- `DiskReader.read_at`: the open source is modelled by its byte contents,
with `total_size = contents.length` (the standard construction in
`scanner.py`); the mmap slice and the seek-plus-read fallback return the
same bytes. -/
def read_at (contents : List Byte) (offset size : Int) : List Byte :=
  if offset < 0 ∨ (contents.length : Int) ≤ offset then []
  else
    let size1 := min size ((contents.length : Int) - offset)
    if size1 ≤ 0 then []
    else (contents.drop offset.toNat).take size1.toNat

/-- `read_at` at natural offsets (every scanner call site). -/
def readAtN (contents : List Byte) (offset size : Nat) : List Byte :=
  read_at contents (offset : Int) (size : Int)

/-! ## `scanner.py` -/

/-- `SignatureInfo` (`signatures.py`). -/
structure SignatureInfo where
  category : String
  extension : String
  description : String := ""
  footer : Option (List Byte) := none
  max_size : Nat := 50 * 1024 * 1024
  min_size : Nat := 4 * 1024
  carve_mode : String := "footer"
deriving Repr, DecidableEq

/-- `SIG_JPEG`. -/
def SIG_JPEG : SignatureInfo :=
  { category := "Image", extension := "jpg", description := "JPEG Image",
    footer := some [0xFF, 0xD9], max_size := 30 * 1024 * 1024,
    min_size := 4 * 1024, carve_mode := "footer" }

/-- `SIG_PNG`. -/
def SIG_PNG : SignatureInfo :=
  { category := "Image", extension := "png", description := "PNG Image",
    footer := some iendChunk, max_size := 30 * 1024 * 1024,
    min_size := 4 * 1024, carve_mode := "footer" }

/-- `SIG_GIF`. -/
def SIG_GIF : SignatureInfo :=
  { category := "Image", extension := "gif", description := "GIF Image",
    footer := some [0x00, 0x3B], max_size := 30 * 1024 * 1024,
    min_size := 1024, carve_mode := "footer" }

/-- `_AMBIGUOUS_HEADERS` (`parallel.py`; the scanner's set adds two MPEG
patterns). -/
def AMBIGUOUS_HEADERS : List (List Byte) :=
  [[0x42, 0x4D], [0x00, 0x00, 0x01, 0x00], [0x00, 0x00, 0x01, 0xBA],
   [0x00, 0x00, 0x01, 0xB3], [0x49, 0x49, 0x2A, 0x00], [0x4D, 0x4D, 0x00, 0x2A],
   [0x46, 0x57, 0x53], [0x43, 0x57, 0x53],
   [0xFF, 0xFB], [0xFF, 0xFA], [0xFF, 0xF3], [0xFF, 0xF2]]

/-- `RecoveredFile` (`scanner.py`); the wall-clock timestamp and the device
path string are environmental metadata carried through unchanged by every
function modelled here, so they are omitted. -/
structure RecoveredFile where
  signature : SignatureInfo
  offset : Nat
  size : Nat
  md5 : List Byte := []
  recovered_path : String := ""
  is_valid : Bool := true
  is_saved : Bool := false
  source : String := "carved"
  damage_report : Option DamageReport := none
deriving Repr, DecidableEq

/-- One entry of `self._fragment_candidates` (an orphan header recorded for
the bifragment second pass). -/
structure FragmentCandidate where
  offset : Nat
  sigExt : String
  data_start : List Byte
  read_size : Nat
deriving Repr, DecidableEq

/-- The chunked footer search of `_search_footer_chunked` (the large-file
branch); reads 4 MiB pieces sequentially from `offset`. -/
def searchFooterChunkedLoop (contents : List Byte) (offset : Nat)
    (footer : List Byte) (max_read : Nat) (ext : String)
    (collected : List Byte) (read_total : Nat) (last_footer_pos : Option Nat) :
    Nat → List Byte × Option Nat
  | 0 => (collected, last_footer_pos)
  | fuel + 1 =>
    if ¬ (read_total < max_read) then (collected, last_footer_pos)
    else
      let to_read := min (4 * 1024 * 1024) (max_read - read_total)
      let buf := slice contents (offset + read_total) (offset + read_total + to_read)
      if buf = [] then (collected, last_footer_pos)
      else
        let collected1 := collected ++ buf
        let read_total1 := read_total + buf.length
        let overlap := footer.length + 16
        let search_start := collected1.length - buf.length - overlap
        let pos :=
          if ext = "jpg" then
            (rfindSeq footer (collected1.drop search_start)).map (· + search_start)
          else
            (findSeq footer (collected1.drop search_start)).map (· + search_start)
        match pos with
        | some p =>
          if ext ≠ "jpg" then (collected1.take (p + footer.length), some p)
          else searchFooterChunkedLoop contents offset footer max_read ext
            collected1 read_total1 (some p) fuel
        | none =>
          searchFooterChunkedLoop contents offset footer max_read ext
            collected1 read_total1 last_footer_pos fuel

/-- `_search_footer_chunked`. -/
def search_footer_chunked (contents : List Byte) (offset : Nat)
    (footer : List Byte) (max_read : Nat) (ext : String) : Option (List Byte) :=
  let lr := searchFooterChunkedLoop contents offset footer max_read ext [] 0 none
    (max_read + 1)
  let collected := lr.1
  match lr.2 with
  | some p =>
    if ext ≠ "jpg" then some (collected.take (p + footer.length))
    else some (collected.take (p + footer.length))
  | none =>
    if MIN_FILE_SIZE ≤ collected.length then some collected
    else none

/-- The read-and-trim phase of `DiskScanner._carve_footer_file`: the bytes
the carve hands to the validator (`none` when the carve gives up before
validation), together with the updated orphan-fragment list. -/
def carveFooterRead (contents : List Byte) (offset : Nat) (sig : SignatureInfo)
    (footer : List Byte) (max_read : Nat) (frags : List FragmentCandidate) :
    Option (List Byte) × List FragmentCandidate :=
  if max_read ≤ 8 * 1024 * 1024 then
    let data := readAtN contents offset max_read
    if data = [] ∨ data.length < sig.min_size then (none, frags)
    else
      let epos :=
        if sig.extension = "jpg" then rfindSeq footer data
        else findSeq footer data
      match epos with
      | some e => (some (data.take (e + footer.length)), frags)
      | none =>
        (some data, frags ++
          [{ offset := offset, sigExt := sig.extension,
             data_start := data.take (min 1024 data.length),
             read_size := data.length }])
  else
    match search_footer_chunked contents offset footer max_read sig.extension with
    | none => (none, frags)
    | some fdata =>
      if fdata.length < sig.min_size then (none, frags)
      else (some fdata, frags)

/-- `DiskScanner._carve_footer_file`: carves at `offset` on the source
`contents`, threading the dedup tracker and the orphan-fragment list
(preview mode: saving to the output directory is the identity on every
field the claims mention, so `recovered_path` stays empty). -/
noncomputable def carve_footer_file (hasPillow : Bool)
    (pillow : String → List Byte → Bool) (contents : List Byte) (offset : Nat)
    (sig : SignatureInfo) (tr : DeduplicationTracker)
    (frags : List FragmentCandidate) :
    Option RecoveredFile × DeduplicationTracker × List FragmentCandidate :=
  let disk_size := contents.length
  let max_read := min sig.max_size (disk_size - offset)
  if max_read < sig.min_size then (none, tr, frags)
  else
    match sig.footer with
    | none => (none, tr, frags)
    | some footer =>
      let got := carveFooterRead contents offset sig footer max_read frags
      match got.1 with
      | none => (none, tr, got.2)
      | some file_data =>
        if file_data.length < sig.min_size then (none, tr, got.2)
        else if validate_carved_file hasPillow pillow sig.extension file_data = false then
          (some { signature := sig, offset := offset, size := file_data.length,
                  md5 := compute_md5 file_data, is_valid := false, is_saved := false,
                  damage_report := some (analyze_damage sig.extension file_data) },
           tr, got.2)
        else
          let dup := is_duplicate_content tr file_data
          if dup.1 then (none, dup.2, got.2)
          else
            (some { signature := sig, offset := offset, size := file_data.length,
                    md5 := compute_md5 file_data, is_valid := true, is_saved := false },
             dup.2, got.2)

/-- `KNOWN_BOXES` of `DiskScanner._walk_isobmff_boxes` (this set, unlike the
damage detector's, includes `prft`). -/
def KNOWN_BOXES_SC : List (List Byte) :=
  [[0x66, 0x74, 0x79, 0x70], [0x6D, 0x6F, 0x6F, 0x76], [0x6D, 0x64, 0x61, 0x74],
   [0x66, 0x72, 0x65, 0x65], [0x73, 0x6B, 0x69, 0x70], [0x77, 0x69, 0x64, 0x65],
   [0x70, 0x64, 0x69, 0x6E], [0x6D, 0x6F, 0x6F, 0x66], [0x6D, 0x66, 0x72, 0x61],
   [0x6D, 0x65, 0x74, 0x61], [0x73, 0x74, 0x79, 0x70], [0x73, 0x69, 0x64, 0x78],
   [0x73, 0x73, 0x69, 0x78], [0x70, 0x72, 0x66, 0x74], [0x75, 0x75, 0x69, 0x64]]

/-- The loop-exit acceptance check of `_walk_isobmff_boxes`
(`box_count >= 2 and pos >= MIN_FILE_SIZE`). -/
def walkIsobmffFinal (pos box_count : Nat) : Option Nat :=
  if 2 ≤ box_count ∧ MIN_FILE_SIZE ≤ pos then some pos else none

/-- The box-walk loop of `DiskScanner._walk_isobmff_boxes`, from an
arbitrary loop state. -/
def walkIsobmffFrom (contents : List Byte) (start_offset max_read : Nat)
    (pos : Nat) (found_mdat : Bool) (box_count : Nat) : Nat → Option Nat
  | 0 => walkIsobmffFinal pos box_count
  | fuel + 1 =>
    if ¬ (pos < max_read) then walkIsobmffFinal pos box_count
    else
      let header := readAtN contents (start_offset + pos) 8
      if header.length < 8 then walkIsobmffFinal pos box_count
      else
        let box_size0 := u32be header 0
        let box_type := slice header 4 8
        if box_size0 = 1 then
          let ext_data := readAtN contents (start_offset + pos + 8) 8
          if ext_data.length < 8 then walkIsobmffFinal pos box_count
          else
            let box_size := u64be ext_data 0
            if box_size < 16 then walkIsobmffFinal pos box_count
            else if box_size < 8 then walkIsobmffFinal pos box_count
            else if ¬ KNOWN_BOXES_SC.contains box_type then
              if 2 ≤ box_count then some pos else walkIsobmffFinal pos box_count
            else
              let fm := if box_type = [0x6D, 0x64, 0x61, 0x74] then true else found_mdat
              let pos1 := pos + box_size
              if max_read < pos1 then walkIsobmffFinal max_read (box_count + 1)
              else walkIsobmffFrom contents start_offset max_read pos1 fm
                (box_count + 1) fuel
        else if box_size0 = 0 then
          if found_mdat then some pos
          else some (pos + min (max_read - pos) (500 * 1024 * 1024))
        else if box_size0 < 8 then walkIsobmffFinal pos box_count
        else if ¬ KNOWN_BOXES_SC.contains box_type then
          if 2 ≤ box_count then some pos else walkIsobmffFinal pos box_count
        else
          let fm := if box_type = [0x6D, 0x64, 0x61, 0x74] then true else found_mdat
          let pos1 := pos + box_size0
          if max_read < pos1 then walkIsobmffFinal max_read (box_count + 1)
          else walkIsobmffFrom contents start_offset max_read pos1 fm
            (box_count + 1) fuel

/-- `DiskScanner._walk_isobmff_boxes`. -/
def walk_isobmff_boxes (contents : List Byte) (start_offset max_read : Nat) :
    Option Nat :=
  walkIsobmffFrom contents start_offset max_read 0 false 0 (max_read + 1)

/-! ## `parallel.py` -/

/-- The serializable record a parallel worker returns for one carve. -/
structure WorkerRecord where
  extension : String
  category : String
  offset : Nat
  size : Nat
  md5 : List Byte := []
  saved_path : String := ""
deriving Repr, DecidableEq

/-- The read-and-trim phase of `_try_carve_footer` (`parallel.py`): the
bytes the worker's carve hands to the validator, `none` when the carve
gives up before validation. -/
def parallelFooterData (contents : List Byte) (offset : Nat)
    (sig : SignatureInfo) : Option (List Byte) :=
  let disk_size := contents.length
  let max_read := min sig.max_size (disk_size - offset)
  if max_read < sig.min_size then none
  else
    let data := readAtN contents offset (min max_read (8 * 1024 * 1024))
    if data = [] ∨ data.length < sig.min_size then none
    else
      let data1 :=
        match sig.footer with
        | some footer =>
          let epos :=
            if sig.extension = "jpg" then rfindSeq footer data
            else findSeq footer data
          match epos with
          | some e => data.take (e + footer.length)
          | none => data
        | none => data
      if data1.length < sig.min_size then none
      else some data1

/-- `_try_carve_footer` (`parallel.py`): note that a candidate failing
`validate_carved_file` is dropped (`return None`), unlike the sequential
scanner's carve. -/
noncomputable def try_carve_footer (hasPillow : Bool)
    (pillow : String → List Byte → Bool) (contents : List Byte) (offset : Nat)
    (sig : SignatureInfo) : Option WorkerRecord :=
  match parallelFooterData contents offset sig with
  | none => none
  | some data1 =>
    if validate_carved_file hasPillow pillow sig.extension data1 = false then none
    else
      some { extension := sig.extension, category := sig.category,
             offset := offset, size := data1.length, md5 := compute_md5 data1 }

/-- The box-walk loop of `_try_carve_isobmff` (`parallel.py`); returns the
final `pos` and `box_count`. -/
def parallelIsobmffWalk (contents : List Byte) (offset max_read : Nat)
    (pos box_count : Nat) : Nat → Nat × Nat
  | 0 => (pos, box_count)
  | fuel + 1 =>
    if ¬ (pos < max_read) then (pos, box_count)
    else
      let header := readAtN contents (offset + pos) 8
      if header.length < 8 then (pos, box_count)
      else
        let box_size0 := u32be header 0
        let box_type := slice header 4 8
        if box_size0 = 1 then
          let ext_data := readAtN contents (offset + pos + 8) 8
          if ext_data.length < 8 then (pos, box_count)
          else
            let box_size := u64be ext_data 0
            if box_size < 16 then (pos, box_count)
            else if box_size < 8 then (pos, box_count)
            else if ¬ KNOWN_BOXES_SC.contains box_type then (pos, box_count)
            else
              let pos1 := pos + box_size
              if max_read < pos1 then (max_read, box_count + 1)
              else parallelIsobmffWalk contents offset max_read pos1
                (box_count + 1) fuel
        else if box_size0 = 0 then
          if 2 ≤ box_count then (pos, box_count)
          else (pos + min (max_read - pos) (500 * 1024 * 1024), box_count)
        else if box_size0 < 8 then (pos, box_count)
        else if ¬ KNOWN_BOXES_SC.contains box_type then (pos, box_count)
        else
          let pos1 := pos + box_size0
          if max_read < pos1 then (max_read, box_count + 1)
          else parallelIsobmffWalk contents offset max_read pos1 (box_count + 1) fuel

/-! ## `filesystem.py` — `_bitmap_to_free_ranges` -/

/-- The loop state of `_bitmap_to_free_ranges`. -/
structure BitmapLoopState where
  free_ranges : List (Nat × Nat) := []
  free_count : Nat := 0
  run_start : Option Nat := none
deriving Repr, DecidableEq

/-- The cluster loop of `_bitmap_to_free_ranges`; returns the state and the
Python loop variable's value at exit (the break index, or the last index on
normal completion). -/
def bitmapLoop (bitmap : List Byte) (heap_offset bytes_per_cluster : Nat)
    (cluster_count idx : Nat) (st : BitmapLoopState) :
    Nat → BitmapLoopState × Nat
  | 0 => (st, idx)
  | fuel + 1 =>
    if ¬ (idx < cluster_count) then (st, idx - 1)
    else
      let byte_idx := idx / 8
      if bitmap.length ≤ byte_idx then (st, idx)
      else
        let is_allocated := byteAt bitmap byte_idx / 2 ^ (idx % 8) % 2
        let st1 :=
          if is_allocated = 0 then
            let rs := match st.run_start with
              | none => some idx
              | some s => some s
            { st with free_count := st.free_count + 1, run_start := rs }
          else
            match st.run_start with
            | some s =>
              let actual_start := s + 2
              let actual_end := idx + 2
              let rng := (heap_offset + (actual_start - 2) * bytes_per_cluster,
                heap_offset + (actual_end - 2) * bytes_per_cluster)
              { st with free_ranges := st.free_ranges ++ [rng], run_start := none }
            | none => st
        bitmapLoop bitmap heap_offset bytes_per_cluster cluster_count (idx + 1) st1 fuel

/-- `_bitmap_to_free_ranges` (`filesystem.py`, exFAT prober). -/
def bitmap_to_free_ranges (bitmap : List Byte) (cluster_count heap_offset
    bytes_per_cluster : Nat) : List (Nat × Nat) × Nat :=
  let lr := bitmapLoop bitmap heap_offset bytes_per_cluster cluster_count 0 {}
    (cluster_count + 1)
  let st := lr.1
  let cluster_idx := lr.2
  match st.run_start with
  | none => (st.free_ranges, st.free_count)
  | some s =>
    let actual_start := s + 2
    let actual_end := min cluster_count (cluster_idx + 1) + 2
    (st.free_ranges ++
      [(heap_offset + (actual_start - 2) * bytes_per_cluster,
        heap_offset + (actual_end - 2) * bytes_per_cluster)],
     st.free_count)

/-! ## Scan-session model (`DiskScanner._search_chunk`, fixed-header loop)

`processHits` runs the accept/register discipline of the fixed-header hit
loop of `_search_chunk` over a list of absolute hit offsets: the
`is_duplicate_offset` pre-check, the signature's carve, and `register` on
every accepted record's offset.  The carve itself is a parameter
(`_carve_by_mode` dispatches on the signature); the session theorem
assumes of it only what every carve in the source satisfies: it never
touches the tracker's offset set, and a record it returns carries the
queried offset. -/

def processHits
    (carve : Nat → DeduplicationTracker → List FragmentCandidate →
      Option RecoveredFile × DeduplicationTracker × List FragmentCandidate)
    (hits : List Nat) (tr : DeduplicationTracker)
    (frags : List FragmentCandidate) (found : List RecoveredFile) :
    List RecoveredFile × DeduplicationTracker × List FragmentCandidate :=
  match hits with
  | [] => (found, tr, frags)
  | h :: rest =>
    if is_duplicate_offset tr h then processHits carve rest tr frags found
    else
      match carve h tr frags with
      | (some rf, tr2, frags2) =>
        processHits carve rest (registerOffset tr2 h) frags2 (found ++ [rf])
      | (none, tr2, frags2) => processHits carve rest tr2 frags2 found

/-! ## Concrete inputs used by counterexamples and witnesses -/

/-- The validator instantiation with Pillow absent (`_HAS_PILLOW = False`
makes `validate_carved_file` skip the deep decode, whatever the verdict
function would return). -/
def pillowNone : String → List Byte → Bool := fun _ _ => false

/-- A 62-byte PNG: signature, a 1×1 bit-depth-8 greyscale `IHDR` with its
correct CRC-32, and a 17-byte `IDAT` chunk (four chosen bytes followed by 13
zero bytes) whose CRC-32 over type plus data is zero, stored as four zero
bytes; no `IEND`.  The damage detector sees only a missing footer (score
0.10, minor); the PNG repair trims the 17 trailing zero bytes — truncating
the `IDAT` chunk — and appends an `IEND`, after which the chunk walk flags
`structure_broken` and the walk misses `IEND` (score 0.35, moderate). -/
def pngTrailingZeroCex : List Byte :=
  pngSig ++
  [0, 0, 0, 13, 0x49, 0x48, 0x44, 0x52,
   0, 0, 0, 1, 0, 0, 0, 1, 8, 0, 0, 0, 0,
   58, 126, 155, 85] ++
  [0, 0, 0, 17, 0x49, 0x44, 0x41, 0x54, 67, 21, 156, 181] ++
  List.replicate 13 0 ++ [0, 0, 0, 0]

/-- A 256-byte ICO that passes `validate_ico` (one entry, image data of one
byte at offset 22) whose mid-file entropy sample is 192 zero bytes —
entropy 0, far below `MIN_ENTROPY` — yet shorter than the 256 bytes the
entropy guard requires. -/
def icoLowEntropyCex : List Byte :=
  [0, 0, 1, 0, 1, 0] ++ List.replicate 8 0 ++ [1, 0, 0, 0] ++ [22, 0, 0, 0] ++
  List.replicate 234 0

/-- 1024 bytes: the GIF89a magic followed by zero bytes.  With `SIG_GIF`
(`min_size` 1024) the carve reads all 1024 bytes, finds no `00 3B` footer,
and hands the buffer to `validate_carved_file`, which rejects it (1024 <
`MIN_FILE_SIZE`). -/
def gifZeros1024 : List Byte :=
  [0x47, 0x49, 0x46, 0x38, 0x39, 0x61] ++ List.replicate 1018 0

/-! ## The claims as stated

Each `claimCn` Prop is the direct formalization of the frozen claim `Cn`
that the development refutes; the corrected statements are the theorems
further below. -/

/-- Claim C1 as stated: the damage score of every report equals the capped
weighted sum (`totalScore` is that sum: the six weighted contributions plus
the 0.10 multi-issue bonus), and the level brackets are driven by that
score. -/
def claimC1 : Prop :=
  ∀ (ext : String) (data : List Byte) (expected : Nat),
    (analyze_damage ext data expected).damage_score =
      min 1 (totalScore (analyze_damage ext data expected)) ∧
    ((analyze_damage ext data expected).damage_level = "healthy" ↔
      (analyze_damage ext data expected).damage_score = 0) ∧
    ((analyze_damage ext data expected).damage_level = "minor" ↔
      (0 < (analyze_damage ext data expected).damage_score ∧
       (analyze_damage ext data expected).damage_score ≤ 15 / 100)) ∧
    ((analyze_damage ext data expected).damage_level = "moderate" ↔
      (15 / 100 < (analyze_damage ext data expected).damage_score ∧
       (analyze_damage ext data expected).damage_score ≤ 35 / 100)) ∧
    ((analyze_damage ext data expected).damage_level = "severe" ↔
      (35 / 100 < (analyze_damage ext data expected).damage_score ∧
       (analyze_damage ext data expected).damage_score ≤ 65 / 100)) ∧
    ((analyze_damage ext data expected).damage_level = "fatal" ↔
      65 / 100 < (analyze_damage ext data expected).damage_score)

/-- Claim C2 as stated: a successful repair never worsens the damage level
recorded by re-running the analysis on the repaired bytes. -/
def claimC2 : Prop :=
  ∀ (ext : String) (data : List Byte) (rep : Option DamageReport),
    (repair_file ext data rep).success = true →
    ∀ before after,
      (repair_file ext data rep).damage_before = some before →
      (repair_file ext data rep).damage_after = some after →
      levelOrder after.damage_level ≤ levelOrder before.damage_level

/-- Claim C4 as stated: both carves (the sequential scanner's and the
parallel worker's) keep a candidate whose carved bytes fail the validator,
emitting a damaged record rather than dropping it. -/
def claimC4 : Prop :=
  (∀ hp pf (contents : List Byte) (offset : Nat) (sig : SignatureInfo)
      footer d frags tr,
    sig.footer = some footer →
    ¬ (min sig.max_size (contents.length - offset) < sig.min_size) →
    (carveFooterRead contents offset sig footer
      (min sig.max_size (contents.length - offset)) frags).1 = some d →
    ¬ (d.length < sig.min_size) →
    validate_carved_file hp pf sig.extension d = false →
    ∃ rf tr2 frags2,
      carve_footer_file hp pf contents offset sig tr frags =
        (some rf, tr2, frags2) ∧
      rf.is_valid = false ∧ rf.damage_report ≠ none) ∧
  (∀ hp pf (contents : List Byte) (offset : Nat) (sig : SignatureInfo)
      (pat d : List Byte),
    AMBIGUOUS_HEADERS.contains pat = false →
    takeN (contents.drop offset) pat.length = pat →
    parallelFooterData contents offset sig = some d →
    validate_carved_file hp pf sig.extension d = false →
    try_carve_footer hp pf contents offset sig ≠ none)

/-- Claim C5 as stated, for the size-determining box walk
(`_walk_isobmff_boxes`): the 64-bit size rule for size field 1; size
field 0 honored only after at least two boxes; and acceptance only with
both an `ftyp` and a `moov`/`mdat` inside the accepted span. -/
def claimC5 : Prop :=
  (∀ (contents : List Byte) (start_offset max_read pos : Nat)
      (found_mdat : Bool) (box_count fuel : Nat),
    pos < max_read →
    (readAtN contents (start_offset + pos) 8).length = 8 →
    u32be (readAtN contents (start_offset + pos) 8) 0 = 1 →
    (readAtN contents (start_offset + pos + 8) 8).length = 8 →
    16 ≤ u64be (readAtN contents (start_offset + pos + 8) 8) 0 →
    KNOWN_BOXES_SC.contains
      (slice (readAtN contents (start_offset + pos) 8) 4 8) = true →
    pos + u64be (readAtN contents (start_offset + pos + 8) 8) 0 ≤ max_read →
    walkIsobmffFrom contents start_offset max_read pos found_mdat box_count
        (fuel + 1) =
      walkIsobmffFrom contents start_offset max_read
        (pos + u64be (readAtN contents (start_offset + pos + 8) 8) 0)
        (if slice (readAtN contents (start_offset + pos) 8) 4 8 =
            [0x6D, 0x64, 0x61, 0x74] then true else found_mdat)
        (box_count + 1) fuel) ∧
  (∀ (contents : List Byte) (start_offset max_read pos : Nat)
      (found_mdat : Bool) (box_count fuel : Nat),
    pos < max_read →
    (readAtN contents (start_offset + pos) 8).length = 8 →
    u32be (readAtN contents (start_offset + pos) 8) 0 = 0 →
    walkIsobmffFrom contents start_offset max_read pos found_mdat box_count
        (fuel + 1) =
      some (pos + min (max_read - pos) (500 * 1024 * 1024)) →
    2 ≤ box_count) ∧
  (∀ (contents : List Byte) (start_offset max_read size : Nat),
    walk_isobmff_boxes contents start_offset max_read = some size →
    containsSeq [0x66, 0x74, 0x79, 0x70]
      (slice contents start_offset (start_offset + size)) = true ∧
    (containsSeq [0x6D, 0x6F, 0x6F, 0x76]
       (slice contents start_offset (start_offset + size)) = true ∨
     containsSeq [0x6D, 0x64, 0x61, 0x74]
       (slice contents start_offset (start_offset + size)) = true))

/-- Claim C6 as stated: `passed = true` requires readability, size match,
fingerprint match, and the format validator's acceptance. -/
def claimC6 : Prop :=
  ∀ hp pf (saved expected : List Byte) (ext : String),
    (verify_saved_file hp pf (some saved) expected ext).passed = true →
    (verify_saved_file hp pf (some saved) expected ext).is_readable = true ∧
    saved.length = expected.length ∧ md5 saved = md5 expected ∧
    validate_carved_file hp pf ext saved = true

/-- Claim C7 as stated: the free ranges are sorted, disjoint and nonempty,
and their total byte length always equals the free-cluster count times the
cluster size. -/
def claimC7 : Prop :=
  ∀ (bitmap : List Byte) (cluster_count heap_offset bytes_per_cluster : Nat),
    0 < bytes_per_cluster →
    (∀ p ∈ (bitmap_to_free_ranges bitmap cluster_count heap_offset
        bytes_per_cluster).1, p.1 < p.2) ∧
    ((bitmap_to_free_ranges bitmap cluster_count heap_offset
        bytes_per_cluster).1).Pairwise (fun a b => a.2 ≤ b.1) ∧
    (((bitmap_to_free_ranges bitmap cluster_count heap_offset
        bytes_per_cluster).1).map (fun p => p.2 - p.1)).sum =
      (bitmap_to_free_ranges bitmap cluster_count heap_offset
        bytes_per_cluster).2 * bytes_per_cluster

/-- Claim C8 as stated: the minimum-size guard and the mid-file entropy
guard each force rejection — the latter with no proviso about the sample's
length. -/
def claimC8 : Prop :=
  ∀ hp pf (ext : String) (data : List Byte),
    (data.length <
        (if SMALL_EXTS.contains (lowerExt ext) then MIN_FILE_SIZE_SMALL
         else MIN_FILE_SIZE) →
      validate_carved_file hp pf ext data = false) ∧
    ((calculate_entropy (entropy_sample data) < MIN_ENTROPY ∨
      MAX_ENTROPY < calculate_entropy (entropy_sample data)) →
      validate_carved_file hp pf ext data = false)

/-! # Theorems -/

/-- The entropy of a run of identical bytes is zero (each term of the sum
vanishes: the single nonzero count has probability one). -/
theorem calculate_entropy_replicate_zero (n : Nat) :
    calculate_entropy (List.replicate n 0) = 0 := by
  unfold calculate_entropy
  rcases Nat.eq_zero_or_pos n with h | h
  · subst h; simp
  · have hne : List.replicate n (0 : Byte) ≠ [] := by
      simp [List.replicate_eq_nil_iff]; omega
    rw [if_neg hne]
    refine Finset.sum_eq_zero ?_
    intro v _
    by_cases hv : (List.replicate n (0 : Byte)).count v ≠ 0
    · rw [if_pos hv]
      have hcv : (List.replicate n (0 : Byte)).count v = n := by
        rcases eq_or_ne v 0 with rfl | hv0
        · simp [List.count_replicate]
        · exfalso
          apply hv
          simp [List.count_replicate]
          intro hc
          exact absurd hc.symm hv0
      rw [hcv]
      have hlen : ((List.replicate n (0 : Byte)).length : ℝ) = (n : ℝ) := by simp
      rw [hlen]
      have hn : (n : ℝ) ≠ 0 := Nat.cast_ne_zero.mpr (by omega)
      rw [div_self hn]
      simp
    · rw [if_neg hv]

/-! ## C10 — `read_at` bounds -/

/-- **C10** (confirmed): `DiskReader.read_at` is total (it is a function of
this development) and never reads past the end of the source: a negative
offset or one at least the total size returns the empty byte string, and in
every case at most `min size (total_size - offset)` bytes (as an integer
clamped to zero) are returned. -/
theorem C10_read_at_bounds (contents : List Byte) (offset size : Int) :
    (offset < 0 ∨ (contents.length : Int) ≤ offset →
      read_at contents offset size = []) ∧
    (read_at contents offset size).length ≤
      (min size ((contents.length : Int) - offset)).toNat := by
  constructor
  · intro h
    simp only [read_at]
    rw [if_pos h]
  · by_cases h : offset < 0 ∨ (contents.length : Int) ≤ offset
    · simp [read_at, h]
    · simp only [read_at, if_neg h]
      by_cases h2 : min size ((contents.length : Int) - offset) ≤ 0
      · rw [if_pos h2]; simp
      · rw [if_neg h2]
        exact le_trans (List.length_take_le _ _) (le_refl _)

/-- **C10 witness**: the bounds at concrete inputs — an out-of-range read of
`[1, 2, 3]` at offset −1 is empty, and an in-range read at offset 1 obeys
the length bound. -/
theorem C10_read_at_bounds_witness :
    read_at [1, 2, 3] (-1) 5 = [] ∧
    (read_at [1, 2, 3] 1 5).length ≤
      (min 5 ((([1, 2, 3] : List Byte).length : Int) - 1)).toNat :=
  ⟨(C10_read_at_bounds [1, 2, 3] (-1) 5).1 (by decide),
   (C10_read_at_bounds [1, 2, 3] 1 5).2⟩

/-! ## C9 — MPEG-PS repair appends the program end code -/

/-- `takeLast` is a suffix. -/
theorem takeLast_suffix (d : List Byte) (k : Nat) : takeLast d k <:+ d := by
  unfold takeLast
  exact List.drop_suffix _ _

/-- `_mpeg_append_end_code` always leaves a buffer ending in the program
end code. -/
theorem mpeg_append_end_code_suffix (d : List Byte) (res : RepairResult) :
    MPEG_PROGRAM_END <:+ (mpeg_append_end_code d res).1 := by
  unfold mpeg_append_end_code
  split
  · next h =>
    rw [← h.2]
    exact takeLast_suffix d 4
  · exact List.suffix_append _ _

/-- The last two steps of `_repair_mpeg_ps` (the conditional end-code append
and the size bookkeeping), for an arbitrary intermediate buffer. -/
theorem mpegTail_suffix (s4 : List Byte × RepairResult) (c : Prop)
    [Decidable c] (orig : Nat) :
    MPEG_PROGRAM_END <:+
      (if ((if c ∨ takeLast s4.1 4 ≠ MPEG_PROGRAM_END then
              mpeg_append_end_code s4.1 s4.2 else s4).1.length ≠ orig ∧
           0 < orig - (if c ∨ takeLast s4.1 4 ≠ MPEG_PROGRAM_END then
              mpeg_append_end_code s4.1 s4.2 else s4).1.length) then
         ((if c ∨ takeLast s4.1 4 ≠ MPEG_PROGRAM_END then
             mpeg_append_end_code s4.1 s4.2 else s4).1,
          addAction (if c ∨ takeLast s4.1 4 ≠ MPEG_PROGRAM_END then
             mpeg_append_end_code s4.1 s4.2 else s4).2 "Reduced file size")
       else (if c ∨ takeLast s4.1 4 ≠ MPEG_PROGRAM_END then
             mpeg_append_end_code s4.1 s4.2 else s4)).1 := by
  have h5 : MPEG_PROGRAM_END <:+
      (if c ∨ takeLast s4.1 4 ≠ MPEG_PROGRAM_END then
        mpeg_append_end_code s4.1 s4.2 else s4).1 := by
    split
    · exact mpeg_append_end_code_suffix _ _
    · next h =>
      push_neg at h
      rw [← h.2]
      exact takeLast_suffix _ 4
  revert h5
  generalize (if c ∨ takeLast s4.1 4 ≠ MPEG_PROGRAM_END then
    mpeg_append_end_code s4.1 s4.2 else s4) = s5
  intro h5
  split
  · exact h5
  · exact h5

/-- **C9** (confirmed): on any buffer of at least 12 bytes, `_repair_mpeg_ps`
returns a buffer ending with the MPEG program end code `00 00 01 B9`
(step 5 appends it — after trimming trailing nulls — whenever it is not
already the suffix). -/
theorem C9_mpeg_repair_ends_with_end_code (data : List Byte)
    (report : DamageReport) (res : RepairResult) (h : 12 ≤ data.length) :
    MPEG_PROGRAM_END <:+ (repair_mpeg_ps data report res).1 := by
  unfold repair_mpeg_ps
  rw [if_neg (by omega)]
  exact mpegTail_suffix _ _ _

/-- **C9 witness**: the guarantee at a concrete 12-byte input. -/
theorem C9_witness :
    MPEG_PROGRAM_END <:+ (repair_mpeg_ps (List.replicate 12 0) {} {}).1 :=
  C9_mpeg_repair_ends_with_end_code (List.replicate 12 0) {} {} (by decide)

/-! ## C6 — readback verification -/

/-- **C6 corrected**: what `verify_saved_file` actually computes.  A missing
or unreadable file never passes; for a readable file `passed` is exactly the
fingerprint match and the size match (readability being set), while the
format validator's verdict is recorded in `format_valid` (and an issue)
without entering `passed`. -/
theorem C6_passed_formula (hp : Bool) (pf : String → List Byte → Bool)
    (saved expected : List Byte) (ext : String) :
    (verify_saved_file hp pf none expected ext).passed = false ∧
    (verify_saved_file hp pf (some saved) expected ext).passed =
      (decide (md5 saved = md5 expected) &&
       decide (saved.length = expected.length)) ∧
    (verify_saved_file hp pf (some saved) expected ext).format_valid =
      validate_carved_file hp pf ext saved := by
  refine ⟨rfl, ?_, ?_⟩
  · simp only [verify_saved_file]
    split_ifs <;> rfl
  · simp only [verify_saved_file]
    split_ifs <;> rfl

/-- **C6 counterexample**: the claim fails — sixteen zero bytes saved as a
`png` and read back intact pass verification (readable, sizes and MD5s
equal) although the format validator rejects them. -/
theorem C6_counterexample : ¬ claimC6 := by
  intro h
  have hv := (h false pillowNone (List.replicate 16 0) (List.replicate 16 0)
    "png" (by with_unfolding_all decide)).2.2.2
  have hf : validate_carved_file false pillowNone "png"
      (List.replicate 16 0) = false := by with_unfolding_all decide
  rw [hv] at hf
  exact Bool.noConfusion hf

/-! ## C8 — size and entropy guards of `validate_carved_file` -/

/-- **C8 corrected**: the minimum-size guard always rejects, and the
mid-file entropy guard rejects out-of-range entropy — but only when the
mid-file sample holds at least 256 bytes (`len(sample) >= 256`); a shorter
sample skips the entropy check entirely. -/
theorem C8_guards (hp : Bool) (pf : String → List Byte → Bool)
    (ext : String) (data : List Byte) :
    (data.length <
        (if SMALL_EXTS.contains (lowerExt ext) then MIN_FILE_SIZE_SMALL
         else MIN_FILE_SIZE) →
      validate_carved_file hp pf ext data = false) ∧
    (256 ≤ (entropy_sample data).length →
      (calculate_entropy (entropy_sample data) < MIN_ENTROPY ∨
       MAX_ENTROPY < calculate_entropy (entropy_sample data)) →
      validate_carved_file hp pf ext data = false) := by
  constructor
  · intro h
    simp only [validate_carved_file]
    rw [if_pos h]
  · intro hlen hent
    simp only [validate_carved_file]
    split_ifs <;>
      first
        | rfl
        | (rcases hent with he | he <;> simp_all)

/-- **C8 counterexample**: a 256-byte ICO whose mid-file sample is 192 zero
bytes (entropy 0, below `MIN_ENTROPY`) is accepted by the validator — the
claim's unconditional entropy guard does not hold. -/
theorem C8_counterexample : ¬ claimC8 := by
  intro h
  have hs : entropy_sample icoLowEntropyCex = List.replicate 192 0 := by decide
  have he : calculate_entropy (entropy_sample icoLowEntropyCex) < MIN_ENTROPY := by
    rw [hs, calculate_entropy_replicate_zero]
    norm_num [MIN_ENTROPY]
  have hv := (h false pillowNone "ico" icoLowEntropyCex).2 (Or.inl he)
  have ht : validate_carved_file false pillowNone "ico" icoLowEntropyCex = true := by
    with_unfolding_all decide
  rw [hv] at ht
  exact Bool.noConfusion ht

/-- **C8 witness**: both guards reject at concrete inputs — a 3-byte ICO
(below the 256-byte small-format minimum), and 512 zero bytes whose 384-byte
mid-file sample has entropy 0. -/
theorem C8_witness :
    validate_carved_file false pillowNone "ico" [0, 0, 0] = false ∧
    validate_carved_file false pillowNone "ico" (List.replicate 512 0) = false := by
  constructor
  · exact (C8_guards false pillowNone "ico" [0, 0, 0]).1 (by decide)
  · refine (C8_guards false pillowNone "ico" (List.replicate 512 0)).2 ?_ ?_
    · decide
    · left
      have hs : entropy_sample (List.replicate 512 0) = List.replicate 384 0 := by
        decide
      rw [hs, calculate_entropy_replicate_zero]
      norm_num [MIN_ENTROPY]

/-! ## C4 — failed-validation candidates: emitted vs dropped -/

/-- **C4 corrected**: the sequential scanner's footer carve does emit a
record with `is_valid = false` and an attached damage report when the carved
bytes fail the validator, but the parallel worker's footer carve drops the
same candidate (`return None`), whatever its magic. -/
theorem C4_emission :
    (∀ hp pf (contents : List Byte) (offset : Nat) (sig : SignatureInfo)
        footer d frags tr,
      sig.footer = some footer →
      ¬ (min sig.max_size (contents.length - offset) < sig.min_size) →
      (carveFooterRead contents offset sig footer
        (min sig.max_size (contents.length - offset)) frags).1 = some d →
      ¬ (d.length < sig.min_size) →
      validate_carved_file hp pf sig.extension d = false →
      ∃ rf tr2 frags2,
        carve_footer_file hp pf contents offset sig tr frags =
          (some rf, tr2, frags2) ∧
        rf.is_valid = false ∧ rf.damage_report ≠ none) ∧
    (∀ hp pf (contents : List Byte) (offset : Nat) (sig : SignatureInfo)
        (d : List Byte),
      parallelFooterData contents offset sig = some d →
      validate_carved_file hp pf sig.extension d = false →
      try_carve_footer hp pf contents offset sig = none) := by
  constructor
  · intro hp pf contents offset sig footer d frags tr hfoot hmin hread hlen hval
    simp only [carve_footer_file]
    rw [if_neg hmin, hfoot]
    simp only []
    rw [hread]
    simp only []
    rw [if_neg hlen, if_pos hval]
    exact ⟨_, _, _, rfl, rfl, by simp⟩
  · intro hp pf contents offset sig d h1 h2
    simp only [try_carve_footer]
    rw [h1]
    simp only []
    rw [if_pos h2]

/-- **C4 counterexample**: the GIF89a magic (not an ambiguous pattern) at
offset 0 of `gifZeros1024` reaches validation in the parallel worker's
carve, fails it, and the candidate is dropped rather than emitted. -/
theorem C4_counterexample : ¬ claimC4 := by
  intro h
  have hne := h.2 false pillowNone gifZeros1024 0 SIG_GIF
    [0x47, 0x49, 0x46, 0x38, 0x39, 0x61] gifZeros1024
    (by decide) (by decide)
    (by with_unfolding_all decide) (by with_unfolding_all decide)
  exact hne (by with_unfolding_all decide)

/-- **C4 witness**: at the same 1024-byte GIF candidate, the sequential
scanner emits a damaged record while the parallel worker returns nothing. -/
theorem C4_witness :
    (∃ rf tr2 frags2,
      carve_footer_file false pillowNone gifZeros1024 0 SIG_GIF {} [] =
        (some rf, tr2, frags2) ∧
      rf.is_valid = false ∧ rf.damage_report ≠ none) ∧
    try_carve_footer false pillowNone gifZeros1024 0 SIG_GIF = none := by
  constructor
  · exact C4_emission.1 false pillowNone gifZeros1024 0 SIG_GIF [0x00, 0x3B]
      gifZeros1024 [] {} (by decide) (by decide)
      (by with_unfolding_all decide) (by decide)
      (by with_unfolding_all decide)
  · exact C4_emission.2 false pillowNone gifZeros1024 0 SIG_GIF gifZeros1024
      (by with_unfolding_all decide) (by with_unfolding_all decide)

/-! ## C5 — the ISO-BMFF size walk -/

/-- **C5 corrected**: one step of `_walk_isobmff_boxes`.  A size field of 1
takes the box's size from the following 64-bit big-endian field (at least
16).  A size field of 0 is honored immediately — capped at 500 MiB — for
*any* box count, returning the current position only when an `mdat` was
already seen.  An unknown box type stops the walk, accepting the current
position when at least two boxes (of whatever types) were seen and
otherwise falling through to the final check, which requires only
`box_count ≥ 2` and `pos ≥ MIN_FILE_SIZE` — no `ftyp`/`moov`/`mdat`
presence is required. -/
theorem C5_box_walk_steps :
    (∀ (contents : List Byte) (start_offset max_read pos : Nat)
        (found_mdat : Bool) (box_count fuel : Nat),
      pos < max_read →
      (readAtN contents (start_offset + pos) 8).length = 8 →
      u32be (readAtN contents (start_offset + pos) 8) 0 = 1 →
      (readAtN contents (start_offset + pos + 8) 8).length = 8 →
      16 ≤ u64be (readAtN contents (start_offset + pos + 8) 8) 0 →
      KNOWN_BOXES_SC.contains
        (slice (readAtN contents (start_offset + pos) 8) 4 8) = true →
      pos + u64be (readAtN contents (start_offset + pos + 8) 8) 0 ≤ max_read →
      walkIsobmffFrom contents start_offset max_read pos found_mdat box_count
          (fuel + 1) =
        walkIsobmffFrom contents start_offset max_read
          (pos + u64be (readAtN contents (start_offset + pos + 8) 8) 0)
          (if slice (readAtN contents (start_offset + pos) 8) 4 8 =
              [0x6D, 0x64, 0x61, 0x74] then true else found_mdat)
          (box_count + 1) fuel) ∧
    (∀ (contents : List Byte) (start_offset max_read pos : Nat)
        (found_mdat : Bool) (box_count fuel : Nat),
      pos < max_read →
      (readAtN contents (start_offset + pos) 8).length = 8 →
      u32be (readAtN contents (start_offset + pos) 8) 0 = 0 →
      walkIsobmffFrom contents start_offset max_read pos found_mdat box_count
          (fuel + 1) =
        (if found_mdat then some pos
         else some (pos + min (max_read - pos) (500 * 1024 * 1024)))) ∧
    (∀ (contents : List Byte) (start_offset max_read pos : Nat)
        (found_mdat : Bool) (box_count fuel : Nat),
      pos < max_read →
      (readAtN contents (start_offset + pos) 8).length = 8 →
      u32be (readAtN contents (start_offset + pos) 8) 0 ≠ 1 →
      u32be (readAtN contents (start_offset + pos) 8) 0 ≠ 0 →
      ¬ (u32be (readAtN contents (start_offset + pos) 8) 0 < 8) →
      KNOWN_BOXES_SC.contains
        (slice (readAtN contents (start_offset + pos) 8) 4 8) = false →
      walkIsobmffFrom contents start_offset max_read pos found_mdat box_count
          (fuel + 1) =
        (if 2 ≤ box_count then some pos
         else walkIsobmffFinal pos box_count)) ∧
    (∀ (contents : List Byte) (start_offset max_read pos : Nat)
        (found_mdat : Bool) (box_count fuel : Nat),
      ¬ (pos < max_read) →
      walkIsobmffFrom contents start_offset max_read pos found_mdat box_count
          (fuel + 1) =
        (if 2 ≤ box_count ∧ MIN_FILE_SIZE ≤ pos then some pos else none)) := by
  refine ⟨?_, ?_, ?_, ?_⟩
  · intro contents start_offset max_read pos found_mdat box_count fuel
      hpos h8 hsz hext h16 hknown hle
    simp only [walkIsobmffFrom]
    rw [if_neg (not_not_intro hpos), if_neg (by omega), if_pos hsz,
      if_neg (by omega), if_neg (by omega), if_neg (by omega),
      if_neg (not_not_intro hknown), if_neg (by omega)]
  · intro contents start_offset max_read pos found_mdat box_count fuel
      hpos h8 hsz
    simp only [walkIsobmffFrom]
    rw [if_neg (not_not_intro hpos), if_neg (by omega), if_neg (by omega),
      if_pos hsz]
  · intro contents start_offset max_read pos found_mdat box_count fuel
      hpos h8 hne1 hne0 hge8 hunk
    simp only [walkIsobmffFrom]
    rw [if_neg (not_not_intro hpos), if_neg (by omega), if_neg hne1,
      if_neg hne0, if_neg hge8,
      if_pos (fun hc => by rw [hunk] at hc; exact Bool.noConfusion hc)]
  · intro contents start_offset max_read pos found_mdat box_count fuel hpos
    simp only [walkIsobmffFrom]
    rw [if_pos hpos]
    rfl

/-- **C5 counterexample**: an 8-byte source whose sole box (`free`, size
field 0) is honored by the walk with zero boxes seen, refuting the claim's
"only after at least two boxes" gating. -/
theorem C5_counterexample : ¬ claimC5 := by
  intro h
  have h2 := h.2.1 [0, 0, 0, 0, 0x66, 0x72, 0x65, 0x65] 0 20000 0 false 0 20000
    (by decide) (by decide) (by decide) (by decide)
  exact absurd h2 (by decide)

/-- **C5 witness**: the corrected size-0 step at the same concrete input —
the walk caps the extends-to-end box immediately, with zero prior boxes. -/
theorem C5_witness :
    walkIsobmffFrom [0, 0, 0, 0, 0x66, 0x72, 0x65, 0x65] 0 20000 0 false 0
        (20000 + 1) =
      (if false then some 0
       else some (0 + min (20000 - 0) (500 * 1024 * 1024))) :=
  C5_box_walk_steps.2.1 [0, 0, 0, 0, 0x66, 0x72, 0x65, 0x65] 0 20000 0 false 0
    20000 (by decide) (by decide) (by decide)

/-! ## C7 — exFAT free-range conversion -/


/-- Structural invariants of the cluster loop of `_bitmap_to_free_ranges`:
ranges stay nonempty, sorted and disjoint; an open run started strictly
before both the current index and `cluster_count`, and every closed range
ends at or before the open run's start. -/
theorem bitmapLoop_struct (bitmap : List Byte) (heap bpc cc : Nat)
    (hbpc : 0 < bpc) :
    ∀ (fuel idx : Nat) (st : BitmapLoopState),
      idx ≤ cc →
      (∀ p ∈ st.free_ranges, p.1 < p.2) →
      st.free_ranges.Pairwise (fun a b => a.2 ≤ b.1) →
      (∀ p ∈ st.free_ranges,
        p.2 ≤ heap + (match st.run_start with
          | some s => s
          | none => idx) * bpc) →
      (∀ s, st.run_start = some s → s < idx ∧ s < cc) →
      (∀ p ∈ (bitmapLoop bitmap heap bpc cc idx st fuel).1.free_ranges,
        p.1 < p.2) ∧
      ((bitmapLoop bitmap heap bpc cc idx st fuel).1.free_ranges).Pairwise
        (fun a b => a.2 ≤ b.1) ∧
      (∀ s, (bitmapLoop bitmap heap bpc cc idx st fuel).1.run_start = some s →
        (∀ p ∈ (bitmapLoop bitmap heap bpc cc idx st fuel).1.free_ranges,
          p.2 ≤ heap + s * bpc) ∧
        s < cc ∧ s ≤ (bitmapLoop bitmap heap bpc cc idx st fuel).2) := by
  intro fuel
  induction fuel with
  | zero =>
    intro idx st hidx h1 h2 h3 h4
    simp only [bitmapLoop]
    refine ⟨h1, h2, fun s hs => ⟨?_, (h4 s hs).2, le_of_lt (h4 s hs).1⟩⟩
    rw [hs] at h3
    exact h3
  | succ n ih =>
    intro idx st hidx h1 h2 h3 h4
    simp only [bitmapLoop]
    by_cases hlt : idx < cc
    · rw [if_neg (not_not_intro hlt)]
      by_cases hbyte : bitmap.length ≤ idx / 8
      · rw [if_pos hbyte]
        refine ⟨h1, h2, fun s hs => ⟨?_, (h4 s hs).2, le_of_lt (h4 s hs).1⟩⟩
        rw [hs] at h3
        exact h3
      · rw [if_neg hbyte]
        by_cases hz : byteAt bitmap (idx / 8) / 2 ^ (idx % 8) % 2 = 0
        · rw [if_pos hz]
          rcases hrs : st.run_start with _ | s0
          · refine ih (idx + 1)
              { st with free_count := st.free_count + 1,
                        run_start := some idx }
              (by omega) h1 h2 ?_ ?_
            · intro p hp
              show p.2 ≤ heap + idx * bpc
              have h := h3 p hp
              rw [hrs] at h
              exact h
            · intro s hs
              replace hs : some idx = some s := hs
              injection hs with hs
              subst hs
              exact ⟨by omega, hlt⟩
          · refine ih (idx + 1)
              { st with free_count := st.free_count + 1,
                        run_start := some s0 }
              (by omega) h1 h2 ?_ ?_
            · intro p hp
              show p.2 ≤ heap + s0 * bpc
              have h := h3 p hp
              rw [hrs] at h
              exact h
            · intro s hs
              replace hs : some s0 = some s := hs
              injection hs with hs
              subst hs
              exact ⟨by have := (h4 s0 hrs).1; omega, (h4 s0 hrs).2⟩
        · rw [if_neg hz]
          rcases hrs : st.run_start with _ | s0
          · refine ih (idx + 1) st (by omega) h1 h2 ?_ ?_
            · intro p hp
              have h := h3 p hp
              rw [hrs] at h
              replace h : p.2 ≤ heap + idx * bpc := h
              rw [hrs]
              show p.2 ≤ heap + (idx + 1) * bpc
              have hmul : idx * bpc ≤ (idx + 1) * bpc :=
                Nat.mul_le_mul_right _ (by omega)
              omega
            · intro s hs
              rw [hrs] at hs
              exact Option.noConfusion hs
          · have hs0 := h4 s0 hrs
            have hbound : ∀ p ∈ st.free_ranges, p.2 ≤ heap + s0 * bpc := by
              intro p hp
              have h := h3 p hp
              rw [hrs] at h
              exact h
            refine ih (idx + 1)
              { st with
                  free_ranges :=
                    st.free_ranges ++ [(heap + s0 * bpc, heap + idx * bpc)],
                  run_start := none }
              (by omega) ?_ ?_ ?_ ?_
            · intro p hp
              replace hp : p ∈ st.free_ranges ++
                  [(heap + s0 * bpc, heap + idx * bpc)] := hp
              rcases List.mem_append.mp hp with hp | hp
              · exact h1 p hp
              · rcases List.mem_singleton.mp hp with rfl
                show heap + s0 * bpc < heap + idx * bpc
                have : s0 * bpc < idx * bpc :=
                  (Nat.mul_lt_mul_right hbpc).mpr hs0.1
                omega
            · show (st.free_ranges ++
                [(heap + s0 * bpc, heap + idx * bpc)]).Pairwise
                (fun a b => a.2 ≤ b.1)
              rw [List.pairwise_append]
              refine ⟨h2, List.pairwise_singleton _ _, ?_⟩
              intro a ha b hb
              rcases List.mem_singleton.mp hb with rfl
              exact hbound a ha
            · intro p hp
              replace hp : p ∈ st.free_ranges ++
                  [(heap + s0 * bpc, heap + idx * bpc)] := hp
              show p.2 ≤ heap + (idx + 1) * bpc
              rcases List.mem_append.mp hp with hp | hp
              · have h := hbound p hp
                have hmul : s0 * bpc ≤ (idx + 1) * bpc :=
                  Nat.mul_le_mul_right _ (by omega)
                omega
              · rcases List.mem_singleton.mp hp with rfl
                have hmul : idx * bpc ≤ (idx + 1) * bpc :=
                  Nat.mul_le_mul_right _ (by omega)
                simp only
                omega
            · intro s hs
              replace hs : (none : Option Nat) = some s := hs
              exact Option.noConfusion hs
    · rw [if_pos hlt]
      refine ⟨h1, h2, fun s hs => ⟨?_, (h4 s hs).2, ?_⟩⟩
      · rw [hs] at h3
        exact h3
      · have := (h4 s hs).1
        omega

/-- Sum invariant of the cluster loop: when the bitmap covers every cluster
index the loop never breaks, and the closed ranges' total byte length plus
the open run's contribution equals the free count times the cluster size. -/
theorem bitmapLoop_sum (bitmap : List Byte) (heap bpc cc : Nat)
    (hcov : cc ≤ 8 * bitmap.length) :
    ∀ (fuel idx : Nat) (st : BitmapLoopState),
      idx ≤ cc →
      cc < idx + fuel →
      (∀ s, st.run_start = some s → s ≤ idx) →
      ((st.free_ranges.map (fun p => p.2 - p.1)).sum +
          (match st.run_start with
            | some s => (idx - s) * bpc
            | none => 0) =
        st.free_count * bpc) →
      (((bitmapLoop bitmap heap bpc cc idx st fuel).1.free_ranges.map
            (fun p => p.2 - p.1)).sum +
          (match (bitmapLoop bitmap heap bpc cc idx st fuel).1.run_start with
            | some s => (cc - s) * bpc
            | none => 0) =
        (bitmapLoop bitmap heap bpc cc idx st fuel).1.free_count * bpc) ∧
      min cc ((bitmapLoop bitmap heap bpc cc idx st fuel).2 + 1) = cc ∧
      (∀ s, (bitmapLoop bitmap heap bpc cc idx st fuel).1.run_start = some s →
        s ≤ cc) := by
  intro fuel
  induction fuel with
  | zero =>
    intro idx st hidx hfuel hrun hsum
    omega
  | succ n ih =>
    intro idx st hidx hfuel hrun hsum
    simp only [bitmapLoop]
    by_cases hlt : idx < cc
    · rw [if_neg (not_not_intro hlt)]
      have hbyte : ¬ bitmap.length ≤ idx / 8 := by omega
      rw [if_neg hbyte]
      by_cases hz : byteAt bitmap (idx / 8) / 2 ^ (idx % 8) % 2 = 0
      · rw [if_pos hz]
        rcases hrs : st.run_start with _ | s0
        · rw [hrs] at hsum
          replace hsum : (st.free_ranges.map (fun p => p.2 - p.1)).sum + 0 =
              st.free_count * bpc := hsum
          refine ih (idx + 1)
            { st with free_count := st.free_count + 1,
                      run_start := some idx }
            (by omega) (by omega) ?_ ?_
          · intro s hs
            replace hs : some idx = some s := hs
            injection hs with hs
            omega
          · show (st.free_ranges.map (fun p => p.2 - p.1)).sum +
              (idx + 1 - idx) * bpc = (st.free_count + 1) * bpc
            have : (idx + 1 - idx) * bpc = bpc := by
              have : idx + 1 - idx = 1 := by omega
              rw [this, one_mul]
            rw [this, Nat.succ_mul]
            omega
        · rw [hrs] at hsum
          replace hsum : (st.free_ranges.map (fun p => p.2 - p.1)).sum +
              (idx - s0) * bpc = st.free_count * bpc := hsum
          have hs0 : s0 ≤ idx := hrun s0 hrs
          refine ih (idx + 1)
            { st with free_count := st.free_count + 1,
                      run_start := some s0 }
            (by omega) (by omega) ?_ ?_
          · intro s hs
            replace hs : some s0 = some s := hs
            injection hs with hs
            omega
          · show (st.free_ranges.map (fun p => p.2 - p.1)).sum +
              (idx + 1 - s0) * bpc = (st.free_count + 1) * bpc
            have hstep : (idx + 1 - s0) * bpc = (idx - s0) * bpc + bpc := by
              have : idx + 1 - s0 = (idx - s0) + 1 := by omega
              rw [this, Nat.succ_mul]
            rw [hstep, Nat.succ_mul]
            omega
      · rw [if_neg hz]
        rcases hrs : st.run_start with _ | s0
        · rw [hrs] at hsum
          replace hsum : (st.free_ranges.map (fun p => p.2 - p.1)).sum + 0 =
              st.free_count * bpc := hsum
          refine ih (idx + 1) st (by omega) (by omega) ?_ ?_
          · intro s hs
            rw [hrs] at hs
            exact Option.noConfusion hs
          · rw [hrs]
            show (st.free_ranges.map (fun p => p.2 - p.1)).sum + 0 =
              st.free_count * bpc
            exact hsum
        · rw [hrs] at hsum
          replace hsum : (st.free_ranges.map (fun p => p.2 - p.1)).sum +
              (idx - s0) * bpc = st.free_count * bpc := hsum
          have hs0 : s0 ≤ idx := hrun s0 hrs
          refine ih (idx + 1)
            { st with
                free_ranges :=
                  st.free_ranges ++ [(heap + s0 * bpc, heap + idx * bpc)],
                run_start := none }
            (by omega) (by omega) ?_ ?_
          · intro s hs
            replace hs : (none : Option Nat) = some s := hs
            exact Option.noConfusion hs
          · show ((st.free_ranges ++
                [(heap + s0 * bpc, heap + idx * bpc)]).map
                  (fun p => p.2 - p.1)).sum + 0 = st.free_count * bpc
            rw [List.map_append, List.sum_append]
            have hlen : (heap + idx * bpc) - (heap + s0 * bpc) =
                (idx - s0) * bpc := by
              have hmul : s0 * bpc ≤ idx * bpc :=
                Nat.mul_le_mul_right _ hs0
              have : (idx - s0) * bpc = idx * bpc - s0 * bpc :=
                Nat.sub_mul idx s0 bpc
              omega
            simp only [List.map_cons, List.map_nil, List.sum_cons,
              List.sum_nil]
            omega
    · rw [if_pos hlt]
      have hidx2 : idx = cc := by omega
      subst hidx2
      refine ⟨hsum, ?_, fun s hs => hrun s hs⟩
      show min idx (idx - 1 + 1) = idx
      omega

/-- **C7 corrected**: for a positive cluster size the exFAT prober's
free-range list is always sorted with pairwise-disjoint nonempty ranges,
and its total byte length equals the reported free-cluster count times the
cluster size *provided the bitmap covers every cluster index*
(`cluster_count ≤ 8 · len(bitmap)`); a short bitmap ends the loop early and
the final flush closes the open run one cluster past the last examined
index, overcounting. -/
theorem C7_free_ranges (bitmap : List Byte)
    (cluster_count heap_offset bytes_per_cluster : Nat)
    (hbpc : 0 < bytes_per_cluster) :
    (∀ p ∈ (bitmap_to_free_ranges bitmap cluster_count heap_offset
        bytes_per_cluster).1, p.1 < p.2) ∧
    ((bitmap_to_free_ranges bitmap cluster_count heap_offset
        bytes_per_cluster).1).Pairwise (fun a b => a.2 ≤ b.1) ∧
    (cluster_count ≤ 8 * bitmap.length →
      (((bitmap_to_free_ranges bitmap cluster_count heap_offset
          bytes_per_cluster).1).map (fun p => p.2 - p.1)).sum =
        (bitmap_to_free_ranges bitmap cluster_count heap_offset
          bytes_per_cluster).2 * bytes_per_cluster) := by
  have hstruct := bitmapLoop_struct bitmap heap_offset bytes_per_cluster
    cluster_count hbpc (cluster_count + 1) 0 {} (by omega)
    (by intro p hp; exact absurd hp (List.not_mem_nil p))
    List.Pairwise.nil
    (by intro p hp; exact absurd hp (List.not_mem_nil p))
    (by intro s hs; exact Option.noConfusion hs)
  simp only [bitmap_to_free_ranges]
  rcases hrs : (bitmapLoop bitmap heap_offset bytes_per_cluster cluster_count
      0 {} (cluster_count + 1)).1.run_start with _ | s
  · refine ⟨hstruct.1, hstruct.2.1, ?_⟩
    intro hcov
    have hsum := bitmapLoop_sum bitmap heap_offset bytes_per_cluster
      cluster_count hcov (cluster_count + 1) 0 {} (by omega) (by omega)
      (by intro s hs; exact Option.noConfusion hs)
      (by simp)
    have h1 := hsum.1
    rw [hrs] at h1
    replace h1 : (((bitmapLoop bitmap heap_offset bytes_per_cluster
        cluster_count 0 {} (cluster_count + 1)).1.free_ranges.map
          (fun p => p.2 - p.1)).sum + 0 =
        (bitmapLoop bitmap heap_offset bytes_per_cluster cluster_count
          0 {} (cluster_count + 1)).1.free_count * bytes_per_cluster) := h1
    show (((bitmapLoop bitmap heap_offset bytes_per_cluster cluster_count
        0 {} (cluster_count + 1)).1.free_ranges).map
          (fun p => p.2 - p.1)).sum =
      (bitmapLoop bitmap heap_offset bytes_per_cluster cluster_count
        0 {} (cluster_count + 1)).1.free_count * bytes_per_cluster
    omega
  · have h32 := hstruct.2.2 s hrs
    constructor
    · intro p hp
      replace hp : p ∈ (bitmapLoop bitmap heap_offset bytes_per_cluster
          cluster_count 0 {} (cluster_count + 1)).1.free_ranges ++
          [(heap_offset + s * bytes_per_cluster,
            heap_offset + (min cluster_count
              ((bitmapLoop bitmap heap_offset bytes_per_cluster cluster_count
                0 {} (cluster_count + 1)).2 + 1)) * bytes_per_cluster)] := hp
      rcases List.mem_append.mp hp with hp | hp
      · exact hstruct.1 p hp
      · rcases List.mem_singleton.mp hp with rfl
        show heap_offset + s * bytes_per_cluster <
          heap_offset + (min cluster_count
            ((bitmapLoop bitmap heap_offset bytes_per_cluster cluster_count
              0 {} (cluster_count + 1)).2 + 1)) * bytes_per_cluster
        have hlt : s < min cluster_count
            ((bitmapLoop bitmap heap_offset bytes_per_cluster cluster_count
              0 {} (cluster_count + 1)).2 + 1) := by
          have := h32.2.1
          have := h32.2.2
          omega
        have := (Nat.mul_lt_mul_right hbpc).mpr hlt
        omega
    constructor
    · show ((bitmapLoop bitmap heap_offset bytes_per_cluster cluster_count
          0 {} (cluster_count + 1)).1.free_ranges ++
          [(heap_offset + s * bytes_per_cluster,
            heap_offset + (min cluster_count
              ((bitmapLoop bitmap heap_offset bytes_per_cluster cluster_count
                0 {} (cluster_count + 1)).2 + 1)) * bytes_per_cluster)]).Pairwise
          (fun a b => a.2 ≤ b.1)
      rw [List.pairwise_append]
      refine ⟨hstruct.2.1, List.pairwise_singleton _ _, ?_⟩
      intro a ha b hb
      rcases List.mem_singleton.mp hb with rfl
      exact h32.1 a ha
    · intro hcov
      have hsum := bitmapLoop_sum bitmap heap_offset bytes_per_cluster
        cluster_count hcov (cluster_count + 1) 0 {} (by omega) (by omega)
        (by intro s hs; exact Option.noConfusion hs)
        (by simp)
      have h1 := hsum.1
      rw [hrs] at h1
      replace h1 : (((bitmapLoop bitmap heap_offset bytes_per_cluster
          cluster_count 0 {} (cluster_count + 1)).1.free_ranges.map
            (fun p => p.2 - p.1)).sum +
          (cluster_count - s) * bytes_per_cluster =
          (bitmapLoop bitmap heap_offset bytes_per_cluster cluster_count
            0 {} (cluster_count + 1)).1.free_count * bytes_per_cluster) := h1
      have hmin := hsum.2.1
      show (((bitmapLoop bitmap heap_offset bytes_per_cluster cluster_count
          0 {} (cluster_count + 1)).1.free_ranges ++
          [(heap_offset + s * bytes_per_cluster,
            heap_offset + (min cluster_count
              ((bitmapLoop bitmap heap_offset bytes_per_cluster cluster_count
                0 {} (cluster_count + 1)).2 + 1)) * bytes_per_cluster)]).map
            (fun p => p.2 - p.1)).sum =
        (bitmapLoop bitmap heap_offset bytes_per_cluster cluster_count
          0 {} (cluster_count + 1)).1.free_count * bytes_per_cluster
      rw [List.map_append, List.sum_append, hmin]
      simp only [List.map_cons, List.map_nil, List.sum_cons, List.sum_nil]
      have hsc : s ≤ cluster_count := le_of_lt h32.2.1
      have hmul : s * bytes_per_cluster ≤ cluster_count * bytes_per_cluster :=
        Nat.mul_le_mul_right _ hsc
      have hsub : (cluster_count - s) * bytes_per_cluster =
          cluster_count * bytes_per_cluster - s * bytes_per_cluster :=
        Nat.sub_mul cluster_count s bytes_per_cluster
      omega

/-- **C7 counterexample**: a one-byte all-free bitmap with
`cluster_count = 9` — the loop breaks at index 8 and the final flush closes
the run at `min 9 (8 + 1) = 9` clusters while only 8 free clusters were
counted: the range list says 9 bytes, the free count says 8. -/
theorem C7_counterexample : ¬ claimC7 := by
  intro h
  have h3 := (h [0] 9 0 1 (by norm_num)).2.2
  have e1 : (((bitmap_to_free_ranges [0] 9 0 1).1).map
      (fun p => p.2 - p.1)).sum = 9 := by decide
  have e2 : (bitmap_to_free_ranges [0] 9 0 1).2 * 1 = 8 := by decide
  rw [e1, e2] at h3
  exact absurd h3 (by decide)

/-- **C7 witness**: the corrected statement at a covered bitmap — one byte,
eight clusters, cluster size one: one range of 8 bytes, free count 8. -/
theorem C7_witness :
    (∀ p ∈ (bitmap_to_free_ranges [0] 8 0 1).1, p.1 < p.2) ∧
    ((bitmap_to_free_ranges [0] 8 0 1).1).Pairwise (fun a b => a.2 ≤ b.1) ∧
    (8 ≤ 8 * ([0] : List Byte).length →
      (((bitmap_to_free_ranges [0] 8 0 1).1).map (fun p => p.2 - p.1)).sum =
        (bitmap_to_free_ranges [0] 8 0 1).2 * 1) :=
  C7_free_ranges [0] 8 0 1 (by decide)

/-! ## C1 — damage score formula and level brackets -/

/-- `_check_header`'s extra checks leave the null percentage alone. -/
theorem headerExtraChecks_pct (ext : String) (data : List Byte)
    (r : DamageReport) :
    (headerExtraChecks ext data r).null_region_percent =
      r.null_region_percent := by
  unfold headerExtraChecks
  repeat' (first | split | dsimp only)
  all_goals rfl

/-- `_check_header` leaves the null percentage alone. -/
theorem check_header_pct (ext : String) (data : List Byte) (r : DamageReport) :
    (check_header ext data r).null_region_percent = r.null_region_percent := by
  unfold check_header
  repeat' (first | split | dsimp only)
  all_goals first | rfl | exact headerExtraChecks_pct _ _ _

/-- `_check_footer` leaves the null percentage alone. -/
theorem check_footer_pct (ext : String) (data : List Byte) (r : DamageReport) :
    (check_footer ext data r).null_region_percent = r.null_region_percent := by
  unfold check_footer
  repeat' (first | split | dsimp only)
  all_goals rfl

/-- `_check_null_regions` sets a nonnegative null percentage. -/
theorem check_null_regions_pct_nonneg (data : List Byte) (r : DamageReport)
    (h : 0 ≤ r.null_region_percent) :
    0 ≤ (check_null_regions data r).null_region_percent := by
  unfold check_null_regions
  repeat' (first | split | dsimp only)
  all_goals first | exact h | positivity

/-- The JPEG marker walk leaves the null percentage alone. -/
theorem jpegWalk_pct (data : List Byte) :
    ∀ (fuel pos mc : Nat) (hs hf : Bool) (r : DamageReport),
      ((jpegWalk data pos mc hs hf r fuel).1).null_region_percent =
        r.null_region_percent := by
  intro fuel
  induction fuel with
  | zero => intro pos mc hs hf r; rfl
  | succ n ih =>
    intro pos mc hs hf r
    unfold jpegWalk
    repeat' (first | split | dsimp only)
    all_goals first | rfl | apply ih

/-- The PNG chunk walk leaves the null percentage alone. -/
theorem pngWalk_pct (data : List Byte) :
    ∀ (fuel pos cc bc : Nat) (hi hd : Bool) (r : DamageReport),
      ((pngWalk data pos cc bc hi hd r fuel).1).null_region_percent =
        r.null_region_percent := by
  intro fuel
  induction fuel with
  | zero => intro pos cc bc hi hd r; rfl
  | succ n ih =>
    intro pos cc bc hi hd r
    unfold pngWalk
    repeat' (first | split | dsimp only)
    all_goals first | rfl | (rw [ih]; rfl) | rw [ih]

/-- The ISO-BMFF box walk of the damage detector leaves the null percentage
alone. -/
theorem isobmffStructWalk_pct (data : List Byte) :
    ∀ (fuel pos bc : Nat) (hm hd : Bool) (r : DamageReport),
      ((isobmffStructWalk data pos bc hm hd r fuel).1).null_region_percent =
        r.null_region_percent := by
  intro fuel
  induction fuel with
  | zero => intro pos bc hm hd r; rfl
  | succ n ih =>
    intro pos bc hm hd r
    unfold isobmffStructWalk
    repeat' (first | split | dsimp only)
    all_goals first | rfl | apply ih

/-- `_check_jpeg_structure` leaves the null percentage alone. -/
theorem check_jpeg_structure_pct (data : List Byte) (r : DamageReport) :
    (check_jpeg_structure data r).null_region_percent =
      r.null_region_percent := by
  unfold check_jpeg_structure
  repeat' (first | split | dsimp only)
  all_goals first | rfl | rw [jpegWalk_pct]

/-- `_check_png_structure` leaves the null percentage alone. -/
theorem check_png_structure_pct (data : List Byte) (r : DamageReport) :
    (check_png_structure data r).null_region_percent =
      r.null_region_percent := by
  unfold check_png_structure
  repeat' (first | split | dsimp only)
  all_goals first | rfl | rw [pngWalk_pct]

/-- `_check_isobmff_structure` leaves the null percentage alone. -/
theorem check_isobmff_structure_pct (data : List Byte) (r : DamageReport) :
    (check_isobmff_structure data r).null_region_percent =
      r.null_region_percent := by
  unfold check_isobmff_structure
  repeat' (first | split | dsimp only)
  all_goals first | rfl | rw [isobmffStructWalk_pct]

/-- `_check_bmp_structure` leaves the null percentage alone. -/
theorem check_bmp_structure_pct (data : List Byte) (r : DamageReport) :
    (check_bmp_structure data r).null_region_percent =
      r.null_region_percent := by
  unfold check_bmp_structure
  repeat' (first | split | dsimp only)
  all_goals rfl

/-- `_check_riff_structure` leaves the null percentage alone. -/
theorem check_riff_structure_pct (data : List Byte) (r : DamageReport) :
    (check_riff_structure data r).null_region_percent =
      r.null_region_percent := by
  unfold check_riff_structure
  repeat' (first | split | dsimp only)
  all_goals rfl

/-- `_check_mpeg_ps_structure` leaves the null percentage alone. -/
theorem check_mpeg_ps_structure_pct (data : List Byte) (r : DamageReport) :
    (check_mpeg_ps_structure data r).null_region_percent =
      r.null_region_percent := by
  unfold check_mpeg_ps_structure
  repeat' (first | split | dsimp only)
  all_goals rfl

/-- `_check_swf_structure` leaves the null percentage alone. -/
theorem check_swf_structure_pct (data : List Byte) (r : DamageReport) :
    (check_swf_structure data r).null_region_percent =
      r.null_region_percent := by
  unfold check_swf_structure
  repeat' (first | split | dsimp only)
  all_goals rfl

/-- `_check_structure` (all format branches) leaves the null percentage
alone. -/
theorem check_structure_pct (ext : String) (data : List Byte)
    (r : DamageReport) :
    (check_structure ext data r).null_region_percent =
      r.null_region_percent := by
  unfold check_structure
  repeat' (first | split | dsimp only)
  all_goals
    first
      | rfl
      | exact check_jpeg_structure_pct data r
      | exact check_png_structure_pct data r
      | exact check_isobmff_structure_pct data r
      | exact check_bmp_structure_pct data r
      | exact check_riff_structure_pct data r
      | exact check_mpeg_ps_structure_pct data r
      | exact check_swf_structure_pct data r

/-- `_check_truncation` leaves the null percentage alone. -/
theorem check_truncation_pct (ext : String) (data : List Byte)
    (expected : Nat) (r : DamageReport) :
    (check_truncation ext data expected r).null_region_percent =
      r.null_region_percent := by
  unfold check_truncation
  repeat' (first | split | dsimp only)
  all_goals rfl

/-- `_check_entropy` leaves the null percentage alone. -/
theorem check_entropy_pct (ext : String) (data : List Byte)
    (r : DamageReport) :
    (check_entropy ext data r).null_region_percent =
      r.null_region_percent := by
  unfold check_entropy
  repeat' (first | split | dsimp only)
  all_goals rfl

/-- `_compute_damage_level` caps the weighted total at 1. -/
theorem compute_damage_level_score (r : DamageReport) :
    (compute_damage_level r).damage_score = min 1 (totalScore r) := rfl

/-- `_compute_damage_level` brackets the uncapped total into the level. -/
theorem compute_damage_level_level (r : DamageReport) :
    (compute_damage_level r).damage_level =
      (if totalScore r = 0 then "healthy"
       else if totalScore r ≤ 15 / 100 then "minor"
       else if totalScore r ≤ 35 / 100 then "moderate"
       else if totalScore r ≤ 65 / 100 then "severe"
       else "fatal") := rfl

/-- `_compute_damage_level` does not change the flags or the null
percentage, hence not the weighted total either. -/
theorem totalScore_compute_damage_level (r : DamageReport) :
    totalScore (compute_damage_level r) = totalScore r := rfl

/-- `_assess_repairability` only touches `repairable` and
`repair_actions`. -/
theorem assess_repairability_fields (ext : String) (r : DamageReport) :
    (assess_repairability ext r).damage_score = r.damage_score ∧
    (assess_repairability ext r).damage_level = r.damage_level ∧
    totalScore (assess_repairability ext r) = totalScore r := by
  unfold assess_repairability
  repeat' (first | split | dsimp only)
  all_goals exact ⟨rfl, rfl, rfl⟩

/-- The weighted total is nonnegative whenever the null percentage is. -/
theorem totalScore_nonneg (r : DamageReport)
    (h : 0 ≤ r.null_region_percent) : 0 ≤ totalScore r := by
  unfold totalScore weightedScore
  have t1 : (0:ℚ) ≤ (if r.header_damaged then (35:ℚ)/100 else 0) := by
    split <;> norm_num
  have t2 : (0:ℚ) ≤ (if r.footer_missing then (10:ℚ)/100 else 0) := by
    split <;> norm_num
  have t3 : (0:ℚ) ≤ (if r.truncated then (15:ℚ)/100 else 0) := by
    split <;> norm_num
  have t4 : (0:ℚ) ≤ (if r.structure_broken then (25:ℚ)/100 else 0) := by
    split <;> norm_num
  have t5 : (0:ℚ) ≤ (if r.has_null_regions then
      min ((40:ℚ)/100) (r.null_region_percent / 100 * (5/10)) else 0) := by
    split
    · exact le_min (by norm_num) (by positivity)
    · norm_num
  have t6 : (0:ℚ) ≤ (if r.entropy_anomaly then (10:ℚ)/100 else 0) := by
    split <;> norm_num
  have t7 : (0:ℚ) ≤ (if 3 ≤ issueFlagCount r then (10:ℚ)/100 else 0) := by
    split <;> norm_num
  positivity

/-- For a nonnegative uncapped score, the level bracket conditions of the
claim — read on the capped score `min 1 sc` — coincide with the source's
bracketing of the uncapped score. -/
theorem damage_level_brackets (sc : ℚ) (h : 0 ≤ sc) :
    ((if sc = 0 then "healthy"
      else if sc ≤ 15 / 100 then "minor"
      else if sc ≤ 35 / 100 then "moderate"
      else if sc ≤ 65 / 100 then "severe"
      else "fatal") = "healthy" ↔ min 1 sc = 0) ∧
    ((if sc = 0 then "healthy"
      else if sc ≤ 15 / 100 then "minor"
      else if sc ≤ 35 / 100 then "moderate"
      else if sc ≤ 65 / 100 then "severe"
      else "fatal") = "minor" ↔ (0 < min 1 sc ∧ min 1 sc ≤ 15 / 100)) ∧
    ((if sc = 0 then "healthy"
      else if sc ≤ 15 / 100 then "minor"
      else if sc ≤ 35 / 100 then "moderate"
      else if sc ≤ 65 / 100 then "severe"
      else "fatal") = "moderate" ↔
      (15 / 100 < min 1 sc ∧ min 1 sc ≤ 35 / 100)) ∧
    ((if sc = 0 then "healthy"
      else if sc ≤ 15 / 100 then "minor"
      else if sc ≤ 35 / 100 then "moderate"
      else if sc ≤ 65 / 100 then "severe"
      else "fatal") = "severe" ↔
      (35 / 100 < min 1 sc ∧ min 1 sc ≤ 65 / 100)) ∧
    ((if sc = 0 then "healthy"
      else if sc ≤ 15 / 100 then "minor"
      else if sc ≤ 35 / 100 then "moderate"
      else if sc ≤ 65 / 100 then "severe"
      else "fatal") = "fatal" ↔ 65 / 100 < min 1 sc) := by
  have b0 : min 1 sc = 0 ↔ sc = 0 := by
    constructor
    · intro hm
      rcases le_total 1 sc with hle | hle
      · rw [min_eq_left hle] at hm
        norm_num at hm
      · rw [min_eq_right hle] at hm
        exact hm
    · intro hm
      rw [hm]
      norm_num
  have ble : ∀ x : ℚ, x < 1 → (min 1 sc ≤ x ↔ sc ≤ x) := by
    intro x hx
    rw [min_le_iff]
    constructor
    · rintro (h1 | h2)
      · linarith
      · exact h2
    · exact Or.inr
  have blt : ∀ x : ℚ, x < 1 → (x < min 1 sc ↔ x < sc) := by
    intro x hx
    rw [lt_min_iff]
    exact ⟨fun hh => hh.2, fun hh => ⟨hx, hh⟩⟩
  rw [b0, ble (15 / 100) (by norm_num), ble (35 / 100) (by norm_num),
    ble (65 / 100) (by norm_num), blt 0 (by norm_num),
    blt (15 / 100) (by norm_num), blt (35 / 100) (by norm_num),
    blt (65 / 100) (by norm_num)]
  by_cases h0 : sc = 0
  · rw [if_pos h0]
    subst h0
    norm_num
    refine ⟨by decide, by decide, by decide, by decide⟩
  · rw [if_neg h0]
    have hpos : 0 < sc := lt_of_le_of_ne h (Ne.symm h0)
    by_cases h15 : sc ≤ 15 / 100
    · rw [if_pos h15]
      refine ⟨by simp [h0], by simp [hpos, h15], ?_, ?_, ?_⟩
      · simp only [String.reduceEq, false_iff, not_and, not_le]
        intro hq
        linarith
      · simp only [String.reduceEq, false_iff, not_and, not_le]
        intro hq
        linarith
      · simp only [String.reduceEq, false_iff, not_lt]
        linarith
    · rw [if_neg h15]
      by_cases h35 : sc ≤ 35 / 100
      · rw [if_pos h35]
        refine ⟨by simp [h0], ?_, by simp [not_le.mp h15, h35], ?_, ?_⟩
        · simp only [String.reduceEq, false_iff, not_and, not_le]
          intro hq
          linarith
        · simp only [String.reduceEq, false_iff, not_and, not_le]
          intro hq
          linarith
        · simp only [String.reduceEq, false_iff, not_lt]
          linarith
      · rw [if_neg h35]
        by_cases h65 : sc ≤ 65 / 100
        · rw [if_pos h65]
          refine ⟨by simp [h0], ?_, ?_, by simp [not_le.mp h35, h65], ?_⟩
          · simp only [String.reduceEq, false_iff, not_and, not_le]
            intro hq
            linarith
          · simp only [String.reduceEq, false_iff, not_and, not_le]
            intro hq
            linarith
          · simp only [String.reduceEq, false_iff, not_lt]
            linarith
        · rw [if_neg h65]
          have h65' : 65 / 100 < sc := not_le.mp h65
          refine ⟨by simp [h0], ?_, ?_, ?_, by simp [h65']⟩
          · simp only [String.reduceEq, false_iff, not_and, not_le]
            intro hq
            linarith
          · simp only [String.reduceEq, false_iff, not_and, not_le]
            intro hq
            linarith
          · simp only [String.reduceEq, false_iff, not_and, not_le]
            intro hq
            linarith

/-- **C1 corrected**: for every input of at least 8 bytes the claim's score
formula and level brackets hold: the damage score is the weighted sum of
the six contributions plus the multi-issue bonus (`totalScore`), capped at
1, and the level brackets read off that score.  (Inputs shorter than 8
bytes take the early-exit path, which sets score 1 with no flags — the
counterexample below.) -/
theorem C1_score_formula (ext : String) (data : List Byte) (expected : Nat)
    (h : 8 ≤ data.length) :
    (analyze_damage ext data expected).damage_score =
      min 1 (totalScore (analyze_damage ext data expected)) ∧
    ((analyze_damage ext data expected).damage_level = "healthy" ↔
      (analyze_damage ext data expected).damage_score = 0) ∧
    ((analyze_damage ext data expected).damage_level = "minor" ↔
      (0 < (analyze_damage ext data expected).damage_score ∧
       (analyze_damage ext data expected).damage_score ≤ 15 / 100)) ∧
    ((analyze_damage ext data expected).damage_level = "moderate" ↔
      (15 / 100 < (analyze_damage ext data expected).damage_score ∧
       (analyze_damage ext data expected).damage_score ≤ 35 / 100)) ∧
    ((analyze_damage ext data expected).damage_level = "severe" ↔
      (35 / 100 < (analyze_damage ext data expected).damage_score ∧
       (analyze_damage ext data expected).damage_score ≤ 65 / 100)) ∧
    ((analyze_damage ext data expected).damage_level = "fatal" ↔
      65 / 100 < (analyze_damage ext data expected).damage_score) := by
  have hne : ¬ (data = [] ∨ data.length < 8) := by
    rintro (rfl | hlen)
    · simp at h
    · omega
  have heq : analyze_damage ext data expected =
      assess_repairability (lowerExt ext) (compute_damage_level
        (check_entropy (lowerExt ext) data
          (check_truncation (lowerExt ext) data expected
            (check_structure (lowerExt ext) data
              (check_null_regions data
                (check_footer (lowerExt ext) data
                  (check_header (lowerExt ext) data
                    { actual_size := data.length,
                      expected_size :=
                        if expected = 0 then data.length
                        else expected }))))))) := by
    unfold analyze_damage
    rw [if_neg hne]
  set r5 := check_entropy (lowerExt ext) data
    (check_truncation (lowerExt ext) data expected
      (check_structure (lowerExt ext) data
        (check_null_regions data
          (check_footer (lowerExt ext) data
            (check_header (lowerExt ext) data
              { actual_size := data.length,
                expected_size :=
                  if expected = 0 then data.length
                  else expected }))))) with hr5
  have hpct : 0 ≤ r5.null_region_percent := by
    rw [hr5, check_entropy_pct, check_truncation_pct, check_structure_pct]
    apply check_null_regions_pct_nonneg
    rw [check_footer_pct, check_header_pct]
  have hts : 0 ≤ totalScore r5 := totalScore_nonneg r5 hpct
  rw [heq]
  simp only [(assess_repairability_fields (lowerExt ext)
      (compute_damage_level r5)).1,
    (assess_repairability_fields (lowerExt ext)
      (compute_damage_level r5)).2.1,
    (assess_repairability_fields (lowerExt ext)
      (compute_damage_level r5)).2.2,
    compute_damage_level_score, compute_damage_level_level,
    totalScore_compute_damage_level]
  exact ⟨trivial, (damage_level_brackets _ hts).1,
    (damage_level_brackets _ hts).2.1, (damage_level_brackets _ hts).2.2.1,
    (damage_level_brackets _ hts).2.2.2.1,
    (damage_level_brackets _ hts).2.2.2.2⟩

/-- **C1 counterexample**: on an empty input the early exit sets damage
score 1 although no flag fired — the weighted sum (plus bonus) is 0, so
`min 1 total = 0 ≠ 1` and the claim's formula fails. -/
theorem C1_counterexample : ¬ claimC1 := by
  intro h
  have h1 := (h "jpg" [] 0).1
  have e1 : (analyze_damage "jpg" [] 0).damage_score = 1 := by
    with_unfolding_all decide
  have e2 : totalScore (analyze_damage "jpg" [] 0) = 0 := by
    with_unfolding_all decide
  rw [e1, e2] at h1
  norm_num at h1

/-- **C1 witness**: the corrected formula at a concrete 16-byte input. -/
theorem C1_witness :
    (analyze_damage "jpg" (List.replicate 16 0) 0).damage_score =
      min 1 (totalScore (analyze_damage "jpg" (List.replicate 16 0) 0)) ∧
    ((analyze_damage "jpg" (List.replicate 16 0) 0).damage_level = "healthy" ↔
      (analyze_damage "jpg" (List.replicate 16 0) 0).damage_score = 0) ∧
    ((analyze_damage "jpg" (List.replicate 16 0) 0).damage_level = "minor" ↔
      (0 < (analyze_damage "jpg" (List.replicate 16 0) 0).damage_score ∧
       (analyze_damage "jpg" (List.replicate 16 0) 0).damage_score ≤
         15 / 100)) ∧
    ((analyze_damage "jpg" (List.replicate 16 0) 0).damage_level =
        "moderate" ↔
      (15 / 100 < (analyze_damage "jpg" (List.replicate 16 0) 0).damage_score ∧
       (analyze_damage "jpg" (List.replicate 16 0) 0).damage_score ≤
         35 / 100)) ∧
    ((analyze_damage "jpg" (List.replicate 16 0) 0).damage_level = "severe" ↔
      (35 / 100 < (analyze_damage "jpg" (List.replicate 16 0) 0).damage_score ∧
       (analyze_damage "jpg" (List.replicate 16 0) 0).damage_score ≤
         65 / 100)) ∧
    ((analyze_damage "jpg" (List.replicate 16 0) 0).damage_level = "fatal" ↔
      65 / 100 < (analyze_damage "jpg" (List.replicate 16 0) 0).damage_score) :=
  C1_score_formula "jpg" (List.replicate 16 0) 0 (by decide)

/-! ## C3 — scan-session dedup separation -/

/-- `is_duplicate_content` never touches the offset set. -/
theorem is_duplicate_content_offsets (t : DeduplicationTracker)
    (d : List Byte) :
    ((is_duplicate_content t d).2).offsets = t.offsets := by
  unfold is_duplicate_content
  repeat' (first | split | dsimp only)
  all_goals rfl

/-- The footer carve never touches the tracker's offset set (only the
content-hash half). -/
theorem carve_footer_file_offsets (hp : Bool)
    (pf : String → List Byte → Bool) (contents : List Byte) (offset : Nat)
    (sig : SignatureInfo) (tr : DeduplicationTracker)
    (frags : List FragmentCandidate) :
    ((carve_footer_file hp pf contents offset sig tr frags).2.1).offsets =
      tr.offsets := by
  unfold carve_footer_file
  repeat' (first | split | dsimp only)
  all_goals first | rfl | exact is_duplicate_content_offsets _ _

/-- A record the footer carve returns carries the queried offset. -/
theorem carve_footer_file_offset_eq (hp : Bool)
    (pf : String → List Byte → Bool) (contents : List Byte) (offset : Nat)
    (sig : SignatureInfo) (tr tr2 : DeduplicationTracker)
    (frags frags2 : List FragmentCandidate) (rf : RecoveredFile)
    (h : carve_footer_file hp pf contents offset sig tr frags =
      (some rf, tr2, frags2)) :
    rf.offset = offset := by
  unfold carve_footer_file at h
  repeat' (first | split at h | dsimp only at h)
  all_goals simp only [Prod.mk.injEq, Option.some.injEq] at h
  all_goals first | exact Option.noConfusion h.1 | rw [← h.1]

/-- **C3** (confirmed): the fixed-header hit loop of `_search_chunk` —
offset pre-check, carve, register — keeps every accepted pair of records
separated: their offsets differ by at least the 512-byte proximity window
or their MD5 fingerprints differ.  `carve` is any carve satisfying what
each one in the source does: it leaves the tracker's offset set alone and
stamps the queried offset on the record (the witness instantiates it with
the footer carve). -/
theorem C3_session_separation
    (carve : Nat → DeduplicationTracker → List FragmentCandidate →
      Option RecoveredFile × DeduplicationTracker × List FragmentCandidate)
    (hOff : ∀ off tr frags, ((carve off tr frags).2.1).offsets = tr.offsets)
    (hRec : ∀ off tr frags rf tr2 frags2,
      carve off tr frags = (some rf, tr2, frags2) → rf.offset = off)
    (hits : List Nat) :
    ((processHits carve hits {} [] []).1).Pairwise
      (fun a b => 512 ≤ natDist a.offset b.offset ∨ a.md5 ≠ b.md5) := by
  suffices hmain : ∀ (hs : List Nat) (tr : DeduplicationTracker)
      (frags : List FragmentCandidate) (found : List RecoveredFile),
      (∀ rf ∈ found, rf.offset ∈ tr.offsets) →
      found.Pairwise
        (fun a b => 512 ≤ natDist a.offset b.offset ∨ a.md5 ≠ b.md5) →
      ((processHits carve hs tr frags found).1).Pairwise
        (fun a b => 512 ≤ natDist a.offset b.offset ∨ a.md5 ≠ b.md5) by
    exact hmain hits {} [] []
      (by intro rf hrf; exact absurd hrf (List.not_mem_nil rf))
      List.Pairwise.nil
  intro hs
  induction hs with
  | nil =>
    intro tr frags found hmem hpw
    exact hpw
  | cons h rest ih =>
    intro tr frags found hmem hpw
    simp only [processHits]
    by_cases hdup : is_duplicate_offset tr h = true
    · rw [if_pos hdup]
      exact ih tr frags found hmem hpw
    · rw [if_neg hdup]
      rcases hc : carve h tr frags with ⟨orf, tr2, frags2⟩
      cases orf with
      | none =>
        have hoffs : tr2.offsets = tr.offsets := by
          have h2 := hOff h tr frags
          rw [hc] at h2
          exact h2
        apply ih
        · intro rf hrf
          rw [hoffs]
          exact hmem rf hrf
        · exact hpw
      | some rf =>
        have hoffs : tr2.offsets = tr.offsets := by
          have h2 := hOff h tr frags
          rw [hc] at h2
          exact h2
        have hrfoff : rf.offset = h := hRec h tr frags rf tr2 frags2 hc
        have hsep : ∀ o ∈ tr.offsets, 512 ≤ natDist o h := by
          intro o ho
          by_contra hcon
          push_neg at hcon
          apply hdup
          unfold is_duplicate_offset
          rw [List.any_eq_true]
          refine ⟨o, ho, ?_⟩
          simp only [decide_eq_true_eq]
          omega
        apply ih
        · intro rf' hrf'
          show rf'.offset ∈ h :: tr2.offsets
          rcases List.mem_append.mp hrf' with hrf' | hrf'
          · exact List.mem_cons_of_mem _ (by rw [hoffs]; exact hmem rf' hrf')
          · rcases List.mem_singleton.mp hrf' with rfl
            rw [hrfoff]
            exact List.mem_cons_self _ _
        · rw [List.pairwise_append]
          refine ⟨hpw, List.pairwise_singleton _ _, ?_⟩
          intro a ha b hb
          rcases List.mem_singleton.mp hb with rfl
          left
          rw [hrfoff]
          exact hsep a.offset (hmem a ha)

/-- **C3 witness**: the separation guarantee for a concrete session — the
footer carve bound to `SIG_GIF` over `gifZeros1024`, with hits at offsets 0
and 600. -/
theorem C3_witness :
    ((processHits (fun off tr frags =>
        carve_footer_file false pillowNone gifZeros1024 off SIG_GIF tr frags)
      [0, 600] {} [] []).1).Pairwise
      (fun a b => 512 ≤ natDist a.offset b.offset ∨ a.md5 ≠ b.md5) :=
  C3_session_separation _
    (fun off tr frags =>
      carve_footer_file_offsets false pillowNone gifZeros1024 off SIG_GIF
        tr frags)
    (fun off tr frags rf tr2 frags2 hc =>
      carve_footer_file_offset_eq false pillowNone gifZeros1024 off SIG_GIF
        tr tr2 frags frags2 rf hc)
    [0, 600]

/-! ## C2 — repair success vs damage level -/

/-- `addAction` leaves `damage_before` alone. -/
@[simp] theorem addAction_damage_before (r : RepairResult) (a : String) :
    (addAction r a).damage_before = r.damage_before := rfl

/-- `addFailed` leaves `damage_before` alone. -/
@[simp] theorem addFailed_damage_before (r : RepairResult) (a : String) :
    (addFailed r a).damage_before = r.damage_before := rfl

/-- `addAction` leaves `success` alone. -/
@[simp] theorem addAction_success (r : RepairResult) (a : String) :
    (addAction r a).success = r.success := rfl

/-- `addFailed` leaves `success` alone. -/
@[simp] theorem addFailed_success (r : RepairResult) (a : String) :
    (addFailed r a).success = r.success := rfl

/-- `_repair_jpeg` leaves `damage_before` alone. -/
@[simp] theorem repair_jpeg_db (data : List Byte) (report : DamageReport)
    (res : RepairResult) :
    ((repair_jpeg data report res).2).damage_before = res.damage_before := by
  unfold repair_jpeg
  repeat' (first | split | dsimp only)
  all_goals simp

/-- `_repair_png` leaves `damage_before` alone. -/
@[simp] theorem repair_png_db (data : List Byte) (report : DamageReport)
    (res : RepairResult) :
    ((repair_png data report res).2).damage_before = res.damage_before := by
  unfold repair_png
  repeat' (first | split | dsimp only)
  all_goals simp

/-- `_repair_bmp` leaves `damage_before` alone. -/
@[simp] theorem repair_bmp_db (data : List Byte) (report : DamageReport)
    (res : RepairResult) :
    ((repair_bmp data report res).2).damage_before = res.damage_before := by
  unfold repair_bmp
  repeat' (first | split | dsimp only)
  all_goals simp

/-- The box-size fix loop of `_repair_isobmff` leaves `damage_before`
alone. -/
@[simp] theorem isobmffFixLoop_db (d : List Byte) :
    ∀ (fuel pos lve : Nat) (res : RepairResult),
      ((isobmffFixLoop d pos lve res fuel).2.2).damage_before =
        res.damage_before := by
  intro fuel
  induction fuel with
  | zero => intro pos lve res; rfl
  | succ n ih =>
    intro pos lve res
    unfold isobmffFixLoop
    repeat' (first | split | dsimp only)
    all_goals first | rfl | simp | apply ih

/-- `_repair_isobmff` leaves `damage_before` alone. -/
@[simp] theorem repair_isobmff_db (data : List Byte) (report : DamageReport)
    (res : RepairResult) :
    ((repair_isobmff data report res).2).damage_before =
      res.damage_before := by
  unfold repair_isobmff
  repeat' (first | split | dsimp only)
  all_goals simp

/-- `_repair_riff` leaves `damage_before` alone. -/
@[simp] theorem repair_riff_db (data : List Byte) (report : DamageReport)
    (res : RepairResult) :
    ((repair_riff data report res).2).damage_before = res.damage_before := by
  unfold repair_riff
  repeat' (first | split | dsimp only)
  all_goals simp

/-- `_repair_gif` leaves `damage_before` alone. -/
@[simp] theorem repair_gif_db (data : List Byte) (report : DamageReport)
    (res : RepairResult) :
    ((repair_gif data report res).2).damage_before = res.damage_before := by
  unfold repair_gif
  repeat' (first | split | dsimp only)
  all_goals simp

/-- `_mpeg_fix_header` leaves `damage_before` alone. -/
@[simp] theorem mpeg_fix_header_db (d : List Byte) (report : DamageReport)
    (res : RepairResult) :
    ((mpeg_fix_header d report res).2).damage_before =
      res.damage_before := by
  unfold mpeg_fix_header
  repeat' (first | split | dsimp only)
  all_goals simp

/-- `_mpeg_excise_null_regions` leaves `damage_before` alone. -/
@[simp] theorem mpeg_excise_null_regions_db (d : List Byte)
    (res : RepairResult) :
    ((mpeg_excise_null_regions d res).2).damage_before =
      res.damage_before := by
  unfold mpeg_excise_null_regions
  repeat' (first | split | dsimp only)
  all_goals simp

/-- `_mpeg_resync_start_codes` leaves `damage_before` alone. -/
@[simp] theorem mpeg_resync_start_codes_db (d : List Byte)
    (res : RepairResult) :
    ((mpeg_resync_start_codes d res).2).damage_before =
      res.damage_before := by
  unfold mpeg_resync_start_codes
  repeat' (first | split | dsimp only)
  all_goals simp

/-- `_mpeg_trim_trailing` leaves `damage_before` alone. -/
@[simp] theorem mpeg_trim_trailing_db (d : List Byte) (res : RepairResult) :
    ((mpeg_trim_trailing d res).2).damage_before = res.damage_before := by
  unfold mpeg_trim_trailing
  repeat' (first | split | dsimp only)
  all_goals simp

/-- `_mpeg_append_end_code` leaves `damage_before` alone. -/
@[simp] theorem mpeg_append_end_code_db (d : List Byte) (res : RepairResult) :
    ((mpeg_append_end_code d res).2).damage_before = res.damage_before := by
  unfold mpeg_append_end_code
  repeat' (first | split | dsimp only)
  all_goals simp

/-- `_repair_mpeg_ps` leaves `damage_before` alone. -/
@[simp] theorem repair_mpeg_ps_db (data : List Byte) (report : DamageReport)
    (res : RepairResult) :
    ((repair_mpeg_ps data report res).2).damage_before =
      res.damage_before := by
  unfold repair_mpeg_ps
  repeat' (first | split | dsimp only)
  all_goals simp

/-- `_repair_swf` leaves `damage_before` alone. -/
@[simp] theorem repair_swf_db (data : List Byte) (report : DamageReport)
    (res : RepairResult) :
    ((repair_swf data report res).2).damage_before = res.damage_before := by
  unfold repair_swf
  repeat' (first | split | dsimp only)
  all_goals simp

/-- `_repair_generic` leaves `damage_before` alone. -/
@[simp] theorem repair_generic_db (data : List Byte) (report : DamageReport)
    (res : RepairResult) :
    ((repair_generic data report res).2).damage_before =
      res.damage_before := by
  unfold repair_generic
  repeat' (first | split | dsimp only)
  all_goals simp

/-- The per-format dispatch leaves `damage_before` alone. -/
@[simp] theorem repairDispatch_db (ext : String) (data : List Byte)
    (report : DamageReport) (res : RepairResult) :
    ((repairDispatch ext data report res).2).damage_before =
      res.damage_before := by
  unfold repairDispatch
  repeat' (first | split | dsimp only)
  all_goals simp

/-- `repair_file` with an explicitly supplied damage report (the
`damage_report=None` call is definitionally the same after the analysis is
substituted). -/
theorem repair_file_success_some (ext : String) (data : List Byte)
    (report : DamageReport)
    (hs : (repair_file ext data (some report)).success = true) :
    (∃ b a, (repair_file ext data (some report)).damage_before = some b ∧
      (repair_file ext data (some report)).damage_after = some a ∧
      levelOrder a.damage_level < levelOrder b.damage_level) ∨
    ((repair_file ext data (some report)).actions_taken ≠ [] ∧
     (repair_file ext data (some report)).actions_failed = []) := by
  unfold repair_file at hs ⊢
  by_cases hd : data = []
  · rw [if_pos hd] at hs
    simp [addFailed] at hs
  · rw [if_neg hd] at hs ⊢
    dsimp only at hs ⊢
    by_cases hdam : report.is_damaged = false
    · rw [if_pos hdam]
      right
      constructor
      · simp
      · rfl
    · rw [if_neg hdam] at hs ⊢
      rw [Bool.or_eq_true] at hs
      rcases hs with hlt | hand
      · left
        refine ⟨report,
          analyze_damage (lowerExt ext)
            (repairDispatch (lowerExt ext) data report
              { original_size := data.length, md5_before := md5 data,
                damage_before := some report }).1,
          ?_, rfl, ?_⟩
        · show (repairDispatch (lowerExt ext) data report
              { original_size := data.length, md5_before := md5 data,
                damage_before := some report }).2.damage_before = some report
          simp
        · exact of_decide_eq_true hlt
      · rw [Bool.and_eq_true] at hand
        rcases hand with ⟨h1, h2⟩
        right
        exact ⟨of_decide_eq_true h1, of_decide_eq_true h2⟩

/-- **C2 corrected**: what `success = true` actually guarantees — either the
re-analysed damage level strictly improved, or at least one repair action
was taken and none failed.  The second disjunct places no bound on the
post-repair level, which is how a "successful" repair can worsen it (the
counterexample below). -/
theorem C2_success_meaning (ext : String) (data : List Byte)
    (rep : Option DamageReport)
    (hs : (repair_file ext data rep).success = true) :
    (∃ b a, (repair_file ext data rep).damage_before = some b ∧
      (repair_file ext data rep).damage_after = some a ∧
      levelOrder a.damage_level < levelOrder b.damage_level) ∨
    ((repair_file ext data rep).actions_taken ≠ [] ∧
     (repair_file ext data rep).actions_failed = []) := by
  rcases rep with _ | r
  · have heq : repair_file ext data none =
        repair_file ext data (some (analyze_damage (lowerExt ext) data)) :=
      rfl
    rw [heq] at hs ⊢
    exact repair_file_success_some ext data _ hs
  · exact repair_file_success_some ext data r hs

/-- **C2 counterexample**: on the 62-byte PNG `pngTrailingZeroCex` the
repair is "successful" (it trimmed the trailing zero bytes and appended an
`IEND`, with no failures) yet the re-analysed damage level went from minor
to moderate — the trim truncated the `IDAT` chunk. -/
theorem C2_counterexample : ¬ claimC2 := by
  intro h
  have hs : (repair_file "png" pngTrailingZeroCex none).success = true := by
    with_unfolding_all decide
  rcases hbv : (repair_file "png" pngTrailingZeroCex none).damage_before
    with _ | b
  · have hbs : (repair_file "png" pngTrailingZeroCex
        none).damage_before.isSome = true := by
      with_unfolding_all decide
    rw [hbv] at hbs
    exact Bool.noConfusion hbs
  rcases hav : (repair_file "png" pngTrailingZeroCex none).damage_after
    with _ | a
  · have has : (repair_file "png" pngTrailingZeroCex
        none).damage_after.isSome = true := by
      with_unfolding_all decide
    rw [hav] at has
    exact Bool.noConfusion has
  have hle := h "png" pngTrailingZeroCex none hs b a hbv hav
  have hlb : b.damage_level = "minor" := by
    have hmap : (repair_file "png" pngTrailingZeroCex
        none).damage_before.map (fun r => r.damage_level) = some "minor" := by
      with_unfolding_all decide
    rw [hbv] at hmap
    simpa using hmap
  have hla : a.damage_level = "moderate" := by
    have hmap : (repair_file "png" pngTrailingZeroCex
        none).damage_after.map (fun r => r.damage_level) = some "moderate" := by
      with_unfolding_all decide
    rw [hav] at hmap
    simpa using hmap
  rw [hlb, hla] at hle
  exact absurd hle (by decide)

/-- **C2 witness**: the corrected statement at a concrete undamaged
16-byte input, whose repair succeeds trivially. -/
theorem C2_witness :
    (∃ b a, (repair_file "xyz" (List.replicate 16 0) none).damage_before =
        some b ∧
      (repair_file "xyz" (List.replicate 16 0) none).damage_after = some a ∧
      levelOrder a.damage_level < levelOrder b.damage_level) ∨
    ((repair_file "xyz" (List.replicate 16 0) none).actions_taken ≠ [] ∧
     (repair_file "xyz" (List.replicate 16 0) none).actions_failed = []) :=
  C2_success_meaning "xyz" (List.replicate 16 0) none
    (by with_unfolding_all decide)

end IronRod
